import Mathlib

/-!
# Business-management ledgers: loans, crops and accounts

A shallow embedding of the server controllers (`pawnController.js`,
`horticultureController.js`, `authController.js`), of the two Mongoose schemas
(`models/PawnLoan.js`, `models/Horticulture.js`), of the route tables
(`routes/*.js`, `app.js`) and of the derived totals the client computes
(`PawnLoanDetail.js`, `HorticultureDetail.js`, `HorticultureList.js`,
`PawnLoanForm.js`).

Modelling conventions.

* A JavaScript number is an IEEE-754 double: a finite value, given by the
  rational it denotes, an infinity or `NaN`.  The operators `+` and `-` round
  the exact result to the nearest double, ties to even (`JSNumber.round`); the
  sign of zero is not modelled.  A number held by a document or a payload is
  finite and is written as the rational it denotes.  A `Date` is its
  millisecond timestamp (`Int`), within the range of `Date`.
* A request body is a record whose fields are optional: `none` is an absent
  (`undefined`) field.  A present field already has the JavaScript type the
  schema declares for it, so Mongoose cast errors are outside the payload
  types; strings that a schema restricts with `enum` stay raw strings in the
  payload and are checked by the validators.
* A stored document has passed its schema: required paths are plain fields,
  optional paths are `Option`s and enumerated paths are inductive types.
* The record store is explicit state: a handler takes the store and returns
  its response together with the store it leaves behind.  `Date.now` is the
  parameter `now`.  Sub-document `_id`s are not modelled.
* A `ValidationError` carries the paths whose validators failed; the list
  stands for that set of paths, written in the order of the schema, and the
  order in which Mongoose's message names them is not modelled.
-/

namespace Ledger

/-! ## JavaScript numbers -/

set_option exponentiation.threshold 4096

/-- A JavaScript number (IEEE-754 binary64): a finite value, given by the
rational it denotes, `Infinity` or `-Infinity`, or `NaN`.  Zero has one
representation (`-0 === 0`). -/
inductive JSNumber where
  | num (q : ℚ)
  | infinity (negative : Bool)
  | NaN
  deriving DecidableEq

namespace JSNumber

/-- The number of binary digits of `n`, found by bisection over `2 ^ k` digit
positions (for `n < 2 ^ 2 ^ k`). -/
def bitLength : Nat → Nat → Nat
  | 0, n => if n = 0 then 0 else 1
  | k + 1, n => if 2 ^ 2 ^ k ≤ n then 2 ^ k + bitLength k (n / 2 ^ 2 ^ k) else bitLength k n

/-- Round-to-nearest, ties-to-even, of the quotient `n / d` counted in units of
`2 ^ -1074`, the least positive double: the result is the nearest multiple of
the unit that has at most 53 significant binary digits, and of two equally
near ones the one whose last digit is even.  Subnormal results have fewer than
53 digits and are exact multiples of the unit. -/
def roundUnits (n d : Nat) : Nat :=
  let shift := bitLength 12 (n / d) - 53
  let q := n / (d * 2 ^ shift)
  let r := n % (d * 2 ^ shift)
  let up := decide (d * 2 ^ shift < 2 * r) || (decide (2 * r = d * 2 ^ shift) && q % 2 == 1)
  (if up then q + 1 else q) * 2 ^ shift

/-- The double an exact result rounds to: the nearest double, ties to even;
a magnitude that rounds to `2 ^ 1024` or more overflows to an infinity. -/
def round (x : ℚ) : JSNumber :=
  if 2 ^ 2098 ≤ x.num.natAbs * 2 ^ 1074 / x.den then infinity (decide (x < 0))
  else
    let units := roundUnits (x.num.natAbs * 2 ^ 1074) x.den
    if 2 ^ 2098 ≤ units then infinity (decide (x < 0))
    else num (mkRat (if x < 0 then -(units : Int) else units) (2 ^ 1074))

/-- The finite double a decimal literal denotes: the double nearest to its
value. -/
def nearest (x : ℚ) : ℚ :=
  match round x with
  | num q => q
  | _ => 0

/-- The JavaScript `+` on numbers. -/
def add : JSNumber → JSNumber → JSNumber
  | num a, num b => round (a + b)
  | NaN, _ => NaN
  | _, NaN => NaN
  | infinity s, infinity t => if s = t then infinity s else NaN
  | infinity s, num _ => infinity s
  | num _, infinity t => infinity t

/-- The JavaScript binary `-` on numbers. -/
def sub : JSNumber → JSNumber → JSNumber
  | num a, num b => round (a - b)
  | NaN, _ => NaN
  | _, NaN => NaN
  | infinity s, infinity t => if s = t then NaN else infinity s
  | infinity s, num _ => infinity s
  | num _, infinity t => infinity (!t)

instance : Add JSNumber := ⟨add⟩
instance : Sub JSNumber := ⟨sub⟩
instance : Zero JSNumber := ⟨num 0⟩

/-- The number a property read yields inside an arithmetic expression:
`ToNumber(undefined)` is `NaN`. -/
def ofField : Option ℚ → JSNumber
  | some q => num q
  | none => NaN

/-- The sum of a list of numbers as `reduce((sum, x) => sum + x, 0)` computes
it: accumulated from `0`, left to right, every addition rounded. -/
def sumLeft (xs : List JSNumber) : JSNumber :=
  xs.foldl (fun sum x => sum + x) 0

/-- `Number.isInteger` on a finite value. -/
def isInteger (q : ℚ) : Prop := q.den = 1

instance (q : ℚ) : Decidable (isInteger q) := inferInstanceAs (Decidable (q.den = 1))

/-- The rational is the value of a double: rounding leaves it as it is.  Every
number a JSON body carries is one. -/
def isDouble (q : ℚ) : Prop := round q = num q

instance (q : ℚ) : Decidable (isDouble q) := inferInstanceAs (Decidable (round q = num q))

/-- A condition under which a running sum incurs no rounding: `start` and
every amount are whole numbers, and their absolute values add up to less than
`2 ^ 53`, so that every intermediate result is a safe integer
(`Number.isSafeInteger`). -/
def SafeWhole (start : ℚ) (amounts : List ℚ) : Prop :=
  isInteger start ∧ (∀ a ∈ amounts, isInteger a) ∧
    |start| + (amounts.map (fun a => |a|)).sum < 2 ^ 53

instance (start : ℚ) (amounts : List ℚ) : Decidable (SafeWhole start amounts) :=
  inferInstanceAs (Decidable (isInteger start ∧ (∀ a ∈ amounts, isInteger a) ∧
    |start| + (amounts.map (fun a => |a|)).sum < 2 ^ 53))

end JSNumber

/-! ## Documents (models/PawnLoan.js, models/Horticulture.js) -/

/-- A document identifier: the value of a 12-byte `ObjectId`. -/
abbrev ObjectId := Nat

/-- The `enum: ['interest', 'principal']` of `repayments.type`. -/
inductive RepaymentType where
  | interest
  | principal
  deriving DecidableEq

/-- The `enum: ['gold', 'land']` of `collateralType`. -/
inductive CollateralType where
  | gold
  | land
  deriving DecidableEq

/-- The `enum: ['active', 'completed', 'defaulted']` of a loan's `status`. -/
inductive LoanStatus where
  | active
  | completed
  | defaulted
  deriving DecidableEq

/-- One element of `repayments`: none of its three paths is required. -/
structure Repayment where
  amount : Option ℚ
  date : Option Int
  type : Option RepaymentType
  deriving DecidableEq

/-- The nested path `collateralDetails`: seven optional paths, none required. -/
structure CollateralDetails where
  weight : Option ℚ
  purity : Option ℚ
  description : Option String
  documentNumber : Option String
  landArea : Option ℚ
  location : Option String
  marketValue : Option ℚ
  deriving DecidableEq

/-- A stored loan document (`pawnLoanSchema`, with `timestamps: true`); `__v`
is the version key Mongoose adds to every document. -/
structure PawnLoan where
  _id : ObjectId
  customerName : String
  phoneNumber : String
  address : String
  collateralType : CollateralType
  collateralDetails : CollateralDetails
  loanAmount : ℚ
  interestRate : ℚ
  startDate : Int
  dueDate : Int
  status : LoanStatus
  repayments : List Repayment
  createdAt : Int
  updatedAt : Int
  __v : Nat
  deriving DecidableEq

/-- The `enum` of `expenses.category`. -/
inductive ExpenseCategory where
  | seeds
  | fertilizer
  | pesticides
  | labor
  | irrigation
  | other
  deriving DecidableEq

/-- The `enum: ['acres', 'hectares']` of `areaSize.unit`. -/
inductive AreaUnit where
  | acres
  | hectares
  deriving DecidableEq

/-- The `enum: ['planning', 'planted', 'growing', 'harvested']` of a crop
record's `status`. -/
inductive CropStatus where
  | planning
  | planted
  | growing
  | harvested
  deriving DecidableEq

/-- One element of `expenses`: `category` and `amount` are required, `date`
defaults to `Date.now`. -/
structure Expense where
  category : ExpenseCategory
  amount : ℚ
  date : Int
  description : Option String
  deriving DecidableEq

/-- The nested path `areaSize`. -/
structure AreaSize where
  value : ℚ
  unit : AreaUnit
  deriving DecidableEq

/-- The nested paths `expectedYield` and `actualYield`: `{ value: Number,
unit: String }`, neither required. -/
structure Yield where
  value : Option ℚ
  unit : Option String
  deriving DecidableEq

/-- A stored crop document (`horticultureSchema`, with `timestamps: true`);
`__v` is the version key Mongoose adds to every document. -/
structure Horticulture where
  _id : ObjectId
  cropType : String
  location : String
  areaSize : AreaSize
  plantingDate : Int
  expectedHarvestDate : Int
  expenses : List Expense
  expectedYield : Yield
  actualYield : Yield
  status : CropStatus
  notes : Option String
  createdAt : Int
  updatedAt : Int
  __v : Nat
  deriving DecidableEq

/-! ## Derived totals computed by the client -/

/-- PawnLoanDetail.js line 112:
`loan.repayments.reduce((sum, repayment) => sum + repayment.amount, 0)`. -/
def totalRepaidAmount (loan : PawnLoan) : JSNumber :=
  loan.repayments.foldl (fun sum repayment => sum + JSNumber.ofField repayment.amount) 0

/-- PawnLoanDetail.js lines 113-115:
`loan.loanAmount - loan.repayments.filter(repayment => repayment.type === 'principal')
  .reduce((sum, repayment) => sum + repayment.amount, 0)`. -/
def remainingAmount (loan : PawnLoan) : JSNumber :=
  JSNumber.num loan.loanAmount -
    (loan.repayments.filter (fun repayment => repayment.type = some RepaymentType.principal)).foldl
      (fun sum repayment => sum + JSNumber.ofField repayment.amount) 0

/-- HorticultureDetail.js line 119:
`record.expenses.reduce((sum, expense) => sum + expense.amount, 0)`. -/
def totalExpenses (record : Horticulture) : JSNumber :=
  record.expenses.foldl (fun sum expense => sum + JSNumber.num expense.amount) 0

/-- HorticultureList.js line 229, the `amount` handed to `CurrencyDisplay` in a
table row: `record.expenses.reduce((sum, exp) => sum + exp.amount, 0)`. -/
def listRowTotalExpenses (record : Horticulture) : JSNumber :=
  record.expenses.foldl (fun sum exp => sum + JSNumber.num exp.amount) 0

/-- The amounts of exactly those repayments whose type is `'principal'`, in
the order of the repayment list. -/
def principalAmounts (loan : PawnLoan) : List (Option ℚ) :=
  (loan.repayments.filter (fun r => r.type = some RepaymentType.principal)).map
    (fun r => r.amount)

/-- The outstanding principal in the words of the specification:
`principal(L) − Σ{r.amount : r ∈ repayments(L), r.type = principal}`, the sum
accumulated over the principal amounts in list order and the difference taken
last, both in the arithmetic of JavaScript numbers. -/
def outstandingPrincipalSpec (loan : PawnLoan) : JSNumber :=
  JSNumber.num loan.loanAmount -
    JSNumber.sumLeft ((principalAmounts loan).map JSNumber.ofField)

/-- The sum of the amounts of the repayments of one type, in the words of the
specification: `Σ{r.amount : r ∈ repayments(L), r.type = t}`, accumulated in
list order in the arithmetic of JavaScript numbers. -/
def repaidOfType (t : RepaymentType) (loan : PawnLoan) : JSNumber :=
  JSNumber.sumLeft ((loan.repayments.filter (fun r => r.type = some t)).map
    (fun r => JSNumber.ofField r.amount))

/-- The sum of the amounts of the repayments that carry no type. -/
def repaidUntyped (loan : PawnLoan) : JSNumber :=
  JSNumber.sumLeft ((loan.repayments.filter (fun r => r.type = none)).map
    (fun r => JSNumber.ofField r.amount))

/-! ## Errors, responses and the record store -/

/-- What a rejected promise carries into a controller's `catch`. -/
inductive Thrown where
  /-- A Mongoose `ValidationError`, with the paths whose validators failed. -/
  | validationError (paths : List String)
  /-- A Mongoose `CastError`, with the path that could not be cast. -/
  | castError (path : String)
  /-- Any other rejection of a store call, with its message. -/
  | storeError (message : String)
  deriving DecidableEq

/-- The `error` member of a failure body: a string literal of the controller,
or `error.message` of what was caught. -/
inductive ErrorText where
  | text (s : String)
  | messageOf (e : Thrown)
  deriving DecidableEq

/-- A response body: `{ success: true, ...data }` or
`{ success: false, error }`. -/
inductive Body (α : Type) where
  | success (data : α)
  | failure (error : ErrorText)
  deriving DecidableEq

/-- What a handler sends: the status code (`res.json` alone sends 200) and the
body. -/
structure Response (α : Type) where
  status : Nat
  body : Body α
  deriving DecidableEq

/-- The route parameter `req.params.id`: a string that casts to an `ObjectId`,
or one that does not. -/
inductive IdParam where
  | valid (id : ObjectId)
  | malformed (raw : String)
  deriving DecidableEq

/-- Modelled from the spec: `models/User.js` is not among the sources.  A User
Account is {identity (unique), secret (salted/hashed), role}; these are the
paths `authController.js` reads and writes. -/
structure User where
  _id : ObjectId
  username : String
  password : String
  role : Option String
  deriving DecidableEq

/-- The record store: the three collections, and `fault`, which when set makes
every call to the store reject with an error of that message. -/
structure Db where
  pawnLoans : List PawnLoan
  horticultures : List Horticulture
  users : List User
  fault : Option String
  deriving DecidableEq

/-- The call `PawnLoan.findById(req.params.id)`. -/
def PawnLoan.findById (db : Db) : IdParam → Except Thrown (Option PawnLoan)
  | IdParam.malformed _ => Except.error (Thrown.castError "_id")
  | IdParam.valid id =>
    match db.fault with
    | some message => Except.error (Thrown.storeError message)
    | none => Except.ok (db.pawnLoans.find? (fun d => d._id == id))

/-- What a loaded document has pending when `save()` is called on it: no
modified path, assigned paths only, or an element pushed onto an array. -/
inductive Pending where
  | unmodified
  | modified
  | pushed
  deriving DecidableEq

/-- The update `save()` sends for a modified loan: the stored document of
that `_id` is replaced. -/
def PawnLoan.write (db : Db) (saved : PawnLoan) : Except Thrown (PawnLoan × Db) :=
  match db.fault with
  | some message => Except.error (Thrown.storeError message)
  | none =>
    Except.ok (saved,
      { db with pawnLoans := db.pawnLoans.map (fun d => if d._id == saved._id then saved else d) })

/-- The write of `pawnLoan.save()` once validation has passed.  A document
without a modified path is not written at all.  Otherwise `timestamps: true`
stamps `updatedAt`, and an element pushed onto an array also increments the
version key `__v`. -/
def PawnLoan.save (now : Int) (db : Db) (pending : Pending) (doc : PawnLoan) :
    Except Thrown (PawnLoan × Db) :=
  match pending with
  | Pending.unmodified => Except.ok (doc, db)
  | Pending.modified => PawnLoan.write db { doc with updatedAt := now }
  | Pending.pushed => PawnLoan.write db { doc with updatedAt := now, __v := doc.__v + 1 }

/-- The call `Horticulture.findById(req.params.id)`. -/
def Horticulture.findById (db : Db) : IdParam → Except Thrown (Option Horticulture)
  | IdParam.malformed _ => Except.error (Thrown.castError "_id")
  | IdParam.valid id =>
    match db.fault with
    | some message => Except.error (Thrown.storeError message)
    | none => Except.ok (db.horticultures.find? (fun d => d._id == id))

/-- The update `save()` sends for a modified crop record. -/
def Horticulture.write (db : Db) (saved : Horticulture) : Except Thrown (Horticulture × Db) :=
  match db.fault with
  | some message => Except.error (Thrown.storeError message)
  | none =>
    Except.ok (saved,
      { db with
        horticultures := db.horticultures.map (fun d => if d._id == saved._id then saved else d) })

/-- The write of `horticulture.save()` once validation has passed: nothing for
a document without a modified path; otherwise `updatedAt` is stamped, and a
pushed array element also increments `__v`. -/
def Horticulture.save (now : Int) (db : Db) (pending : Pending) (doc : Horticulture) :
    Except Thrown (Horticulture × Db) :=
  match pending with
  | Pending.unmodified => Except.ok (doc, db)
  | Pending.modified => Horticulture.write db { doc with updatedAt := now }
  | Pending.pushed => Horticulture.write db { doc with updatedAt := now, __v := doc.__v + 1 }

/-! ## Schema validation (models/PawnLoan.js, models/Horticulture.js) -/

/-- The code points `String.prototype.trim` strips (ECMAScript `WhiteSpace` and
`LineTerminator`). -/
def isJSWhiteSpace (c : Char) : Bool :=
  let n := c.toNat
  n == 0x09 || n == 0x0A || n == 0x0B || n == 0x0C || n == 0x0D || n == 0x20 || n == 0xA0 ||
  n == 0x1680 || (0x2000 ≤ n && n ≤ 0x200A) || n == 0x2028 || n == 0x2029 || n == 0x202F ||
  n == 0x205F || n == 0x3000 || n == 0xFEFF

/-- The setter of `trim: true`: `String.prototype.trim`. -/
def jsTrim (s : String) : String :=
  String.mk ((s.data.dropWhile isJSWhiteSpace).reverse.dropWhile isJSWhiteSpace).reverse

/-- A `String` path with `required`: the value after the `trim` setter when the
schema asks for it, or `none` when the required validator fails (the path is
absent or the string is empty). -/
def requiredString (trim : Bool) (value : Option String) : Option String :=
  match value with
  | none => none
  | some s =>
    let cast := if trim then jsTrim s else s
    if cast = "" then none else some cast

/-- The member of `enum: ['interest', 'principal']` a string names. -/
def RepaymentType.ofString? : String → Option RepaymentType
  | "interest" => some RepaymentType.interest
  | "principal" => some RepaymentType.principal
  | _ => none

/-- The member of `enum: ['gold', 'land']` a string names. -/
def CollateralType.ofString? : String → Option CollateralType
  | "gold" => some CollateralType.gold
  | "land" => some CollateralType.land
  | _ => none

/-- The member of `enum: ['active', 'completed', 'defaulted']` a string
names. -/
def LoanStatus.ofString? : String → Option LoanStatus
  | "active" => some LoanStatus.active
  | "completed" => some LoanStatus.completed
  | "defaulted" => some LoanStatus.defaulted
  | _ => none

/-- The member of the `expenses.category` enum a string names. -/
def ExpenseCategory.ofString? : String → Option ExpenseCategory
  | "seeds" => some ExpenseCategory.seeds
  | "fertilizer" => some ExpenseCategory.fertilizer
  | "pesticides" => some ExpenseCategory.pesticides
  | "labor" => some ExpenseCategory.labor
  | "irrigation" => some ExpenseCategory.irrigation
  | "other" => some ExpenseCategory.other
  | _ => none

/-- A repayment as it arrives in a request body. -/
structure RepaymentPayload where
  amount : Option ℚ
  date : Option Int
  type : Option String
  deriving DecidableEq

/-- The validators of one element of `repayments` (PawnLoan.js lines 56-63):
`amount: Number` and `date: Date` carry none, `type` carries `enum` only, which
does not run on an absent value.  The result is the stored element, or the
failing path. -/
def validateRepayment (index : Nat) (body : RepaymentPayload) :
    Except (List String) Repayment :=
  match body.type with
  | none => Except.ok { amount := body.amount, date := body.date, type := none }
  | some s =>
    match RepaymentType.ofString? s with
    | some t => Except.ok { amount := body.amount, date := body.date, type := some t }
    | none => Except.error ["repayments." ++ toString index ++ ".type"]

/-- An expense as it arrives in a request body. -/
structure ExpensePayload where
  category : Option String
  amount : Option ℚ
  date : Option Int
  description : Option String
  deriving DecidableEq

/-- The validators of one element of `expenses` (Horticulture.js lines 32-47):
`category` is required and enumerated, `amount` is required, `date` defaults to
`Date.now`.  The result is the stored element, or the failing paths in the
order of the schema. -/
def validateExpense (now : Int) (index : Nat) (body : ExpensePayload) :
    Except (List String) Expense :=
  let category := (requiredString false body.category).bind ExpenseCategory.ofString?
  match category, body.amount with
  | some c, some a =>
    Except.ok { category := c, amount := a, date := body.date.getD now,
                description := body.description }
  | none, some _ => Except.error ["expenses." ++ toString index ++ ".category"]
  | some _, none => Except.error ["expenses." ++ toString index ++ ".amount"]
  | none, none =>
    Except.error ["expenses." ++ toString index ++ ".category",
                  "expenses." ++ toString index ++ ".amount"]

/-- The body of `POST /api/pawn`.  An absent `repayments` is the empty list. -/
structure LoanPayload where
  customerName : Option String
  phoneNumber : Option String
  address : Option String
  collateralType : Option String
  collateralDetails : Option CollateralDetails
  loanAmount : Option ℚ
  interestRate : Option ℚ
  startDate : Option Int
  dueDate : Option Int
  status : Option String
  repayments : List RepaymentPayload
  deriving DecidableEq

/-- The elements of a `repayments` array as stored, when each passes
`validateRepayment`. -/
def castRepayments : Nat → List RepaymentPayload → Option (List Repayment)
  | _, [] => some []
  | index, body :: rest =>
    match validateRepayment index body, castRepayments (index + 1) rest with
    | Except.ok entry, some entries => some (entry :: entries)
    | _, _ => none

/-- The failing paths of a `repayments` array. -/
def repaymentsFailingPaths : Nat → List RepaymentPayload → List String
  | _, [] => []
  | index, body :: rest =>
    (match validateRepayment index body with
      | Except.ok _ => []
      | Except.error paths => paths) ++ repaymentsFailingPaths (index + 1) rest

/-- The document `pawnLoanSchema` (PawnLoan.js lines 3-66) makes of a payload
when every validator passes: the seven `required` paths are present (strings
non-empty, `customerName` and `phoneNumber` after `trim`), `collateralType` and
`status` are members of their enums, `startDate` defaults to `Date.now` and
`status` to `'active'`.  `collateralDetails` has no validator.  A new document
has version 0. -/
def PawnLoan.cast (now : Int) (fresh : ObjectId) (body : LoanPayload) : Option PawnLoan := do
  let customerName ← requiredString true body.customerName
  let phoneNumber ← requiredString true body.phoneNumber
  let address ← requiredString false body.address
  let collateralType ← (requiredString false body.collateralType).bind CollateralType.ofString?
  let loanAmount ← body.loanAmount
  let interestRate ← body.interestRate
  let dueDate ← body.dueDate
  let status ← match body.status with
    | none => some LoanStatus.active
    | some s => LoanStatus.ofString? s
  let repayments ← castRepayments 0 body.repayments
  pure {
    _id := fresh
    customerName := customerName
    phoneNumber := phoneNumber
    address := address
    collateralType := collateralType
    collateralDetails :=
      body.collateralDetails.getD ⟨none, none, none, none, none, none, none⟩
    loanAmount := loanAmount
    interestRate := interestRate
    startDate := body.startDate.getD now
    dueDate := dueDate
    status := status
    repayments := repayments
    createdAt := now
    updatedAt := now
    __v := 0 }

/-- The paths of a loan payload whose validators fail, listed in the order of
the schema. -/
def PawnLoan.failingPaths (body : LoanPayload) : List String :=
  (if (requiredString true body.customerName).isNone then ["customerName"] else []) ++
  (if (requiredString true body.phoneNumber).isNone then ["phoneNumber"] else []) ++
  (if (requiredString false body.address).isNone then ["address"] else []) ++
  (if ((requiredString false body.collateralType).bind CollateralType.ofString?).isNone
    then ["collateralType"] else []) ++
  (if body.loanAmount.isNone then ["loanAmount"] else []) ++
  (if body.interestRate.isNone then ["interestRate"] else []) ++
  (if body.dueDate.isNone then ["dueDate"] else []) ++
  (match body.status with
    | none => []
    | some s => if (LoanStatus.ofString? s).isNone then ["status"] else []) ++
  repaymentsFailingPaths 0 body.repayments

/-- The call `PawnLoan.create(req.body)`: validate, then insert under the
`ObjectId` generated for the new document (`fresh`). -/
def PawnLoan.create (now : Int) (fresh : ObjectId) (db : Db) (body : LoanPayload) :
    Except Thrown (PawnLoan × Db) :=
  match PawnLoan.cast now fresh body with
  | none => Except.error (Thrown.validationError (PawnLoan.failingPaths body))
  | some doc =>
    match db.fault with
    | some message => Except.error (Thrown.storeError message)
    | none => Except.ok (doc, { db with pawnLoans := db.pawnLoans ++ [doc] })

/-! ## pawnController.js -/

/-- `exports.createPawnLoan` (pawnController.js lines 6-19). -/
def createPawnLoan (now : Int) (fresh : ObjectId) (db : Db) (body : LoanPayload) :
    Response PawnLoan × Db :=
  match PawnLoan.create now fresh db body with
  | Except.ok (pawnLoan, db') => (⟨201, Body.success pawnLoan⟩, db')
  | Except.error error => (⟨400, Body.failure (ErrorText.messageOf error)⟩, db)

/-- The two statements `pawnLoan.repayments.push(req.body); await
pawnLoan.save()`: `save` first runs the validators on the element pushed, and
writes only when they pass. -/
def pushRepaymentAndSave (now : Int) (db : Db) (pawnLoan : PawnLoan) (body : RepaymentPayload) :
    Except Thrown (PawnLoan × Db) :=
  match validateRepayment pawnLoan.repayments.length body with
  | Except.error paths => Except.error (Thrown.validationError paths)
  | Except.ok entry =>
    PawnLoan.save now db Pending.pushed
      { pawnLoan with repayments := pawnLoan.repayments ++ [entry] }

/-- `exports.addRepayment` (pawnController.js lines 122-145). -/
def addRepayment (now : Int) (db : Db) (id : IdParam) (body : RepaymentPayload) :
    Response PawnLoan × Db :=
  match PawnLoan.findById db id with
  | Except.error error => (⟨400, Body.failure (ErrorText.messageOf error)⟩, db)
  | Except.ok none => (⟨404, Body.failure (ErrorText.text "Pawn loan not found")⟩, db)
  | Except.ok (some pawnLoan) =>
    match pushRepaymentAndSave now db pawnLoan body with
    | Except.error error => (⟨400, Body.failure (ErrorText.messageOf error)⟩, db)
    | Except.ok (saved, db') => (⟨200, Body.success saved⟩, db')

/-! ## horticultureController.js -/

/-- The two statements `horticulture.expenses.push(req.body); await
horticulture.save()`. -/
def pushExpenseAndSave (now : Int) (db : Db) (horticulture : Horticulture)
    (body : ExpensePayload) : Except Thrown (Horticulture × Db) :=
  match validateExpense now horticulture.expenses.length body with
  | Except.error paths => Except.error (Thrown.validationError paths)
  | Except.ok entry =>
    Horticulture.save now db Pending.pushed
      { horticulture with expenses := horticulture.expenses ++ [entry] }

/-- `exports.addExpense` (horticultureController.js lines 122-145). -/
def addExpense (now : Int) (db : Db) (id : IdParam) (body : ExpensePayload) :
    Response Horticulture × Db :=
  match Horticulture.findById db id with
  | Except.error error => (⟨400, Body.failure (ErrorText.messageOf error)⟩, db)
  | Except.ok none =>
    (⟨404, Body.failure (ErrorText.text "Horticulture record not found")⟩, db)
  | Except.ok (some horticulture) =>
    match pushExpenseAndSave now db horticulture body with
    | Except.error error => (⟨400, Body.failure (ErrorText.messageOf error)⟩, db)
    | Except.ok (saved, db') => (⟨200, Body.success saved⟩, db')

/-- The body of `PUT /api/horticulture/:id/harvest`. -/
structure HarvestPayload where
  actualYield : Option Yield
  deriving DecidableEq

/-- `exports.updateHarvest` (horticultureController.js lines 150-174):
`horticulture.actualYield = req.body.actualYield; horticulture.status =
'harvested'; await horticulture.save()`.  Assigning a nested path overwrites
it, so an absent `actualYield` leaves both of its paths unset; neither
`actualYield.value` nor `actualYield.unit` carries a validator, and
`'harvested'` is a member of the `status` enum.  An assignment marks its path
modified unless the value assigned equals the one the document holds: the two
assignments leave no modified path exactly when the body's `actualYield` is an
object equal to the stored one and the record is already `harvested`. -/
def updateHarvest (now : Int) (db : Db) (id : IdParam) (body : HarvestPayload) :
    Response Horticulture × Db :=
  match Horticulture.findById db id with
  | Except.error error => (⟨400, Body.failure (ErrorText.messageOf error)⟩, db)
  | Except.ok none =>
    (⟨404, Body.failure (ErrorText.text "Horticulture record not found")⟩, db)
  | Except.ok (some horticulture) =>
    match Horticulture.save now db
        (if body.actualYield = some horticulture.actualYield ∧
            horticulture.status = CropStatus.harvested
          then Pending.unmodified else Pending.modified)
        { horticulture with
          actualYield := body.actualYield.getD ⟨none, none⟩
          status := CropStatus.harvested } with
    | Except.error error => (⟨400, Body.failure (ErrorText.messageOf error)⟩, db)
    | Except.ok (saved, db') => (⟨200, Body.success saved⟩, db')

/-! ## authController.js -/

/-- The claims of a signed session token; the signature is not modelled. -/
structure Token where
  id : ObjectId
  iat : Int
  exp : Int
  deriving DecidableEq

/-- `generateToken` (authController.js lines 5-9):
`jwt.sign({ id }, process.env.JWT_SECRET, { expiresIn: '30d' })`.  `iat` is the
clock in whole seconds and `exp` lies thirty days of seconds after it. -/
def generateToken (now : Int) (id : ObjectId) : Token :=
  { id := id, iat := now / 1000, exp := now / 1000 + 30 * 24 * 60 * 60 }

/-- Modelled from the spec: `models/User.js` is not among the sources.  What it
contributes to the controller is taken as a parameter: the instance method
`matchPassword` (the secret checked against the stored salted hash) and the
static `create` (schema validation, hashing of the secret and insertion). -/
structure UserModel where
  matchPassword : User → String → Bool
  create : Db → Option String → Option String → Option String → Except Thrown (User × Db)

/-- The call `User.findOne({ username })`: the first account with exactly that
username; an absent username matches no account. -/
def User.findOne (db : Db) (username : Option String) : Except Thrown (Option User) :=
  match db.fault with
  | some message => Except.error (Thrown.storeError message)
  | none =>
    match username with
    | none => Except.ok none
    | some name => Except.ok (db.users.find? (fun u => u.username == name))

/-- The body of `POST /api/auth/login`. -/
structure LoginPayload where
  username : Option String
  password : Option String
  deriving DecidableEq

/-- The body of `POST /api/auth/register`. -/
structure RegisterPayload where
  username : Option String
  password : Option String
  role : Option String
  deriving DecidableEq

/-- The `user` member of a successful auth response. -/
structure UserView where
  id : ObjectId
  username : String
  role : Option String
  deriving DecidableEq

/-- The members `token` and `user` of a successful auth response. -/
structure AuthData where
  token : Token
  user : UserView
  deriving DecidableEq

/-- The test `!value` on an optional string: absent and `''` are falsy. -/
def isFalsy : Option String → Bool
  | none => true
  | some s => s == ""

/-- `exports.login` (authController.js lines 14-62).  It only reads the
store. -/
def login (model : UserModel) (now : Int) (db : Db) (body : LoginPayload) : Response AuthData :=
  if isFalsy body.username || isFalsy body.password then
    ⟨400, Body.failure (ErrorText.text "Please provide username and password")⟩
  else
    match User.findOne db body.username with
    | Except.error error => ⟨500, Body.failure (ErrorText.messageOf error)⟩
    | Except.ok none => ⟨401, Body.failure (ErrorText.text "Invalid credentials")⟩
    | Except.ok (some user) =>
      if !model.matchPassword user (body.password.getD "") then
        ⟨401, Body.failure (ErrorText.text "Invalid credentials")⟩
      else
        ⟨200, Body.success
          { token := generateToken now user._id
            user := { id := user._id, username := user.username, role := user.role } }⟩

/-- `exports.register` (authController.js lines 67-105). -/
def register (model : UserModel) (now : Int) (db : Db) (body : RegisterPayload) :
    Response AuthData × Db :=
  match User.findOne db body.username with
  | Except.error error => (⟨500, Body.failure (ErrorText.messageOf error)⟩, db)
  | Except.ok (some _) => (⟨400, Body.failure (ErrorText.text "Username already exists")⟩, db)
  | Except.ok none =>
    match model.create db body.username body.password body.role with
    | Except.error error => (⟨500, Body.failure (ErrorText.messageOf error)⟩, db)
    | Except.ok (user, db') =>
      (⟨201, Body.success
        { token := generateToken now user._id
          user := { id := user._id, username := user.username, role := user.role } }⟩, db')

/-! ## The loan form's schema (PawnLoanForm.js) -/

/-- The values of the loan form as the schema receives them: `none` is a field
left empty, which reaches the schema as `undefined`. -/
structure LoanFormValues where
  customerName : Option String
  phoneNumber : Option String
  address : Option String
  collateralType : Option String
  loanAmount : Option ℚ
  interestRate : Option ℚ
  startDate : Option Int
  dueDate : Option Int
  weight : Option ℚ
  purity : Option ℚ
  description : Option String
  documentNumber : Option String
  landArea : Option ℚ
  location : Option String
  marketValue : Option ℚ
  deriving DecidableEq

/-- The `length` of a JavaScript string, in UTF-16 code units. -/
def jsLength (s : String) : Nat :=
  s.data.foldl (fun n c => n + (if 0x10000 ≤ c.toNat then 2 else 1)) 0

/-- The test `/^[0-9]{10}$/`. -/
def isTenDigits (s : String) : Bool :=
  s.data.length == 10 && s.data.all (fun c => decide ('0' ≤ c ∧ c ≤ '9'))

/-- `Yup.string().required()`: the value is present and not `''`. -/
def yupRequiredString : Option String → Bool
  | none => false
  | some s => s != ""

/-- `validationSchema` (PawnLoanForm.js lines 25-81): the fields whose rules
fail, in the order the schema lists them.  The test `min(Yup.ref('startDate'))`
compares `dueDate` with the value of `startDate`; against an absent
`startDate` the comparison is false, so `dueDate` is reported as well. -/
def validationSchema (values : LoanFormValues) : List String :=
  (if yupRequiredString values.customerName &&
      decide (2 ≤ jsLength (values.customerName.getD "")) then [] else ["customerName"]) ++
  (if yupRequiredString values.phoneNumber && isTenDigits (values.phoneNumber.getD "")
    then [] else ["phoneNumber"]) ++
  (if yupRequiredString values.address then [] else ["address"]) ++
  (if values.collateralType = some "gold" ∨ values.collateralType = some "land"
    then [] else ["collateralType"]) ++
  (match values.loanAmount with
    | some amount => if 0 < amount ∧ 1000 ≤ amount then [] else ["loanAmount"]
    | none => ["loanAmount"]) ++
  (match values.interestRate with
    | some rate => if 0 < rate ∧ rate ≤ 100 then [] else ["interestRate"]
    | none => ["interestRate"]) ++
  (if values.startDate.isSome then [] else ["startDate"]) ++
  (match values.dueDate, values.startDate with
    | some due, some start => if start ≤ due then [] else ["dueDate"]
    | some _, none => ["dueDate"]
    | none, _ => ["dueDate"]) ++
  (if values.collateralType = some "gold" then
    (match values.weight with
      | some weight => if 0 < weight then [] else ["weight"]
      | none => ["weight"]) ++
    (match values.purity with
      | some purity => if 1 ≤ purity ∧ purity ≤ 100 then [] else ["purity"]
      | none => ["purity"])
   else []) ++
  (if values.collateralType = some "land" then
    (if yupRequiredString values.documentNumber then [] else ["documentNumber"]) ++
    (match values.landArea with
      | some area => if 0 < area then [] else ["landArea"]
      | none => ["landArea"]) ++
    (if yupRequiredString values.location then [] else ["location"]) ++
    (match values.marketValue with
      | some value => if 0 < value then [] else ["marketValue"]
      | none => ["marketValue"])
   else [])

/-! ## Creating a crop record (models/Horticulture.js, horticultureController.js) -/

/-- The member of `enum: ['acres', 'hectares']` a string names. -/
def AreaUnit.ofString? : String → Option AreaUnit
  | "acres" => some AreaUnit.acres
  | "hectares" => some AreaUnit.hectares
  | _ => none

/-- The member of `enum: ['planning', 'planted', 'growing', 'harvested']` a
string names. -/
def CropStatus.ofString? : String → Option CropStatus
  | "planning" => some CropStatus.planning
  | "planted" => some CropStatus.planted
  | "growing" => some CropStatus.growing
  | "harvested" => some CropStatus.harvested
  | _ => none

/-- The nested path `areaSize` as it arrives in a request body. -/
structure AreaSizePayload where
  value : Option ℚ
  unit : Option String
  deriving DecidableEq

/-- The body of `POST /api/horticulture`.  An absent `expenses` is the empty
list. -/
structure HorticulturePayload where
  cropType : Option String
  location : Option String
  areaSize : Option AreaSizePayload
  plantingDate : Option Int
  expectedHarvestDate : Option Int
  expenses : List ExpensePayload
  expectedYield : Option Yield
  actualYield : Option Yield
  status : Option String
  notes : Option String
  deriving DecidableEq

/-- The elements of an `expenses` array as stored, when each passes
`validateExpense`. -/
def castExpenses (now : Int) : Nat → List ExpensePayload → Option (List Expense)
  | _, [] => some []
  | index, body :: rest =>
    match validateExpense now index body, castExpenses now (index + 1) rest with
    | Except.ok entry, some entries => some (entry :: entries)
    | _, _ => none

/-- The failing paths of an `expenses` array. -/
def expensesFailingPaths (now : Int) : Nat → List ExpensePayload → List String
  | _, [] => []
  | index, body :: rest =>
    (match validateExpense now index body with
      | Except.ok _ => []
      | Except.error paths => paths) ++ expensesFailingPaths now (index + 1) rest

/-- The document `horticultureSchema` (Horticulture.js lines 3-64) makes of a
payload when every validator passes: `cropType` (after `trim`), `location`,
`areaSize.value`, `plantingDate` and `expectedHarvestDate` are present,
`areaSize.unit` and `status` are members of their enums and default to
`'acres'` and `'planning'`, and every element of `expenses` passes its own
validators. -/
def Horticulture.cast (now : Int) (fresh : ObjectId) (body : HorticulturePayload) :
    Option Horticulture := do
  let cropType ← requiredString true body.cropType
  let location ← requiredString false body.location
  let areaValue ← body.areaSize.bind (fun a => a.value)
  let areaUnit ← match body.areaSize.bind (fun a => a.unit) with
    | none => some AreaUnit.acres
    | some s => AreaUnit.ofString? s
  let plantingDate ← body.plantingDate
  let expectedHarvestDate ← body.expectedHarvestDate
  let expenses ← castExpenses now 0 body.expenses
  let status ← match body.status with
    | none => some CropStatus.planning
    | some s => CropStatus.ofString? s
  pure {
    _id := fresh
    cropType := cropType
    location := location
    areaSize := ⟨areaValue, areaUnit⟩
    plantingDate := plantingDate
    expectedHarvestDate := expectedHarvestDate
    expenses := expenses
    expectedYield := body.expectedYield.getD ⟨none, none⟩
    actualYield := body.actualYield.getD ⟨none, none⟩
    status := status
    notes := body.notes
    createdAt := now
    updatedAt := now
    __v := 0 }

/-- The paths of a crop payload whose validators fail. -/
def Horticulture.failingPaths (now : Int) (body : HorticulturePayload) : List String :=
  (if (requiredString true body.cropType).isNone then ["cropType"] else []) ++
  (if (requiredString false body.location).isNone then ["location"] else []) ++
  (if (body.areaSize.bind (fun a => a.value)).isNone then ["areaSize.value"] else []) ++
  (match body.areaSize.bind (fun a => a.unit) with
    | none => []
    | some s => if (AreaUnit.ofString? s).isNone then ["areaSize.unit"] else []) ++
  (if body.plantingDate.isNone then ["plantingDate"] else []) ++
  (if body.expectedHarvestDate.isNone then ["expectedHarvestDate"] else []) ++
  expensesFailingPaths now 0 body.expenses ++
  (match body.status with
    | none => []
    | some s => if (CropStatus.ofString? s).isNone then ["status"] else [])

/-- The call `Horticulture.create(req.body)`: validate, then insert under the
`ObjectId` generated for the new document (`fresh`). -/
def Horticulture.create (now : Int) (fresh : ObjectId) (db : Db) (body : HorticulturePayload) :
    Except Thrown (Horticulture × Db) :=
  match Horticulture.cast now fresh body with
  | none => Except.error (Thrown.validationError (Horticulture.failingPaths now body))
  | some doc =>
    match db.fault with
    | some message => Except.error (Thrown.storeError message)
    | none => Except.ok (doc, { db with horticultures := db.horticultures ++ [doc] })

/-- `exports.createHorticulture` (horticultureController.js lines 6-19). -/
def createHorticulture (now : Int) (fresh : ObjectId) (db : Db) (body : HorticulturePayload) :
    Response Horticulture × Db :=
  match Horticulture.create now fresh db body with
  | Except.ok (horticulture, db') => (⟨201, Body.success horticulture⟩, db')
  | Except.error error => (⟨400, Body.failure (ErrorText.messageOf error)⟩, db)

/-! ## Updating a loan (pawnController.js) -/

/-- The body of `PUT /api/pawn/:id`: `none` is a path the update does not
name. -/
structure LoanUpdatePayload where
  customerName : Option String
  phoneNumber : Option String
  address : Option String
  collateralType : Option String
  collateralDetails : Option CollateralDetails
  loanAmount : Option ℚ
  interestRate : Option ℚ
  startDate : Option Int
  dueDate : Option Int
  status : Option String
  repayments : Option (List RepaymentPayload)
  deriving DecidableEq

/-- An update whose named paths have passed their validators. -/
structure LoanUpdate where
  customerName : Option String
  phoneNumber : Option String
  address : Option String
  collateralType : Option CollateralType
  collateralDetails : Option CollateralDetails
  loanAmount : Option ℚ
  interestRate : Option ℚ
  startDate : Option Int
  dueDate : Option Int
  status : Option LoanStatus
  repayments : Option (List Repayment)
  deriving DecidableEq

/-- A path of an update: not named, or named with a value that must pass
`check`. -/
def castNamed {α β : Type} (check : α → Option β) : Option α → Option (Option β)
  | none => some none
  | some value => (check value).map some

/-- The update validators of `runValidators: true`: they run on the paths the
update names, each path with the validators `pawnLoanSchema` declares for it
(`required` fails on an empty string, `enum` on a string outside the enum);
no validator looks at another path or at the stored document. -/
def PawnLoan.castUpdate (body : LoanUpdatePayload) : Option LoanUpdate := do
  let customerName ← castNamed (fun s => requiredString true (some s)) body.customerName
  let phoneNumber ← castNamed (fun s => requiredString true (some s)) body.phoneNumber
  let address ← castNamed (fun s => requiredString false (some s)) body.address
  let collateralType ← castNamed
    (fun s => (requiredString false (some s)).bind CollateralType.ofString?) body.collateralType
  let status ← castNamed LoanStatus.ofString? body.status
  let repayments ← castNamed (castRepayments 0) body.repayments
  pure {
    customerName := customerName
    phoneNumber := phoneNumber
    address := address
    collateralType := collateralType
    collateralDetails := body.collateralDetails
    loanAmount := body.loanAmount
    interestRate := body.interestRate
    startDate := body.startDate
    dueDate := body.dueDate
    status := status
    repayments := repayments }

/-- The paths of an update whose validators fail. -/
def PawnLoan.updateFailingPaths (body : LoanUpdatePayload) : List String :=
  (if (castNamed (fun s => requiredString true (some s)) body.customerName).isNone
    then ["customerName"] else []) ++
  (if (castNamed (fun s => requiredString true (some s)) body.phoneNumber).isNone
    then ["phoneNumber"] else []) ++
  (if (castNamed (fun s => requiredString false (some s)) body.address).isNone
    then ["address"] else []) ++
  (if (castNamed (fun s => (requiredString false (some s)).bind CollateralType.ofString?)
      body.collateralType).isNone then ["collateralType"] else []) ++
  (if (castNamed LoanStatus.ofString? body.status).isNone then ["status"] else []) ++
  (match body.repayments with
    | none => []
    | some repayments => repaymentsFailingPaths 0 repayments)

/-- The stored document after `$set` of the named paths; `timestamps: true`
stamps `updatedAt`, and `findByIdAndUpdate` leaves the version key as it
is. -/
def PawnLoan.merge (now : Int) (doc : PawnLoan) (update : LoanUpdate) : PawnLoan :=
  { _id := doc._id
    customerName := update.customerName.getD doc.customerName
    phoneNumber := update.phoneNumber.getD doc.phoneNumber
    address := update.address.getD doc.address
    collateralType := update.collateralType.getD doc.collateralType
    collateralDetails := update.collateralDetails.getD doc.collateralDetails
    loanAmount := update.loanAmount.getD doc.loanAmount
    interestRate := update.interestRate.getD doc.interestRate
    startDate := update.startDate.getD doc.startDate
    dueDate := update.dueDate.getD doc.dueDate
    status := update.status.getD doc.status
    repayments := update.repayments.getD doc.repayments
    createdAt := doc.createdAt
    updatedAt := now
    __v := doc.__v }

/-- The call `PawnLoan.findByIdAndUpdate(req.params.id, req.body, { new: true,
runValidators: true })`: the id is cast, the update is validated, and then the
store replaces the document of that id and returns the new one, or returns
`null` when it holds none. -/
def PawnLoan.findByIdAndUpdate (now : Int) (db : Db) (id : IdParam) (body : LoanUpdatePayload) :
    Except Thrown (Option PawnLoan × Db) :=
  match id with
  | IdParam.malformed _ => Except.error (Thrown.castError "_id")
  | IdParam.valid oid =>
    match PawnLoan.castUpdate body with
    | none => Except.error (Thrown.validationError (PawnLoan.updateFailingPaths body))
    | some update =>
      match db.fault with
      | some message => Except.error (Thrown.storeError message)
      | none =>
        match db.pawnLoans.find? (fun d => d._id == oid) with
        | none => Except.ok (none, db)
        | some doc =>
          Except.ok (some (PawnLoan.merge now doc update),
            { db with
              pawnLoans := db.pawnLoans.map
                (fun d => if d._id == oid then PawnLoan.merge now doc update else d) })

/-- `exports.updatePawnLoan` (pawnController.js lines 67-93). -/
def updatePawnLoan (now : Int) (db : Db) (id : IdParam) (body : LoanUpdatePayload) :
    Response PawnLoan × Db :=
  match PawnLoan.findByIdAndUpdate now db id body with
  | Except.error error => (⟨400, Body.failure (ErrorText.messageOf error)⟩, db)
  | Except.ok (none, _) => (⟨404, Body.failure (ErrorText.text "Pawn loan not found")⟩, db)
  | Except.ok (some pawnLoan, db') => (⟨200, Body.success pawnLoan⟩, db')

/-- The string that names a member of `enum: ['interest', 'principal']`. -/
def RepaymentType.toString : RepaymentType → String
  | RepaymentType.interest => "interest"
  | RepaymentType.principal => "principal"

/-- The string that names a member of `enum: ['gold', 'land']`. -/
def CollateralType.toString : CollateralType → String
  | CollateralType.gold => "gold"
  | CollateralType.land => "land"

/-- The string that names a member of the loan `status` enum. -/
def LoanStatus.toString : LoanStatus → String
  | LoanStatus.active => "active"
  | LoanStatus.completed => "completed"
  | LoanStatus.defaulted => "defaulted"

/-- The string that names a member of the crop `status` enum. -/
def CropStatus.toString : CropStatus → String
  | CropStatus.planning => "planning"
  | CropStatus.planted => "planted"
  | CropStatus.growing => "growing"
  | CropStatus.harvested => "harvested"

/-! ## The merged record of an update, in the words of the specification -/

/-- A stored repayment as the payload it would arrive as. -/
def Repayment.toPayload (repayment : Repayment) : RepaymentPayload :=
  { amount := repayment.amount
    date := repayment.date
    type := repayment.type.map RepaymentType.toString }

/-- A stored loan as the payload it would arrive as. -/
def PawnLoan.toPayload (doc : PawnLoan) : LoanPayload :=
  { customerName := some doc.customerName
    phoneNumber := some doc.phoneNumber
    address := some doc.address
    collateralType := some doc.collateralType.toString
    collateralDetails := some doc.collateralDetails
    loanAmount := some doc.loanAmount
    interestRate := some doc.interestRate
    startDate := some doc.startDate
    dueDate := some doc.dueDate
    status := some doc.status.toString
    repayments := doc.repayments.map Repayment.toPayload }

/-- The merged record of an update in the words of the specification: the
existing fields overlaid with the payload. -/
def mergedRecord (doc : PawnLoan) (body : LoanUpdatePayload) : LoanPayload :=
  { customerName := some (body.customerName.getD doc.customerName)
    phoneNumber := some (body.phoneNumber.getD doc.phoneNumber)
    address := some (body.address.getD doc.address)
    collateralType := some (body.collateralType.getD doc.collateralType.toString)
    collateralDetails := some (body.collateralDetails.getD doc.collateralDetails)
    loanAmount := some (body.loanAmount.getD doc.loanAmount)
    interestRate := some (body.interestRate.getD doc.interestRate)
    startDate := some (body.startDate.getD doc.startDate)
    dueDate := some (body.dueDate.getD doc.dueDate)
    status := some (body.status.getD doc.status.toString)
    repayments := body.repayments.getD (doc.repayments.map Repayment.toPayload) }

/-- A record satisfies every rule of `pawnLoanSchema` when the schema makes a
document of it. -/
def satisfiesSchema (record : LoanPayload) : Bool :=
  (PawnLoan.cast 0 0 record).isSome

/-! ## Reading, listing and deleting (pawnController.js, horticultureController.js) -/

/-- The members `count` and `data` of a list response. -/
structure Listing (α : Type) where
  count : Nat
  data : List α
  deriving DecidableEq

/-- The call `PawnLoan.find().sort('-createdAt')`: every loan, latest
`createdAt` first. -/
def PawnLoan.find (db : Db) : Except Thrown (List PawnLoan) :=
  match db.fault with
  | some message => Except.error (Thrown.storeError message)
  | none => Except.ok (db.pawnLoans.insertionSort (fun a b => b.createdAt ≤ a.createdAt))

/-- `exports.getPawnLoans` (pawnController.js lines 24-38).  It only reads the
store. -/
def getPawnLoans (db : Db) : Response (Listing PawnLoan) :=
  match PawnLoan.find db with
  | Except.ok pawnLoans => ⟨200, Body.success ⟨pawnLoans.length, pawnLoans⟩⟩
  | Except.error error => ⟨500, Body.failure (ErrorText.messageOf error)⟩

/-- `exports.getPawnLoan` (pawnController.js lines 43-62).  It only reads the
store. -/
def getPawnLoan (db : Db) (id : IdParam) : Response PawnLoan :=
  match PawnLoan.findById db id with
  | Except.error error => ⟨500, Body.failure (ErrorText.messageOf error)⟩
  | Except.ok none => ⟨404, Body.failure (ErrorText.text "Pawn loan not found")⟩
  | Except.ok (some pawnLoan) => ⟨200, Body.success pawnLoan⟩

/-- The call `PawnLoan.findByIdAndDelete(req.params.id)`: the document of that
id is removed and returned, or `null` is returned when the store holds none.
`_id` is unique in a collection. -/
def PawnLoan.findByIdAndDelete (db : Db) : IdParam → Except Thrown (Option PawnLoan × Db)
  | IdParam.malformed _ => Except.error (Thrown.castError "_id")
  | IdParam.valid oid =>
    match db.fault with
    | some message => Except.error (Thrown.storeError message)
    | none =>
      match db.pawnLoans.find? (fun d => d._id == oid) with
      | none => Except.ok (none, db)
      | some doc =>
        Except.ok (some doc, { db with pawnLoans := db.pawnLoans.filter (fun d => d._id != oid) })

/-- `exports.deletePawnLoan` (pawnController.js lines 98-117): the data of a
success is the empty object. -/
def deletePawnLoan (db : Db) (id : IdParam) : Response Unit × Db :=
  match PawnLoan.findByIdAndDelete db id with
  | Except.error error => (⟨500, Body.failure (ErrorText.messageOf error)⟩, db)
  | Except.ok (none, _) => (⟨404, Body.failure (ErrorText.text "Pawn loan not found")⟩, db)
  | Except.ok (some _, db') => (⟨200, Body.success ()⟩, db')

/-- The call `Horticulture.find().sort('-plantingDate')`: every crop record,
latest `plantingDate` first. -/
def Horticulture.find (db : Db) : Except Thrown (List Horticulture) :=
  match db.fault with
  | some message => Except.error (Thrown.storeError message)
  | none =>
    Except.ok (db.horticultures.insertionSort (fun a b => b.plantingDate ≤ a.plantingDate))

/-- `exports.getHorticultureRecords` (horticultureController.js lines 24-38).
It only reads the store. -/
def getHorticultureRecords (db : Db) : Response (Listing Horticulture) :=
  match Horticulture.find db with
  | Except.ok horticultures => ⟨200, Body.success ⟨horticultures.length, horticultures⟩⟩
  | Except.error error => ⟨500, Body.failure (ErrorText.messageOf error)⟩

/-- `exports.getHorticultureRecord` (horticultureController.js lines 43-62).  It
only reads the store. -/
def getHorticultureRecord (db : Db) (id : IdParam) : Response Horticulture :=
  match Horticulture.findById db id with
  | Except.error error => ⟨500, Body.failure (ErrorText.messageOf error)⟩
  | Except.ok none => ⟨404, Body.failure (ErrorText.text "Horticulture record not found")⟩
  | Except.ok (some horticulture) => ⟨200, Body.success horticulture⟩

/-- The call `Horticulture.findByIdAndDelete(req.params.id)`. -/
def Horticulture.findByIdAndDelete (db : Db) :
    IdParam → Except Thrown (Option Horticulture × Db)
  | IdParam.malformed _ => Except.error (Thrown.castError "_id")
  | IdParam.valid oid =>
    match db.fault with
    | some message => Except.error (Thrown.storeError message)
    | none =>
      match db.horticultures.find? (fun d => d._id == oid) with
      | none => Except.ok (none, db)
      | some doc =>
        Except.ok (some doc,
          { db with horticultures := db.horticultures.filter (fun d => d._id != oid) })

/-- `exports.deleteHorticultureRecord` (horticultureController.js lines
98-117). -/
def deleteHorticultureRecord (db : Db) (id : IdParam) : Response Unit × Db :=
  match Horticulture.findByIdAndDelete db id with
  | Except.error error => (⟨500, Body.failure (ErrorText.messageOf error)⟩, db)
  | Except.ok (none, _) =>
    (⟨404, Body.failure (ErrorText.text "Horticulture record not found")⟩, db)
  | Except.ok (some _, db') => (⟨200, Body.success ()⟩, db')

/-! ## Updating a crop record (horticultureController.js) -/

/-- The nested path `areaSize` as an update names it.  `$set` replaces the
whole nested object and applies no default, so the update is taken to carry
both of its paths, which the stored document needs. -/
structure AreaSizeUpdate where
  value : ℚ
  unit : String
  deriving DecidableEq

/-- The body of `PUT /api/horticulture/:id`: `none` is a path the update does
not name. -/
structure HorticultureUpdatePayload where
  cropType : Option String
  location : Option String
  areaSize : Option AreaSizeUpdate
  plantingDate : Option Int
  expectedHarvestDate : Option Int
  expenses : Option (List ExpensePayload)
  expectedYield : Option Yield
  actualYield : Option Yield
  status : Option String
  notes : Option String
  deriving DecidableEq

/-- A crop update whose named paths have passed their validators. -/
structure HorticultureUpdate where
  cropType : Option String
  location : Option String
  areaSize : Option AreaSize
  plantingDate : Option Int
  expectedHarvestDate : Option Int
  expenses : Option (List Expense)
  expectedYield : Option Yield
  actualYield : Option Yield
  status : Option CropStatus
  notes : Option String
  deriving DecidableEq

/-- The update validators of `runValidators: true` on a crop update: they run
on the paths the update names, each with the validators `horticultureSchema`
declares for it; no validator looks at another path or at the stored
document, so none compares the named status with the current one. -/
def Horticulture.castUpdate (now : Int) (body : HorticultureUpdatePayload) :
    Option HorticultureUpdate := do
  let cropType ← castNamed (fun s => requiredString true (some s)) body.cropType
  let location ← castNamed (fun s => requiredString false (some s)) body.location
  let areaSize ← castNamed
    (fun a => (AreaUnit.ofString? a.unit).map (fun u => (⟨a.value, u⟩ : AreaSize))) body.areaSize
  let expenses ← castNamed (castExpenses now 0) body.expenses
  let status ← castNamed CropStatus.ofString? body.status
  pure {
    cropType := cropType
    location := location
    areaSize := areaSize
    plantingDate := body.plantingDate
    expectedHarvestDate := body.expectedHarvestDate
    expenses := expenses
    expectedYield := body.expectedYield
    actualYield := body.actualYield
    status := status
    notes := body.notes }

/-- The paths of a crop update whose validators fail. -/
def Horticulture.updateFailingPaths (now : Int) (body : HorticultureUpdatePayload) :
    List String :=
  (if (castNamed (fun s => requiredString true (some s)) body.cropType).isNone
    then ["cropType"] else []) ++
  (if (castNamed (fun s => requiredString false (some s)) body.location).isNone
    then ["location"] else []) ++
  (if (castNamed (fun a => AreaUnit.ofString? a.unit) body.areaSize).isNone
    then ["areaSize.unit"] else []) ++
  (match body.expenses with
    | none => []
    | some expenses => expensesFailingPaths now 0 expenses) ++
  (if (castNamed CropStatus.ofString? body.status).isNone then ["status"] else [])

/-- The stored crop document after `$set` of the named paths; `timestamps:
true` stamps `updatedAt`, and the version key stays as it is. -/
def Horticulture.merge (now : Int) (doc : Horticulture) (update : HorticultureUpdate) :
    Horticulture :=
  { _id := doc._id
    cropType := update.cropType.getD doc.cropType
    location := update.location.getD doc.location
    areaSize := update.areaSize.getD doc.areaSize
    plantingDate := update.plantingDate.getD doc.plantingDate
    expectedHarvestDate := update.expectedHarvestDate.getD doc.expectedHarvestDate
    expenses := update.expenses.getD doc.expenses
    expectedYield := update.expectedYield.getD doc.expectedYield
    actualYield := update.actualYield.getD doc.actualYield
    status := update.status.getD doc.status
    notes := match update.notes with
      | some text => some text
      | none => doc.notes
    createdAt := doc.createdAt
    updatedAt := now
    __v := doc.__v }

/-- The call `Horticulture.findByIdAndUpdate(req.params.id, req.body, { new:
true, runValidators: true })`. -/
def Horticulture.findByIdAndUpdate (now : Int) (db : Db) (id : IdParam)
    (body : HorticultureUpdatePayload) : Except Thrown (Option Horticulture × Db) :=
  match id with
  | IdParam.malformed _ => Except.error (Thrown.castError "_id")
  | IdParam.valid oid =>
    match Horticulture.castUpdate now body with
    | none => Except.error (Thrown.validationError (Horticulture.updateFailingPaths now body))
    | some update =>
      match db.fault with
      | some message => Except.error (Thrown.storeError message)
      | none =>
        match db.horticultures.find? (fun d => d._id == oid) with
        | none => Except.ok (none, db)
        | some doc =>
          Except.ok (some (Horticulture.merge now doc update),
            { db with
              horticultures := db.horticultures.map
                (fun d => if d._id == oid then Horticulture.merge now doc update else d) })

/-- `exports.updateHorticultureRecord` (horticultureController.js lines
67-93). -/
def updateHorticultureRecord (now : Int) (db : Db) (id : IdParam)
    (body : HorticultureUpdatePayload) : Response Horticulture × Db :=
  match Horticulture.findByIdAndUpdate now db id body with
  | Except.error error => (⟨400, Body.failure (ErrorText.messageOf error)⟩, db)
  | Except.ok (none, _) =>
    (⟨404, Body.failure (ErrorText.text "Horticulture record not found")⟩, db)
  | Except.ok (some horticulture, db') => (⟨200, Body.success horticulture⟩, db')

/-! ## Submitting the loan form (PawnLoanForm.js) -/

/-- A value a form field holds and a JSON body carries: a string (`''` for a
field left empty), a number, or a date. -/
inductive FormValue where
  | text (s : String)
  | number (q : ℚ)
  | date (t : Int)
  deriving DecidableEq

/-- The form state `values` that Formik hands to `onSubmit`; every field has a
value, the initial one being `''` for the text and number fields. -/
structure LoanFormState where
  customerName : FormValue
  phoneNumber : FormValue
  address : FormValue
  collateralType : FormValue
  loanAmount : FormValue
  interestRate : FormValue
  startDate : FormValue
  dueDate : FormValue
  weight : FormValue
  purity : FormValue
  description : FormValue
  documentNumber : FormValue
  landArea : FormValue
  location : FormValue
  marketValue : FormValue
  deriving DecidableEq

/-- The object `collateralDetails` built in `onSubmit` (PawnLoanForm.js lines
116-127), as its keys and values in order. -/
def collateralDetailsOf (values : LoanFormState) : List (String × FormValue) :=
  if values.collateralType = FormValue.text "gold" then
    [("weight", values.weight), ("purity", values.purity), ("description", values.description)]
  else
    [("documentNumber", values.documentNumber), ("landArea", values.landArea),
     ("location", values.location), ("marketValue", values.marketValue)]

/-- The object `loanData` that `onSubmit` sends (PawnLoanForm.js lines
129-139). -/
structure LoanData where
  customerName : FormValue
  phoneNumber : FormValue
  address : FormValue
  collateralType : FormValue
  collateralDetails : List (String × FormValue)
  loanAmount : FormValue
  interestRate : FormValue
  startDate : FormValue
  dueDate : FormValue
  deriving DecidableEq

/-- The `loanData` of `onSubmit`, handed to `pawnLoanAPI.create` or
`pawnLoanAPI.update`. -/
def loanData (values : LoanFormState) : LoanData :=
  { customerName := values.customerName
    phoneNumber := values.phoneNumber
    address := values.address
    collateralType := values.collateralType
    collateralDetails := collateralDetailsOf values
    loanAmount := values.loanAmount
    interestRate := values.interestRate
    startDate := values.startDate
    dueDate := values.dueDate }

/-! ## The client's error handler (utils/api.js) -/

/-- The body `error.response.data` of a failed call: its members `error` and
`message`, when present. -/
structure ErrorBody where
  error : Option String
  message : Option String
  deriving DecidableEq

/-- What `handleApiError` is given: an error with a response (`status` and
`data`), an error with a request but no response, or an error with
neither. -/
inductive ApiFailure where
  | response (status : Nat) (data : ErrorBody)
  | request
  | setup
  deriving DecidableEq

/-- What `handleApiError` returns: `{ error: true, message: errorMessage }`. -/
structure ApiError where
  error : Bool
  message : String
  deriving DecidableEq

/-- The operator `||` with a string on its right: an absent or empty left
operand is falsy. -/
def orElseText (value : Option String) (fallback : String) : String :=
  match value with
  | some text => if text = "" then fallback else text
  | none => fallback

/-- `handleApiError` (utils/api.js lines 51-89).  The second component says
whether the call cleared the stored token and redirected to `/login` (the
`case 401`). -/
def handleApiError (failure : ApiFailure) : ApiError × Bool :=
  let errorMessage := "An error occurred. Please try again."
  match failure with
  | ApiFailure.response status data =>
    let fromBody := orElseText data.error (orElseText data.message errorMessage)
    if status = 401 then (⟨true, fromBody⟩, true)
    else if status = 403 then
      (⟨true, "You do not have permission to perform this action."⟩, false)
    else if status = 404 then (⟨true, "The requested resource was not found."⟩, false)
    else if status = 422 then
      (⟨true, "Invalid data provided. Please check your input."⟩, false)
    else if status ≥ 500 then (⟨true, "Server error. Please try again later."⟩, false)
    else (⟨true, fromBody⟩, false)
  | ApiFailure.request =>
    (⟨true, "Unable to connect to the server. Please check your internet connection."⟩, false)
  | ApiFailure.setup => (⟨true, errorMessage⟩, false)

/-! ## The access gate and the route tables (routes/*.js, app.js) -/

/-- Modelled from the spec: `middleware/authMiddleware.js` is not among the
sources.  A Session Credential as the Access Gate receives it: {subject
identity, role, expiry}, signed and integrity-checked.  `intact` says that the
signature verifies and the token is well-formed; `expiry` is in seconds. -/
structure BearerToken where
  intact : Bool
  subject : ObjectId
  role : String
  expiry : Int
  deriving DecidableEq

/-- Modelled from the spec: the errors of the Access Gate, `MissingToken`,
`InvalidToken` and `ExpiredToken` (status 401) and `ForbiddenError` (status
403). -/
inductive AuthError where
  | missingToken
  | invalidToken
  | expiredToken
  | forbidden
  deriving DecidableEq

/-- Modelled from the spec: what `authenticate` returns for downstream use,
{subject id, role}. -/
structure SessionContext where
  subject : ObjectId
  role : String
  deriving DecidableEq

/-- Modelled from the spec: `authenticate(rawToken)` fails with `MissingToken`
if no token is presented, with `InvalidToken` if signature verification fails
or the token is malformed, with `ExpiredToken` if the current time is after
the token's expiry, and otherwise returns {subject id, role}. -/
def authenticate (now : Int) : Option BearerToken → Except AuthError SessionContext
  | none => Except.error AuthError.missingToken
  | some token =>
    if !token.intact then Except.error AuthError.invalidToken
    else if token.expiry < now / 1000 then Except.error AuthError.expiredToken
    else Except.ok { subject := token.subject, role := token.role }

/-- The middlewares the routers name: `protect` and `authorize(role)`. -/
inductive Middleware where
  | protect
  | authorize (role : String)
  deriving DecidableEq

/-- A response sent by a middleware instead of calling `next()`. -/
structure Rejection where
  status : Nat
  error : AuthError
  deriving DecidableEq

/-- Modelled from the spec: `middleware/authMiddleware.js` is not among the
sources.  `protect` is `authenticate` on the presented credential, answering
401 when it fails and otherwise handing the context on; `authorize(role)` is a
strict equality check of the context's role against the required role,
answering 403 on a mismatch (a request that carries no context has no role). -/
def Middleware.run (now : Int) (credential : Option BearerToken)
    (context : Option SessionContext) : Middleware → Except Rejection (Option SessionContext)
  | Middleware.protect =>
    match authenticate now credential with
    | Except.ok session => Except.ok (some session)
    | Except.error error => Except.error ⟨401, error⟩
  | Middleware.authorize role =>
    match context with
    | some session =>
      if session.role = role then Except.ok context else Except.error ⟨403, AuthError.forbidden⟩
    | none => Except.error ⟨403, AuthError.forbidden⟩

/-- The request methods the routers register. -/
inductive Verb where
  | get
  | post
  | put
  | delete
  deriving DecidableEq

/-- The handlers the routers and `app.js` register, by their names. -/
inductive Endpoint where
  | login
  | register
  | createPawnLoan
  | getPawnLoans
  | getPawnLoan
  | updatePawnLoan
  | deletePawnLoan
  | addRepayment
  | createHorticulture
  | getHorticultureRecords
  | getHorticultureRecord
  | updateHorticultureRecord
  | deleteHorticultureRecord
  | addExpense
  | updateHarvest
  | welcome
  deriving DecidableEq

/-- One segment of a route path: a literal, or a parameter such as `:id`. -/
inductive Segment where
  | literal (s : String)
  | param
  deriving DecidableEq

/-- A literal segment of a route against a segment of the request path: Express
matches without regard to the case of the letters `A` to `Z` (the option
`case sensitive routing` is off). -/
def sameSegment (s x : String) : Bool :=
  s.data.map Char.toLower == x.data.map Char.toLower

/-- Matching a route path against the segments of a request path: the values
of the parameters when every segment matches. -/
def matchPattern : List Segment → List String → Option (List String)
  | [], [] => some []
  | Segment.literal s :: pattern, x :: path =>
    if sameSegment s x then matchPattern pattern path else none
  | Segment.param :: pattern, x :: path => (matchPattern pattern path).map (fun ps => x :: ps)
  | _, _ => none

/-- A layer of a router, in registration order: `router.use(middleware)`, or a
route `router.<verb>(path, ...chain, handler)`. -/
inductive Layer where
  | use (middleware : Middleware)
  | route (verb : Verb) (pattern : List Segment) (chain : List Middleware) (endpoint : Endpoint)
  deriving DecidableEq

/-- Where a request ends: a middleware answered it, a handler is reached with
the route parameters and the context set so far, or no layer matched and the
request falls through (`next`). -/
inductive Dispatch where
  | rejected (rejection : Rejection)
  | reached (endpoint : Endpoint) (params : List String) (context : Option SessionContext)
  | next
  deriving DecidableEq

/-- The middlewares listed on a route, run in order before its handler. -/
def runChain (now : Int) (credential : Option BearerToken) :
    Option SessionContext → List Middleware → Except Rejection (Option SessionContext)
  | context, [] => Except.ok context
  | context, middleware :: rest =>
    match middleware.run now credential context with
    | Except.error rejection => Except.error rejection
    | Except.ok context' => runChain now credential context' rest

/-- A router handling a request: its layers are tried in registration order; a
`use` layer runs for every request, a route layer runs when verb and path
match. -/
def runRouter (now : Int) (credential : Option BearerToken) (verb : Verb) (path : List String) :
    Option SessionContext → List Layer → Dispatch
  | _, [] => Dispatch.next
  | context, Layer.use middleware :: rest =>
    match middleware.run now credential context with
    | Except.error rejection => Dispatch.rejected rejection
    | Except.ok context' => runRouter now credential verb path context' rest
  | context, Layer.route v pattern chain endpoint :: rest =>
    if v = verb then
      match matchPattern pattern path with
      | some params =>
        match runChain now credential context chain with
        | Except.error rejection => Dispatch.rejected rejection
        | Except.ok context' => Dispatch.reached endpoint params context'
      | none => runRouter now credential verb path context rest
    else runRouter now credential verb path context rest

/-- `routes/authRoutes.js`: `router.post('/login', login)` and
`router.post('/register', protect, authorize('admin'), register)`. -/
def authRoutes : List Layer :=
  [Layer.route Verb.post [Segment.literal "login"] [] Endpoint.login,
   Layer.route Verb.post [Segment.literal "register"]
     [Middleware.protect, Middleware.authorize "admin"] Endpoint.register]

/-- `routes/pawnRoutes.js`: `router.use(protect)`, then the routes on `/`, on
`/:id` and on `/:id/repayment`. -/
def pawnRoutes : List Layer :=
  [Layer.use Middleware.protect,
   Layer.route Verb.post [] [] Endpoint.createPawnLoan,
   Layer.route Verb.get [] [] Endpoint.getPawnLoans,
   Layer.route Verb.get [Segment.param] [] Endpoint.getPawnLoan,
   Layer.route Verb.put [Segment.param] [] Endpoint.updatePawnLoan,
   Layer.route Verb.delete [Segment.param] [] Endpoint.deletePawnLoan,
   Layer.route Verb.post [Segment.param, Segment.literal "repayment"] [] Endpoint.addRepayment]

/-- `routes/horticultureRoutes.js`: `router.use(protect)`, then the routes on
`/`, on `/:id`, on `/:id/expense` and on `/:id/harvest`. -/
def horticultureRoutes : List Layer :=
  [Layer.use Middleware.protect,
   Layer.route Verb.post [] [] Endpoint.createHorticulture,
   Layer.route Verb.get [] [] Endpoint.getHorticultureRecords,
   Layer.route Verb.get [Segment.param] [] Endpoint.getHorticultureRecord,
   Layer.route Verb.put [Segment.param] [] Endpoint.updateHorticultureRecord,
   Layer.route Verb.delete [Segment.param] [] Endpoint.deleteHorticultureRecord,
   Layer.route Verb.post [Segment.param, Segment.literal "expense"] [] Endpoint.addExpense,
   Layer.route Verb.put [Segment.param, Segment.literal "harvest"] [] Endpoint.updateHarvest]

/-- A layer of the application: a router mounted under a base path
(`app.use(base, router)`), or a route registered on the application itself. -/
inductive AppLayer where
  | mount (base : List String) (router : List Layer)
  | direct (verb : Verb) (pattern : List Segment) (endpoint : Endpoint)
  deriving DecidableEq

/-- The rest of a request path below a base path, when it lies below it. -/
def stripBase : List String → List String → Option (List String)
  | [], path => some path
  | b :: base, x :: path => if sameSegment b x then stripBase base path else none
  | _ :: _, [] => none

/-- The application handling a request: its layers are tried in registration
order, and a mounted router that lets the request fall through hands it to
the next layer. -/
def runApp (now : Int) (credential : Option BearerToken) (verb : Verb) (path : List String) :
    List AppLayer → Dispatch
  | [] => Dispatch.next
  | AppLayer.mount base router :: rest =>
    match stripBase base path with
    | some below =>
      match runRouter now credential verb below none router with
      | Dispatch.next => runApp now credential verb path rest
      | answered => answered
    | none => runApp now credential verb path rest
  | AppLayer.direct v pattern endpoint :: rest =>
    if v = verb then
      match matchPattern pattern path with
      | some params => Dispatch.reached endpoint params none
      | none => runApp now credential verb path rest
    else runApp now credential verb path rest

/-- `app.js` lines 23-31: the three routers mounted under `/api/auth`,
`/api/pawn` and `/api/horticulture`, then the welcome route `app.get('/')`.
The parsers and the logger registered before them let every request pass. -/
def app : List AppLayer :=
  [AppLayer.mount ["api", "auth"] authRoutes,
   AppLayer.mount ["api", "pawn"] pawnRoutes,
   AppLayer.mount ["api", "horticulture"] horticultureRoutes,
   AppLayer.direct Verb.get [] Endpoint.welcome]

/-- The handler a request reaches, if any. -/
def dispatch (now : Int) (credential : Option BearerToken) (verb : Verb) (path : List String) :
    Dispatch :=
  runApp now credential verb path app

/-- What the server does with a request: a middleware answered it, its handler
answered it, or nothing matched (Express answers 404). -/
inductive Served (α : Type) where
  | rejected (rejection : Rejection)
  | handled (response : Response α)
  | unmatched
  deriving DecidableEq

/-- A request `POST /api/auth/register` going through the application: the
`register` handler runs only when dispatch reaches it. -/
def serveRegister (model : UserModel) (now : Int) (db : Db) (credential : Option BearerToken)
    (body : RegisterPayload) : Served AuthData × Db :=
  match dispatch now credential Verb.post ["api", "auth", "register"] with
  | Dispatch.rejected rejection => (Served.rejected rejection, db)
  | Dispatch.reached Endpoint.register _ _ =>
    ((Served.handled (register model now db body).1), (register model now db body).2)
  | _ => (Served.unmatched, db)

/-! ## Sample records -/

/-- A gold loan of 10000 with one principal repayment of 500 and one interest
repayment of 200. -/
def sampleLoan : PawnLoan :=
  { _id := 1
    customerName := "Asha Rao"
    phoneNumber := "9876543210"
    address := "12 Temple Road"
    collateralType := CollateralType.gold
    collateralDetails := ⟨some 10, some 91, none, none, none, none, none⟩
    loanAmount := 10000
    interestRate := 5
    startDate := 0
    dueDate := 7776000000
    status := LoanStatus.active
    repayments :=
      [⟨some 500, some 86400000, some RepaymentType.principal⟩,
       ⟨some 200, some 172800000, some RepaymentType.interest⟩]
    createdAt := 0
    updatedAt := 172800000
    __v := 2 }

/-- A tomato crop in the `planning` state with expenses of 200 and 300. -/
def sampleCrop : Horticulture :=
  { _id := 7
    cropType := "Tomato"
    location := "North field"
    areaSize := ⟨2, AreaUnit.acres⟩
    plantingDate := 0
    expectedHarvestDate := 7776000000
    expenses :=
      [⟨ExpenseCategory.seeds, 200, 0, none⟩, ⟨ExpenseCategory.labor, 300, 86400000, none⟩]
    expectedYield := ⟨some 40, some "kg"⟩
    actualYield := ⟨none, none⟩
    status := CropStatus.planning
    notes := none
    createdAt := 0
    updatedAt := 86400000
    __v := 2 }

/-- An account named `asha`. -/
def sampleUser : User :=
  { _id := 3, username := "asha", password := "hash-of-secret", role := some "user" }

/-- A store holding the three sample records. -/
def sampleDb : Db :=
  { pawnLoans := [sampleLoan], horticultures := [sampleCrop], users := [sampleUser],
    fault := none }

/-- A store with no account. -/
def emptyDb : Db :=
  { pawnLoans := [], horticultures := [], users := [], fault := none }

/-- A stand-in for the absent `User` model: passwords are compared with the
stored hash of the string, and `create` always rejects. -/
def sampleUserModel : UserModel :=
  { matchPassword := fun user password => user.password == "hash-of-" ++ password
    create := fun _ _ _ _ => Except.error (Thrown.storeError "not available") }

/-- A loan payload with every top-level field and `collateralType: 'gold'`, but
no `collateralDetails` at all. -/
def goldLoanWithoutDetails : LoanPayload :=
  { customerName := some "Asha Rao"
    phoneNumber := some "9876543210"
    address := some "12 Temple Road"
    collateralType := some "gold"
    collateralDetails := none
    loanAmount := some 10000
    interestRate := some 5
    startDate := some 0
    dueDate := some 7776000000
    status := none
    repayments := [] }

/-- A gold loan payload with its gold details but without `startDate`. -/
def goldLoanWithoutStartDate : LoanPayload :=
  { goldLoanWithoutDetails with
    collateralDetails := some ⟨some 10, some 91, none, none, none, none, none⟩
    startDate := none }

/-- The loan form filled in for gold collateral with the weight left empty. -/
def goldFormWithoutWeight : LoanFormValues :=
  { customerName := some "Asha Rao"
    phoneNumber := some "9876543210"
    address := some "12 Temple Road"
    collateralType := some "gold"
    loanAmount := some 10000
    interestRate := some 5
    startDate := some 0
    dueDate := some 7776000000
    weight := none
    purity := some 91
    description := none
    documentNumber := none
    landArea := none
    location := none
    marketValue := none }

/-- An intact, unexpired credential of the account `asha`, whose role is
`'user'`. -/
def sampleToken : BearerToken :=
  { intact := true, subject := 3, role := "user", expiry := 2592000 }

/-- An intact, unexpired credential with the role `'admin'`. -/
def adminToken : BearerToken :=
  { intact := true, subject := 4, role := "admin", expiry := 2592000 }

/-- The sample store with the role of `asha` changed to `'admin'`. -/
def adminDb : Db :=
  { sampleDb with users := [{ sampleUser with role := some "admin" }] }

/-- The loan of the specification's scenario, {principal=10000, rate=5,
collateralType=gold, weight=10, purity=91.6}, with the customer fields and the
due date the schema requires; it supplies neither status nor repayments. -/
def scenarioLoanPayload : LoanPayload :=
  { customerName := some "Asha Rao"
    phoneNumber := some "9876543210"
    address := some "12 Temple Road"
    collateralType := some "gold"
    collateralDetails := some ⟨some 10, some (458 / 5), none, none, none, none, none⟩
    loanAmount := some 10000
    interestRate := some 5
    startDate := some 0
    dueDate := some 7776000000
    status := none
    repayments := [] }

/-- The document `createPawnLoan` stores for the scenario's payload at time 5
under the id 2. -/
def scenarioLoan : PawnLoan :=
  { _id := 2
    customerName := "Asha Rao"
    phoneNumber := "9876543210"
    address := "12 Temple Road"
    collateralType := CollateralType.gold
    collateralDetails := ⟨some 10, some (458 / 5), none, none, none, none, none⟩
    loanAmount := 10000
    interestRate := 5
    startDate := 0
    dueDate := 7776000000
    status := LoanStatus.active
    repayments := []
    createdAt := 5
    updatedAt := 5
    __v := 0 }

/-- The sample loan after `addRepayment` has appended, at time 5, a repayment
of 100 that names no type. -/
def loanWithUntypedRepayment : PawnLoan :=
  { sampleLoan with
    repayments := sampleLoan.repayments ++ [⟨some 100, none, none⟩]
    updatedAt := 5
    __v := 3 }

/-- The scenario's loan payload with a due date (50) earlier than its start
date (100). -/
def loanDueBeforeStart : LoanPayload :=
  { scenarioLoanPayload with startDate := some 100, dueDate := some 50 }

/-- An update that names only `dueDate`, one millisecond before the epoch. -/
def dueDateOnlyUpdate : LoanUpdatePayload :=
  { customerName := none
    phoneNumber := none
    address := none
    collateralType := none
    collateralDetails := none
    loanAmount := none
    interestRate := none
    startDate := none
    dueDate := some (-1)
    status := none
    repayments := none }

/-- The loan form filled in completely for gold collateral, with the due date
(50) before the start date (100). -/
def formDueBeforeStart : LoanFormValues :=
  { goldFormWithoutWeight with weight := some 10, startDate := some 100, dueDate := some 50 }

/-- The crop of the specification's scenario, {cropType="Tomato",
area={value:2,unit:acres}}, with the location and dates the schema requires,
and with one seeds expense of 200 already in the payload. -/
def cropPayloadWithExpense : HorticulturePayload :=
  { cropType := some "Tomato"
    location := some "North field"
    areaSize := some ⟨some 2, some "acres"⟩
    plantingDate := some 0
    expectedHarvestDate := some 7776000000
    expenses := [⟨some "seeds", some 200, none, none⟩]
    expectedYield := none
    actualYield := none
    status := none
    notes := none }

/-- The document `createHorticulture` stores for `cropPayloadWithExpense` at
time 5 under the id 8. -/
def cropCreatedWithExpense : Horticulture :=
  { _id := 8
    cropType := "Tomato"
    location := "North field"
    areaSize := ⟨2, AreaUnit.acres⟩
    plantingDate := 0
    expectedHarvestDate := 7776000000
    expenses := [⟨ExpenseCategory.seeds, 200, 5, none⟩]
    expectedYield := ⟨none, none⟩
    actualYield := ⟨none, none⟩
    status := CropStatus.planning
    notes := none
    createdAt := 5
    updatedAt := 5
    __v := 0 }

/-- The document `createHorticulture` stores for the scenario's crop when the
payload supplies no expenses. -/
def scenarioCrop : Horticulture :=
  { cropCreatedWithExpense with expenses := [] }

/-- The sample store while the backing store is failing. -/
def faultyDb : Db :=
  { sampleDb with fault := some "connection lost" }

/-- An update that names nothing. -/
def emptyLoanUpdate : LoanUpdatePayload :=
  { customerName := none
    phoneNumber := none
    address := none
    collateralType := none
    collateralDetails := none
    loanAmount := none
    interestRate := none
    startDate := none
    dueDate := none
    status := none
    repayments := none }

/-- A crop update that names nothing. -/
def emptyCropUpdate : HorticultureUpdatePayload :=
  { cropType := none
    location := none
    areaSize := none
    plantingDate := none
    expectedHarvestDate := none
    expenses := none
    expectedYield := none
    actualYield := none
    status := none
    notes := none }

/-- An update that names only `customerName`, with blanks around the name. -/
def renameUpdate : LoanUpdatePayload :=
  { emptyLoanUpdate with customerName := some " Asha Devi " }

/-- The loan form filled in for gold collateral while the land fields still
hold values. -/
def goldFormState : LoanFormState :=
  { customerName := FormValue.text "Asha Rao"
    phoneNumber := FormValue.text "9876543210"
    address := FormValue.text "12 Temple Road"
    collateralType := FormValue.text "gold"
    loanAmount := FormValue.number 10000
    interestRate := FormValue.number 5
    startDate := FormValue.date 0
    dueDate := FormValue.date 7776000000
    weight := FormValue.number 10
    purity := FormValue.number 91
    description := FormValue.text ""
    documentNumber := FormValue.text "DOC-17"
    landArea := FormValue.number 3
    location := FormValue.text "North field"
    marketValue := FormValue.number 500000 }

/-- A loan of 1 with principal repayments of 0.1, 0.2 and 0.3, each amount the
double its decimal literal denotes. -/
def loanRepaidInTenths : PawnLoan :=
  { scenarioLoan with
    loanAmount := 1
    repayments :=
      [⟨some (JSNumber.nearest (1 / 10)), none, some RepaymentType.principal⟩,
       ⟨some (JSNumber.nearest (2 / 10)), none, some RepaymentType.principal⟩,
       ⟨some (JSNumber.nearest (3 / 10)), none, some RepaymentType.principal⟩]
    __v := 3 }

/-- A crop record with expenses of 0.1, 0.2 and 0.3. -/
def cropChargedInTenths : Horticulture :=
  { scenarioCrop with
    expenses :=
      [⟨ExpenseCategory.seeds, JSNumber.nearest (1 / 10), 5, none⟩,
       ⟨ExpenseCategory.labor, JSNumber.nearest (2 / 10), 5, none⟩,
       ⟨ExpenseCategory.other, JSNumber.nearest (3 / 10), 5, none⟩]
    __v := 3 }

/-- A loan of 10000 with one principal repayment of 1500.1. -/
def loanRepaidInCents : PawnLoan :=
  { scenarioLoan with
    repayments := [⟨some (JSNumber.nearest (15001 / 10)), none, some RepaymentType.principal⟩]
    __v := 1 }

/-- A loan with an interest repayment of 0.1 and principal repayments of 0.2
and 0.3. -/
def loanRepaidInMixedTenths : PawnLoan :=
  { scenarioLoan with
    repayments :=
      [⟨some (JSNumber.nearest (1 / 10)), none, some RepaymentType.interest⟩,
       ⟨some (JSNumber.nearest (2 / 10)), none, some RepaymentType.principal⟩,
       ⟨some (JSNumber.nearest (3 / 10)), none, some RepaymentType.principal⟩]
    __v := 3 }

/-- A loan of `2 ^ 53` with one principal repayment of `2 ^ 53 - 1`: it owes
1. -/
def loanAtTheSafeLimit : PawnLoan :=
  { scenarioLoan with
    loanAmount := 9007199254740992
    repayments := [⟨some 9007199254740991, none, some RepaymentType.principal⟩]
    __v := 1 }

/-! ## Arithmetic facts about `JSNumber` -/

theorem JSNumber.num_add_num (a b : ℚ) :
    JSNumber.num a + JSNumber.num b = JSNumber.round (a + b) := rfl

theorem JSNumber.NaN_add (a : JSNumber) : JSNumber.NaN + a = JSNumber.NaN := by
  cases a <;> rfl

theorem JSNumber.add_NaN (a : JSNumber) : a + JSNumber.NaN = JSNumber.NaN := by
  cases a <;> rfl

theorem JSNumber.num_sub_num (a b : ℚ) :
    JSNumber.num a - JSNumber.num b = JSNumber.round (a - b) := rfl

theorem JSNumber.zero_def : (0 : JSNumber) = JSNumber.num 0 := rfl

/-- A number below `2 ^ m` has at most `m` binary digits. -/
theorem JSNumber.bitLength_le (k : Nat) :
    ∀ n m : Nat, n < 2 ^ m → JSNumber.bitLength k n ≤ m := by
  induction k with
  | zero =>
    intro n m h
    unfold JSNumber.bitLength
    split
    · exact Nat.zero_le _
    · next hn =>
      rcases m with _ | m
      · simp at h
        exact absurd h hn
      · exact Nat.succ_le_succ (Nat.zero_le _)
  | succ k ih =>
    intro n m h
    unfold JSNumber.bitLength
    split
    · next hle =>
      have hlt : 2 ^ 2 ^ k < 2 ^ m := lt_of_le_of_lt hle h
      have hkm : 2 ^ k < m := (Nat.pow_lt_pow_iff_right (by norm_num)).mp hlt
      have hdiv : n / 2 ^ 2 ^ k < 2 ^ (m - 2 ^ k) := by
        rw [Nat.div_lt_iff_lt_mul (by positivity), ← pow_add]
        rwa [Nat.sub_add_cancel hkm.le]
      have := ih _ _ hdiv
      omega
    · exact ih n m h

/-- A whole number below `2 ^ 53` needs no rounding. -/
theorem JSNumber.roundUnits_exact (n : Nat) (hn : n < 2 ^ 53) :
    JSNumber.roundUnits (n * 2 ^ 1074) 1 = n * 2 ^ 1074 := by
  have hlt : n * 2 ^ 1074 / 1 < 2 ^ 1127 := by
    rw [Nat.div_one]
    calc n * 2 ^ 1074 < 2 ^ 53 * 2 ^ 1074 := Nat.mul_lt_mul_of_pos_right hn (by positivity)
      _ = 2 ^ 1127 := by rw [← pow_add]
  have hshift : JSNumber.bitLength 12 (n * 2 ^ 1074 / 1) - 53 ≤ 1074 := by
    have := JSNumber.bitLength_le 12 _ _ hlt
    omega
  unfold JSNumber.roundUnits
  generalize JSNumber.bitLength 12 (n * 2 ^ 1074 / 1) - 53 = shift at hshift
  have hdvd : 2 ^ shift ∣ n * 2 ^ 1074 :=
    Dvd.dvd.mul_left (pow_dvd_pow 2 hshift) n
  have hmod : n * 2 ^ 1074 % 2 ^ shift = 0 := Nat.mod_eq_zero_of_dvd hdvd
  have hpos : 0 < 2 ^ shift := by positivity
  have hne : ¬ (0 = 2 ^ shift) := by omega
  simp only [one_mul]
  simp only [hmod, Nat.mul_zero, Nat.not_lt_zero, decide_False, Bool.false_or, hne,
    Bool.false_and, Bool.false_eq_true, if_false]
  exact Nat.div_mul_cancel hdvd

/-- An integer of absolute value below `2 ^ 53` is a double. -/
theorem JSNumber.round_intCast (k : ℤ) (hk : |k| < 2 ^ 53) :
    JSNumber.round (k : ℚ) = JSNumber.num k := by
  have hnat : k.natAbs < 2 ^ 53 := by
    have : ((k.natAbs : ℤ)) < 2 ^ 53 := by rwa [Int.natCast_natAbs]
    exact_mod_cast this
  have hunits := JSNumber.roundUnits_exact k.natAbs hnat
  have hlt : k.natAbs * 2 ^ 1074 < 2 ^ 2098 := by
    calc k.natAbs * 2 ^ 1074 < 2 ^ 53 * 2 ^ 1074 := Nat.mul_lt_mul_of_pos_right hnat (by positivity)
      _ = 2 ^ 1127 := by rw [← pow_add]
      _ < 2 ^ 2098 := Nat.pow_lt_pow_right (by norm_num) (by norm_num)
  unfold JSNumber.round
  simp only [Rat.num_intCast, Rat.den_intCast, Nat.div_one, hunits, not_le.mpr hlt, if_false]
  congr 1
  rw [Rat.mkRat_eq_div]
  have h2 : ((2 : ℚ) ^ 1074) ≠ 0 := by positivity
  by_cases hneg : (k : ℚ) < 0
  · simp only [hneg, if_true]
    rw [div_eq_iff (by exact_mod_cast h2)]
    push_cast
    rw [abs_of_neg hneg]
    ring
  · simp only [hneg, if_false]
    rw [div_eq_iff (by exact_mod_cast h2)]
    push_cast
    rw [abs_of_nonneg (not_lt.mp hneg)]

/-- A whole number of absolute value below `2 ^ 53` is a double. -/
theorem JSNumber.round_of_isInteger (q : ℚ) (hq : JSNumber.isInteger q) (hb : |q| < 2 ^ 53) :
    JSNumber.round q = JSNumber.num q := by
  have hcast : ((q.num : ℤ) : ℚ) = q := Rat.coe_int_num_of_den_eq_one hq
  rw [← hcast] at hb ⊢
  exact JSNumber.round_intCast q.num (by exact_mod_cast hb)

theorem JSNumber.isInteger_zero : JSNumber.isInteger 0 := rfl

theorem JSNumber.isInteger_add {a b : ℚ} (ha : JSNumber.isInteger a)
    (hb : JSNumber.isInteger b) : JSNumber.isInteger (a + b) := by
  have hca : ((a.num : ℤ) : ℚ) = a := Rat.coe_int_num_of_den_eq_one ha
  have hcb : ((b.num : ℤ) : ℚ) = b := Rat.coe_int_num_of_den_eq_one hb
  rw [← hca, ← hcb, ← Int.cast_add]
  exact Rat.den_intCast _

theorem JSNumber.isInteger_sub {a b : ℚ} (ha : JSNumber.isInteger a)
    (hb : JSNumber.isInteger b) : JSNumber.isInteger (a - b) := by
  have hca : ((a.num : ℤ) : ℚ) = a := Rat.coe_int_num_of_den_eq_one ha
  have hcb : ((b.num : ℤ) : ℚ) = b := Rat.coe_int_num_of_den_eq_one hb
  rw [← hca, ← hcb, ← Int.cast_sub]
  exact Rat.den_intCast _

theorem JSNumber.isInteger_sum (xs : List ℚ) (h : ∀ a ∈ xs, JSNumber.isInteger a) :
    JSNumber.isInteger xs.sum := by
  induction xs with
  | nil => exact JSNumber.isInteger_zero
  | cons x rest ih =>
    rw [List.sum_cons]
    exact JSNumber.isInteger_add (h x (List.mem_cons_self _ _))
      (ih (fun a ha => h a (List.mem_cons_of_mem _ ha)))

/-- The absolute value of a sum is at most the sum of the absolute values. -/
theorem abs_sum_le_sum_abs_list (xs : List ℚ) : |xs.sum| ≤ (xs.map (fun a => |a|)).sum := by
  induction xs with
  | nil => simp
  | cons x rest ih =>
    simp only [List.sum_cons, List.map_cons]
    exact le_trans (abs_add x rest.sum) (by linarith)

/-- The sum of the absolute values of a list is not negative. -/
theorem sum_abs_nonneg {α : Type} (f : α → ℚ) (l : List α) :
    0 ≤ (l.map (fun x => |f x|)).sum :=
  List.sum_nonneg (by
    intro y hy
    obtain ⟨z, _, rfl⟩ := List.mem_map.mp hy
    exact abs_nonneg _)

/-- A running sum of whole numbers that stays below `2 ^ 53` in absolute value
incurs no rounding: it is the exact sum. -/
theorem JSNumber.foldl_add_exact {α : Type} (f : α → ℚ) (l : List α) :
    ∀ acc : ℚ, JSNumber.isInteger acc → (∀ x ∈ l, JSNumber.isInteger (f x)) →
      |acc| + (l.map (fun x => |f x|)).sum < 2 ^ 53 →
      l.foldl (fun sum x => sum + JSNumber.num (f x)) (JSNumber.num acc) =
        JSNumber.num (acc + (l.map f).sum) := by
  induction l with
  | nil =>
    intro acc _ _ _
    simp
  | cons x xs ih =>
    intro acc hacc hl hb
    simp only [List.map_cons, List.sum_cons] at hb
    have hx : JSNumber.isInteger (f x) := hl x (List.mem_cons_self _ _)
    have hnonneg := sum_abs_nonneg f xs
    have hstep : JSNumber.num acc + JSNumber.num (f x) = JSNumber.num (acc + f x) := by
      rw [JSNumber.num_add_num]
      refine JSNumber.round_of_isInteger _ (JSNumber.isInteger_add hacc hx) ?_
      have := abs_add acc (f x)
      linarith
    simp only [List.foldl_cons, hstep, List.map_cons, List.sum_cons]
    rw [ih (acc + f x) (JSNumber.isInteger_add hacc hx)
      (fun y hy => hl y (List.mem_cons_of_mem _ hy))
      (by have := abs_add acc (f x); linarith)]
    rw [add_assoc]

/-- The sum of present whole amounts, accumulated from 0, is their exact sum
when `SafeWhole` holds. -/
theorem JSNumber.sum_amounts_exact (start : ℚ) (paid : List ℚ)
    (hsafe : JSNumber.SafeWhole start paid) :
    (paid.map some).foldl (fun sum a => sum + JSNumber.ofField a) 0 = JSNumber.num paid.sum ∧
    JSNumber.isInteger paid.sum ∧
    |paid.sum| ≤ (paid.map (fun a => |a|)).sum := by
  obtain ⟨_, hwhole, hbound⟩ := hsafe
  refine ⟨?_, JSNumber.isInteger_sum paid hwhole, abs_sum_le_sum_abs_list paid⟩
  rw [List.foldl_map]
  have hexact := JSNumber.foldl_add_exact (fun a : ℚ => a) paid 0 JSNumber.isInteger_zero hwhole
    (by
      have := abs_nonneg start
      simp only [abs_zero, zero_add]
      linarith)
  simp only [List.map_id', zero_add] at hexact
  exact hexact

/-- Subtracting the exact sum of whole amounts from a whole number incurs no
rounding when `SafeWhole` holds. -/
theorem JSNumber.sub_sum_exact (start : ℚ) (paid : List ℚ)
    (hsafe : JSNumber.SafeWhole start paid) :
    JSNumber.num start - JSNumber.num paid.sum = JSNumber.num (start - paid.sum) := by
  obtain ⟨_, hinteger, habs⟩ := JSNumber.sum_amounts_exact start paid hsafe
  obtain ⟨hstart, _, hbound⟩ := hsafe
  rw [JSNumber.num_sub_num]
  refine JSNumber.round_of_isInteger _ (JSNumber.isInteger_sub hstart hinteger) ?_
  have := abs_sub start paid.sum
  linarith

/-- A list that is a reordering of a list of present amounts is a list of
present amounts, reordered. -/
theorem perm_map_some {amounts : List (Option ℚ)} {paid : List ℚ}
    (hperm : amounts.Perm (paid.map some)) :
    ∃ reordered : List ℚ, amounts = reordered.map some ∧ reordered.Perm paid := by
  refine ⟨amounts.map (fun a => a.getD 0), ?_, ?_⟩
  · rw [List.map_map]
    symm
    calc amounts.map (some ∘ fun a => a.getD 0) = amounts.map id := by
          apply List.map_congr_left
          intro a ha
          obtain ⟨q, _, rfl⟩ := List.mem_map.mp (hperm.mem_iff.mp ha)
          rfl
      _ = amounts := List.map_id _
  · have h := hperm.map (fun a => a.getD 0)
    rw [List.map_map] at h
    have hid : paid.map ((fun a : Option ℚ => a.getD 0) ∘ some) = paid := by
      calc paid.map ((fun a : Option ℚ => a.getD 0) ∘ some) = paid.map id :=
            List.map_congr_left (fun a _ => rfl)
        _ = paid := List.map_id _
    rw [hid] at h
    exact h

/-- `SafeWhole` does not depend on the order of the amounts. -/
theorem JSNumber.SafeWhole.perm {start : ℚ} {paid reordered : List ℚ}
    (hsafe : JSNumber.SafeWhole start paid) (hperm : reordered.Perm paid) :
    JSNumber.SafeWhole start reordered := by
  obtain ⟨hstart, hwhole, hbound⟩ := hsafe
  refine ⟨hstart, fun a ha => hwhole a (hperm.mem_iff.mp ha), ?_⟩
  rw [(hperm.map (fun a => |a|)).sum_eq]
  exact hbound

/-! ## Derived totals -/

/-- The reduce of `remainingAmount` runs over the amounts of the principal
repayments. -/
theorem remainingAmount_eq (loan : PawnLoan) :
    remainingAmount loan =
      JSNumber.num loan.loanAmount -
        (principalAmounts loan).foldl (fun sum a => sum + JSNumber.ofField a) 0 := by
  unfold remainingAmount principalAmounts
  rw [List.foldl_map]

/-- The outstanding principal of a loan whose amounts are safe whole numbers is
the exact difference. -/
theorem remainingAmount_exact (loan : PawnLoan) (paid : List ℚ)
    (hpaid : principalAmounts loan = paid.map some)
    (hsafe : JSNumber.SafeWhole loan.loanAmount paid) :
    remainingAmount loan = JSNumber.num (loan.loanAmount - paid.sum) := by
  rw [remainingAmount_eq, hpaid, (JSNumber.sum_amounts_exact _ paid hsafe).1,
    JSNumber.sub_sum_exact _ paid hsafe]

/-- The amounts of the sample records that are written as decimal fractions
are doubles. -/
theorem sample_amounts_are_doubles :
    JSNumber.isDouble (JSNumber.nearest (1 / 10)) ∧
    JSNumber.isDouble (JSNumber.nearest (2 / 10)) ∧
    JSNumber.isDouble (JSNumber.nearest (3 / 10)) ∧
    JSNumber.isDouble (JSNumber.nearest (15001 / 10)) ∧
    JSNumber.isDouble (JSNumber.nearest (25002 / 10)) ∧
    JSNumber.nearest (1 / 10) = 3602879701896397 / 36028797018963968 := by
  decide!

/-- The counterexample to C1: on a loan of 1 with principal repayments of 0.1,
0.2 and 0.3 the detail view computes 0.3999999999999999; with the same
repayments in the reverse order it computes 0.4. -/
theorem remainingAmount_depends_on_order :
    remainingAmount loanRepaidInTenths =
      JSNumber.num (JSNumber.nearest (3999999999999999 / 10000000000000000)) ∧
    loanRepaidInTenths.repayments.reverse.Perm loanRepaidInTenths.repayments ∧
    remainingAmount
        { loanRepaidInTenths with repayments := loanRepaidInTenths.repayments.reverse } =
      JSNumber.num (JSNumber.nearest (4 / 10)) ∧
    JSNumber.nearest (3999999999999999 / 10000000000000000) ≠ JSNumber.nearest (4 / 10) :=
  ⟨by decide!, List.reverse_perm _, by decide!, by decide!⟩

/-- C1, as the code has it: the outstanding principal shown on the loan detail
view is `loanAmount` minus the sum of the amounts of exactly the repayments of
type `principal`, the sum accumulated from 0 in list order and every addition
and the subtraction rounded to the nearest double.  When `loanAmount` and the
principal amounts are whole numbers whose absolute values add up to less than
`2 ^ 53`, nothing is rounded: the value is the exact difference, and it is the
same for every reordering of the repayment list. -/
theorem remainingAmount_eq_outstandingPrincipal (loan : PawnLoan) :
    remainingAmount loan = outstandingPrincipalSpec loan ∧
    (∀ paid : List ℚ, principalAmounts loan = paid.map some →
      JSNumber.SafeWhole loan.loanAmount paid →
      remainingAmount loan = JSNumber.num (loan.loanAmount - paid.sum) ∧
      ∀ reordered : List Repayment, reordered.Perm loan.repayments →
        remainingAmount { loan with repayments := reordered } = remainingAmount loan) := by
  refine ⟨?_, ?_⟩
  · rw [remainingAmount_eq]
    unfold outstandingPrincipalSpec JSNumber.sumLeft
    rw [List.foldl_map]
  · intro paid hpaid hsafe
    have hexact := remainingAmount_exact loan paid hpaid hsafe
    refine ⟨hexact, ?_⟩
    intro reordered hperm
    have hamounts : (principalAmounts { loan with repayments := reordered }).Perm
        (paid.map some) := by
      rw [← hpaid]
      exact (hperm.filter _).map _
    obtain ⟨paid', hpaid', hperm'⟩ := perm_map_some hamounts
    rw [remainingAmount_exact { loan with repayments := reordered } paid' hpaid'
      (hsafe.perm hperm'), hexact, hperm'.sum_eq]

/-- The counterexample to C2: on a crop record with expenses of 0.1, 0.2 and
0.3 the detail view computes 0.6000000000000001; with the same expenses in the
reverse order it computes 0.6. -/
theorem totalExpenses_depends_on_order :
    totalExpenses cropChargedInTenths =
      JSNumber.num (JSNumber.nearest (6000000000000001 / 10000000000000000)) ∧
    cropChargedInTenths.expenses.reverse.Perm cropChargedInTenths.expenses ∧
    totalExpenses
        { cropChargedInTenths with expenses := cropChargedInTenths.expenses.reverse } =
      JSNumber.num (JSNumber.nearest (6 / 10)) ∧
    JSNumber.nearest (6000000000000001 / 10000000000000000) ≠ JSNumber.nearest (6 / 10) :=
  ⟨by decide!, List.reverse_perm _, by decide!, by decide!⟩

/-- The total of a crop record whose amounts are safe whole numbers is their
exact sum. -/
theorem totalExpenses_exact (record : Horticulture)
    (hsafe : JSNumber.SafeWhole 0 (record.expenses.map (fun e => e.amount))) :
    totalExpenses record = JSNumber.num (record.expenses.map (fun e => e.amount)).sum := by
  obtain ⟨_, hwhole, hbound⟩ := hsafe
  unfold totalExpenses
  have hexact := JSNumber.foldl_add_exact (fun e : Expense => e.amount) record.expenses 0
    JSNumber.isInteger_zero
    (fun e he => hwhole e.amount (List.mem_map_of_mem _ he))
    (by simpa only [List.map_map, Function.comp_def] using hbound)
  simpa only [zero_add] using hexact

/-- C2, as the code has it: the total on the crop detail view is the sum of the
amounts of all entries of the expense list, accumulated from 0 in list order
with every addition rounded to the nearest double; it is `0` for the empty
list, and the list view computes the same value.  When the amounts are whole
numbers whose absolute values add up to less than `2 ^ 53`, nothing is
rounded: the total is the exact sum, and it is the same for every reordering
of the expense list. -/
theorem totalExpenses_eq_sum (record : Horticulture) :
    totalExpenses record =
      JSNumber.sumLeft (record.expenses.map (fun e => JSNumber.num e.amount)) ∧
    totalExpenses { record with expenses := [] } = 0 ∧
    listRowTotalExpenses record = totalExpenses record ∧
    (JSNumber.SafeWhole 0 (record.expenses.map (fun e => e.amount)) →
      totalExpenses record = JSNumber.num (record.expenses.map (fun e => e.amount)).sum ∧
      ∀ reordered : List Expense, reordered.Perm record.expenses →
        totalExpenses { record with expenses := reordered } = totalExpenses record) := by
  refine ⟨?_, rfl, rfl, ?_⟩
  · unfold totalExpenses JSNumber.sumLeft
    rw [List.foldl_map]
  · intro hsafe
    have hexact := totalExpenses_exact record hsafe
    refine ⟨hexact, ?_⟩
    intro reordered hperm
    have hperm' := hperm.map (fun e : Expense => e.amount)
    rw [totalExpenses_exact { record with expenses := reordered } (hsafe.perm hperm'), hexact,
      hperm'.sum_eq]

/-- The amounts of the sample loan are safe whole numbers. -/
theorem sampleLoan_safeWhole : JSNumber.SafeWhole sampleLoan.loanAmount [500] := by
  refine ⟨rfl, ?_, ?_⟩
  · intro a ha
    rw [List.mem_singleton] at ha
    subst ha
    rfl
  · norm_num [sampleLoan]

/-- The amounts of the sample crop are safe whole numbers. -/
theorem sampleCrop_safeWhole :
    JSNumber.SafeWhole 0 (sampleCrop.expenses.map (fun e => e.amount)) := by
  refine ⟨rfl, ?_, ?_⟩
  · intro a ha
    simp only [sampleCrop, List.map_cons, List.map_nil, List.mem_cons, List.mem_singleton,
      List.not_mem_nil, or_false] at ha
    rcases ha with h | h <;> subst h <;> rfl
  · norm_num [sampleCrop]

/-- The witness of C1 on the sample loan: its outstanding principal is
`10000 − 500`, also with its two repayments swapped. -/
theorem remainingAmount_eq_outstandingPrincipal_witness :
    remainingAmount sampleLoan = JSNumber.num (10000 - [(500 : ℚ)].sum) ∧
    remainingAmount { sampleLoan with repayments := sampleLoan.repayments.reverse } =
      remainingAmount sampleLoan :=
  ⟨((remainingAmount_eq_outstandingPrincipal sampleLoan).2 [500] rfl sampleLoan_safeWhole).1,
    ((remainingAmount_eq_outstandingPrincipal sampleLoan).2 [500] rfl sampleLoan_safeWhole).2 _
      (List.reverse_perm sampleLoan.repayments)⟩

/-- The witness of C2 on the sample crop: its total is `200 + 300`, also with
its two expenses swapped. -/
theorem totalExpenses_eq_sum_witness :
    totalExpenses sampleCrop = JSNumber.num ([(200 : ℚ), 300].sum) ∧
    totalExpenses { sampleCrop with expenses := sampleCrop.expenses.reverse } =
      totalExpenses sampleCrop :=
  ⟨((totalExpenses_eq_sum sampleCrop).2.2.2 sampleCrop_safeWhole).1,
    ((totalExpenses_eq_sum sampleCrop).2.2.2 sampleCrop_safeWhole).2 _
      (List.reverse_perm sampleCrop.expenses)⟩

/-! ## The record store -/

/-- Replacing every element that has a given key by one that has the same key
makes a lookup of that key find the replacement. -/
theorem find?_map_replace {α : Type} (key : α → ObjectId) (id : ObjectId) (saved old : α)
    (hsaved : key saved = id) (docs : List α)
    (hfind : docs.find? (fun d => key d == id) = some old) :
    (docs.map (fun d => if key d == id then saved else d)).find? (fun d => key d == id) =
      some saved := by
  induction docs with
  | nil => simp at hfind
  | cons d rest ih =>
    by_cases hd : key d = id
    · have hb : (key d == id) = true := by simpa using hd
      have hs : (key saved == id) = true := by simpa using hsaved
      simp only [List.map_cons, hb, if_true, List.find?_cons, hs]
    · have hb : (key d == id) = false := by simpa using hd
      have hrest : rest.find? (fun d => key d == id) = some old := by
        simpa only [List.find?_cons, hb] using hfind
      simp only [List.map_cons, hb, List.find?_cons, Bool.false_eq_true, if_false]
      exact ih hrest

/-- A successful `PawnLoan.findById` pins down the request and the store. -/
theorem pawnLoan_findById_some {db : Db} {id : IdParam} {loan : PawnLoan}
    (hfind : PawnLoan.findById db id = Except.ok (some loan)) :
    ∃ oid, id = IdParam.valid oid ∧ db.fault = none ∧ loan._id = oid ∧
      db.pawnLoans.find? (fun d => d._id == oid) = some loan := by
  cases id with
  | malformed raw => simp [PawnLoan.findById] at hfind
  | valid oid =>
    cases hfault : db.fault with
    | some message => simp [PawnLoan.findById, hfault] at hfind
    | none =>
      have hlookup : db.pawnLoans.find? (fun d => d._id == oid) = some loan := by
        simpa [PawnLoan.findById, hfault] using hfind
      have hkey := List.find?_some hlookup
      exact ⟨oid, rfl, rfl, by simpa using hkey, hlookup⟩

/-- A successful `Horticulture.findById` pins down the request and the
store. -/
theorem horticulture_findById_some {db : Db} {id : IdParam} {record : Horticulture}
    (hfind : Horticulture.findById db id = Except.ok (some record)) :
    ∃ oid, id = IdParam.valid oid ∧ db.fault = none ∧ record._id = oid ∧
      db.horticultures.find? (fun d => d._id == oid) = some record := by
  cases id with
  | malformed raw => simp [Horticulture.findById] at hfind
  | valid oid =>
    cases hfault : db.fault with
    | some message => simp [Horticulture.findById, hfault] at hfind
    | none =>
      have hlookup : db.horticultures.find? (fun d => d._id == oid) = some record := by
        simpa [Horticulture.findById, hfault] using hfind
      have hkey := List.find?_some hlookup
      exact ⟨oid, rfl, rfl, by simpa using hkey, hlookup⟩

/-- Writing a loan under the id of one the store holds succeeds and makes a
later `findById` return the written document. -/
theorem pawnLoan_write_found {db : Db} {id : IdParam} {loan : PawnLoan}
    (hfind : PawnLoan.findById db id = Except.ok (some loan)) (saved : PawnLoan)
    (hid : saved._id = loan._id) :
    ∃ db', PawnLoan.write db saved = Except.ok (saved, db') ∧
      PawnLoan.findById db' id = Except.ok (some saved) := by
  obtain ⟨oid, rfl, hfault, hkey, hlookup⟩ := pawnLoan_findById_some hfind
  have hdoc : saved._id = oid := hid.trans hkey
  subst hdoc
  refine ⟨{ db with
    pawnLoans := db.pawnLoans.map (fun d => if d._id == saved._id then saved else d) }, ?_, ?_⟩
  · simp only [PawnLoan.write, hfault]
  simp only [PawnLoan.findById, hfault]
  rw [find?_map_replace (fun d : PawnLoan => d._id) saved._id saved loan rfl db.pawnLoans
    hlookup]

/-- Saving a loan that the store holds, after a push onto one of its arrays,
succeeds, stamps `updatedAt`, increments `__v`, and makes a later `findById`
return the saved document. -/
theorem pawnLoan_save_found {db : Db} {id : IdParam} {loan : PawnLoan} (now : Int)
    (hfind : PawnLoan.findById db id = Except.ok (some loan)) (doc : PawnLoan)
    (hid : doc._id = loan._id) :
    ∃ db', PawnLoan.save now db Pending.pushed doc =
        Except.ok ({ doc with updatedAt := now, __v := doc.__v + 1 }, db') ∧
      PawnLoan.findById db' id =
        Except.ok (some { doc with updatedAt := now, __v := doc.__v + 1 }) :=
  pawnLoan_write_found hfind { doc with updatedAt := now, __v := doc.__v + 1 } hid

/-- Writing a crop record under the id of one the store holds succeeds and
makes a later `findById` return the written document. -/
theorem horticulture_write_found {db : Db} {id : IdParam} {record : Horticulture}
    (hfind : Horticulture.findById db id = Except.ok (some record)) (saved : Horticulture)
    (hid : saved._id = record._id) :
    ∃ db', Horticulture.write db saved = Except.ok (saved, db') ∧
      Horticulture.findById db' id = Except.ok (some saved) := by
  obtain ⟨oid, rfl, hfault, hkey, hlookup⟩ := horticulture_findById_some hfind
  have hdoc : saved._id = oid := hid.trans hkey
  subst hdoc
  refine ⟨{ db with
    horticultures := db.horticultures.map
      (fun d => if d._id == saved._id then saved else d) }, ?_, ?_⟩
  · simp only [Horticulture.write, hfault]
  simp only [Horticulture.findById, hfault]
  rw [find?_map_replace (fun d : Horticulture => d._id) saved._id saved record rfl
    db.horticultures hlookup]

/-- Saving a crop record that the store holds, after a push onto one of its
arrays, succeeds, stamps `updatedAt`, increments `__v`, and makes a later
`findById` return the saved document. -/
theorem horticulture_save_found {db : Db} {id : IdParam} {record : Horticulture} (now : Int)
    (hfind : Horticulture.findById db id = Except.ok (some record)) (doc : Horticulture)
    (hid : doc._id = record._id) :
    ∃ db', Horticulture.save now db Pending.pushed doc =
        Except.ok ({ doc with updatedAt := now, __v := doc.__v + 1 }, db') ∧
      Horticulture.findById db' id =
        Except.ok (some { doc with updatedAt := now, __v := doc.__v + 1 }) :=
  horticulture_write_found hfind { doc with updatedAt := now, __v := doc.__v + 1 } hid

/-! ## Appending to a sub-ledger -/

/-- An element that passes `validateRepayment` carries the payload's amount and
date. -/
theorem validateRepayment_ok {index : Nat} {body : RepaymentPayload} {entry : Repayment}
    (hval : validateRepayment index body = Except.ok entry) :
    entry.amount = body.amount ∧ entry.date = body.date := by
  unfold validateRepayment at hval
  split at hval
  · cases hval; exact ⟨rfl, rfl⟩
  · split at hval
    · cases hval; exact ⟨rfl, rfl⟩
    · cases hval

/-- An element that passes `validateExpense` carries the payload's amount and
description. -/
theorem validateExpense_ok {now : Int} {index : Nat} {body : ExpensePayload} {entry : Expense}
    (hval : validateExpense now index body = Except.ok entry) :
    body.amount = some entry.amount ∧ entry.description = body.description := by
  simp only [validateExpense] at hval
  split at hval
  · next c a _ hamount => cases hval; exact ⟨hamount, rfl⟩
  · cases hval
  · cases hval
  · cases hval

/-- C3: when `addRepayment` accepts a payload for an existing loan, the stored
repayment list is one longer than before, its first `n` entries are the `n`
prior entries in their order, and the entry made from the payload is last. -/
theorem addRepayment_appends_one (now : Int) (db : Db) (id : IdParam) (body : RepaymentPayload)
    (loan : PawnLoan)
    (hfind : PawnLoan.findById db id = Except.ok (some loan))
    (haccept : (addRepayment now db id body).1.status = 200) :
    ∃ saved entry,
      (addRepayment now db id body).1.body = Body.success saved ∧
      PawnLoan.findById (addRepayment now db id body).2 id = Except.ok (some saved) ∧
      validateRepayment loan.repayments.length body = Except.ok entry ∧
      entry.amount = body.amount ∧ entry.date = body.date ∧
      saved.repayments = loan.repayments ++ [entry] ∧
      saved.repayments.length = loan.repayments.length + 1 ∧
      saved.repayments.take loan.repayments.length = loan.repayments ∧
      saved.repayments.getLast? = some entry := by
  cases hval : validateRepayment loan.repayments.length body with
  | error paths => simp [addRepayment, hfind, pushRepaymentAndSave, hval] at haccept
  | ok entry =>
    obtain ⟨db', hsave, hafter⟩ := pawnLoan_save_found now hfind
      { loan with repayments := loan.repayments ++ [entry] } rfl
    have hrun : addRepayment now db id body =
        (⟨200, Body.success
          { loan with
          repayments := loan.repayments ++ [entry], updatedAt := now, __v := loan.__v + 1 }⟩, db') := by
      simp only [addRepayment, hfind, pushRepaymentAndSave, hval, hsave]
    refine ⟨{ loan with
          repayments := loan.repayments ++ [entry], updatedAt := now, __v := loan.__v + 1 }, entry,
      ?_, ?_, rfl, (validateRepayment_ok hval).1, (validateRepayment_ok hval).2, rfl, ?_, ?_, ?_⟩
    · rw [hrun]
    · rw [hrun]; exact hafter
    · simp
    · simp
    · simp

/-- C4: when `addExpense` accepts a payload for an existing crop record, the
stored expense list is one longer than before, its first `n` entries are the
`n` prior entries in their order, and the entry made from the payload is
last. -/
theorem addExpense_appends_one (now : Int) (db : Db) (id : IdParam) (body : ExpensePayload)
    (record : Horticulture)
    (hfind : Horticulture.findById db id = Except.ok (some record))
    (haccept : (addExpense now db id body).1.status = 200) :
    ∃ saved entry,
      (addExpense now db id body).1.body = Body.success saved ∧
      Horticulture.findById (addExpense now db id body).2 id = Except.ok (some saved) ∧
      validateExpense now record.expenses.length body = Except.ok entry ∧
      body.amount = some entry.amount ∧ entry.description = body.description ∧
      saved.expenses = record.expenses ++ [entry] ∧
      saved.expenses.length = record.expenses.length + 1 ∧
      saved.expenses.take record.expenses.length = record.expenses ∧
      saved.expenses.getLast? = some entry := by
  cases hval : validateExpense now record.expenses.length body with
  | error paths => simp [addExpense, hfind, pushExpenseAndSave, hval] at haccept
  | ok entry =>
    obtain ⟨db', hsave, hafter⟩ := horticulture_save_found now hfind
      { record with expenses := record.expenses ++ [entry] } rfl
    have hrun : addExpense now db id body =
        (⟨200, Body.success
          { record with
          expenses := record.expenses ++ [entry], updatedAt := now, __v := record.__v + 1 }⟩, db') := by
      simp only [addExpense, hfind, pushExpenseAndSave, hval, hsave]
    refine ⟨{ record with
          expenses := record.expenses ++ [entry], updatedAt := now, __v := record.__v + 1 }, entry,
      ?_, ?_, rfl, (validateExpense_ok hval).1, (validateExpense_ok hval).2, rfl, ?_, ?_, ?_⟩
    · rw [hrun]
    · rw [hrun]; exact hafter
    · simp
    · simp
    · simp

/-! ## Recording a harvest -/

/-- What `updateHarvest` does for an existing crop record: when the supplied
yield equals the stored one and the record is already `harvested`, nothing is
written and the record is returned as it is; otherwise the two paths are
assigned, `updatedAt` is stamped, and the version key stays. -/
theorem updateHarvest_found (now : Int) (db : Db) (id : IdParam) (supplied : Yield)
    (record : Horticulture)
    (hfind : Horticulture.findById db id = Except.ok (some record)) :
    (supplied = record.actualYield ∧ record.status = CropStatus.harvested →
      updateHarvest now db id ⟨some supplied⟩ = (⟨200, Body.success record⟩, db)) ∧
    (¬ (supplied = record.actualYield ∧ record.status = CropStatus.harvested) →
      (updateHarvest now db id ⟨some supplied⟩).1 =
        ⟨200, Body.success
          { record with
            actualYield := supplied, status := CropStatus.harvested, updatedAt := now }⟩ ∧
      Horticulture.findById (updateHarvest now db id ⟨some supplied⟩).2 id =
        Except.ok (some
          { record with
            actualYield := supplied, status := CropStatus.harvested, updatedAt := now })) := by
  constructor
  · rintro ⟨hyield, hstatus⟩
    subst hyield
    have hdoc : { record with
        actualYield := record.actualYield, status := CropStatus.harvested } = record := by
      cases record
      simp only at hstatus
      subst hstatus
      rfl
    simp only [updateHarvest, hfind, Option.getD_some, hstatus, and_self, if_true,
      Horticulture.save, hdoc]
  · intro hchanged
    have hdiff : ¬ (some supplied = some record.actualYield ∧
        record.status = CropStatus.harvested) := by
      rintro ⟨hyield, hstatus⟩
      exact hchanged ⟨Option.some.inj hyield, hstatus⟩
    obtain ⟨db', hwrite, hafter⟩ := horticulture_write_found hfind
      { record with
        actualYield := supplied, status := CropStatus.harvested, updatedAt := now } rfl
    have hrun : updateHarvest now db id ⟨some supplied⟩ =
        (⟨200, Body.success
          { record with
            actualYield := supplied, status := CropStatus.harvested, updatedAt := now }⟩,
          db') := by
      simp only [updateHarvest, hfind, Option.getD_some, hdiff, if_false, Horticulture.save,
        hwrite]
    rw [hrun]
    exact ⟨rfl, hafter⟩

/-- C5: for an existing crop record in any status, `updateHarvest` with a
supplied `actualYield` answers 200 and leaves the stored record with status
`harvested` and with `actualYield` equal to the supplied value. -/
theorem updateHarvest_sets_harvested (now : Int) (db : Db) (id : IdParam) (supplied : Yield)
    (record : Horticulture)
    (hfind : Horticulture.findById db id = Except.ok (some record)) :
    ∃ saved,
      (updateHarvest now db id ⟨some supplied⟩).1 = ⟨200, Body.success saved⟩ ∧
      Horticulture.findById (updateHarvest now db id ⟨some supplied⟩).2 id =
        Except.ok (some saved) ∧
      saved.status = CropStatus.harvested ∧ saved.actualYield = supplied := by
  obtain ⟨hsame, hchanged⟩ := updateHarvest_found now db id supplied record hfind
  by_cases h : supplied = record.actualYield ∧ record.status = CropStatus.harvested
  · rw [hsame h]
    exact ⟨record, rfl, hfind, h.2, h.1.symm⟩
  · obtain ⟨hres, hafter⟩ := hchanged h
    exact ⟨_, hres, hafter, rfl, rfl⟩

/-- The witness of C3: a principal repayment of 250 on the sample loan. -/
theorem addRepayment_appends_one_witness :
    PawnLoan.findById sampleDb (IdParam.valid 1) = Except.ok (some sampleLoan) ∧
    (addRepayment 5 sampleDb (IdParam.valid 1) ⟨some 250, none, some "principal"⟩).1.status
      = 200 ∧
    ∃ saved entry,
      (addRepayment 5 sampleDb (IdParam.valid 1) ⟨some 250, none, some "principal"⟩).1.body =
        Body.success saved ∧
      PawnLoan.findById
        (addRepayment 5 sampleDb (IdParam.valid 1) ⟨some 250, none, some "principal"⟩).2
        (IdParam.valid 1) = Except.ok (some saved) ∧
      validateRepayment sampleLoan.repayments.length ⟨some 250, none, some "principal"⟩ =
        Except.ok entry ∧
      entry.amount = some 250 ∧ entry.date = none ∧
      saved.repayments = sampleLoan.repayments ++ [entry] ∧
      saved.repayments.length = sampleLoan.repayments.length + 1 ∧
      saved.repayments.take sampleLoan.repayments.length = sampleLoan.repayments ∧
      saved.repayments.getLast? = some entry :=
  ⟨rfl, rfl,
    addRepayment_appends_one 5 sampleDb (IdParam.valid 1) ⟨some 250, none, some "principal"⟩
      sampleLoan rfl rfl⟩

/-- The witness of C4: a fertilizer expense of 120 on the sample crop. -/
theorem addExpense_appends_one_witness :
    Horticulture.findById sampleDb (IdParam.valid 7) = Except.ok (some sampleCrop) ∧
    (addExpense 5 sampleDb (IdParam.valid 7) ⟨some "fertilizer", some 120, none, none⟩).1.status
      = 200 ∧
    ∃ saved entry,
      (addExpense 5 sampleDb (IdParam.valid 7) ⟨some "fertilizer", some 120, none, none⟩).1.body =
        Body.success saved ∧
      Horticulture.findById
        (addExpense 5 sampleDb (IdParam.valid 7) ⟨some "fertilizer", some 120, none, none⟩).2
        (IdParam.valid 7) = Except.ok (some saved) ∧
      validateExpense 5 sampleCrop.expenses.length ⟨some "fertilizer", some 120, none, none⟩ =
        Except.ok entry ∧
      some (120 : ℚ) = some entry.amount ∧ entry.description = none ∧
      saved.expenses = sampleCrop.expenses ++ [entry] ∧
      saved.expenses.length = sampleCrop.expenses.length + 1 ∧
      saved.expenses.take sampleCrop.expenses.length = sampleCrop.expenses ∧
      saved.expenses.getLast? = some entry :=
  ⟨rfl, rfl,
    addExpense_appends_one 5 sampleDb (IdParam.valid 7) ⟨some "fertilizer", some 120, none, none⟩
      sampleCrop rfl rfl⟩

/-- The witness of C5: a harvest of 35 kg recorded on the sample crop, which is
still in the `planning` state. -/
theorem updateHarvest_sets_harvested_witness :
    Horticulture.findById sampleDb (IdParam.valid 7) = Except.ok (some sampleCrop) ∧
    sampleCrop.status = CropStatus.planning ∧
    ∃ saved,
      (updateHarvest 5 sampleDb (IdParam.valid 7) ⟨some ⟨some 35, some "kg"⟩⟩).1 =
        ⟨200, Body.success saved⟩ ∧
      Horticulture.findById
        (updateHarvest 5 sampleDb (IdParam.valid 7) ⟨some ⟨some 35, some "kg"⟩⟩).2
        (IdParam.valid 7) = Except.ok (some saved) ∧
      saved.status = CropStatus.harvested ∧ saved.actualYield = ⟨some 35, some "kg"⟩ :=
  ⟨rfl, rfl,
    updateHarvest_sets_harvested 5 sampleDb (IdParam.valid 7) ⟨some 35, some "kg"⟩ sampleCrop rfl⟩

/-! ## What the sub-ledger validators reject -/

/-- A string names no repayment type exactly when it is neither `'interest'`
nor `'principal'`. -/
theorem repaymentType_ofString?_eq_none (s : String) :
    RepaymentType.ofString? s = none ↔ s ≠ "interest" ∧ s ≠ "principal" := by
  unfold RepaymentType.ofString?
  split <;> simp_all

/-- A string names no expense category exactly when it is none of the six
members of the enum. -/
theorem expenseCategory_ofString?_eq_none (s : String) :
    ExpenseCategory.ofString? s = none ↔
      s ∉ ["seeds", "fertilizer", "pesticides", "labor", "irrigation", "other"] := by
  unfold ExpenseCategory.ofString?
  split <;> simp_all

/-- The required, enumerated `category` path fails exactly when the string is
outside the enum; the empty string is outside it. -/
theorem category_cast_eq_none (s : String) :
    (requiredString false (some s)).bind ExpenseCategory.ofString? = none ↔
      s ∉ ["seeds", "fertilizer", "pesticides", "labor", "irrigation", "other"] := by
  rw [← expenseCategory_ofString?_eq_none]
  by_cases hs : s = ""
  · subst hs
    simp [requiredString, ExpenseCategory.ofString?]
  · simp [requiredString, hs]

/-- C6, as the code has it: for an existing loan, `addRepayment` answers 400
with a validation error and leaves the store unchanged whenever the payload's
type is present and is neither `'interest'` nor `'principal'`; when the type is
absent or is one of the two, it answers 200 whatever the amount is. -/
theorem addRepayment_rejects_unknown_type (now : Int) (db : Db) (id : IdParam)
    (body : RepaymentPayload) (loan : PawnLoan)
    (hfind : PawnLoan.findById db id = Except.ok (some loan)) :
    (∀ s, body.type = some s → s ≠ "interest" → s ≠ "principal" →
      addRepayment now db id body =
        (⟨400, Body.failure (ErrorText.messageOf (Thrown.validationError
          ["repayments." ++ toString loan.repayments.length ++ ".type"]))⟩, db)) ∧
    (body.type = none ∨ body.type = some "interest" ∨ body.type = some "principal" →
      (addRepayment now db id body).1.status = 200) := by
  constructor
  · intro s htype hinterest hprincipal
    have hnone := (repaymentType_ofString?_eq_none s).2 ⟨hinterest, hprincipal⟩
    simp only [addRepayment, hfind, pushRepaymentAndSave, validateRepayment, htype, hnone]
  · intro htype
    have hval : ∃ entry, validateRepayment loan.repayments.length body = Except.ok entry := by
      rcases htype with h | h | h <;>
        simp [validateRepayment, h, RepaymentType.ofString?]
    obtain ⟨entry, hval⟩ := hval
    obtain ⟨db', hsave, _⟩ := pawnLoan_save_found now hfind
      { loan with repayments := loan.repayments ++ [entry] } rfl
    simp only [addRepayment, hfind, pushRepaymentAndSave, hval, hsave]

/-- C7, as the code has it: for an existing crop record, `addExpense` answers
400 with a validation error and leaves the store unchanged whenever the
payload's category is absent or outside the enum, or its amount is absent; when
the category is in the enum and an amount is present, it answers 200 whatever
the amount is. -/
theorem addExpense_rejects_unknown_category (now : Int) (db : Db) (id : IdParam)
    (body : ExpensePayload) (record : Horticulture)
    (hfind : Horticulture.findById db id = Except.ok (some record)) :
    ((body.category = none ∨
        (∃ s, body.category = some s ∧
          s ∉ ["seeds", "fertilizer", "pesticides", "labor", "irrigation", "other"]) ∨
        body.amount = none) →
      (addExpense now db id body).1.status = 400 ∧
      (∃ paths, (addExpense now db id body).1.body =
        Body.failure (ErrorText.messageOf (Thrown.validationError paths))) ∧
      (addExpense now db id body).2 = db) ∧
    (∀ s amount, body.category = some s →
      s ∈ ["seeds", "fertilizer", "pesticides", "labor", "irrigation", "other"] →
      body.amount = some amount →
      (addExpense now db id body).1.status = 200) := by
  constructor
  · intro hbad
    have hval : ∃ paths, validateExpense now record.expenses.length body = Except.error paths := by
      simp only [validateExpense]
      split
      · next c a hcat hamount =>
        exfalso
        rcases hbad with h | ⟨s, h, hs⟩ | h
        · simp [h, requiredString] at hcat
        · rw [h, (category_cast_eq_none s).2 hs] at hcat
          cases hcat
        · rw [h] at hamount
          cases hamount
      · exact ⟨_, rfl⟩
      · exact ⟨_, rfl⟩
      · exact ⟨_, rfl⟩
    obtain ⟨paths, hval⟩ := hval
    have hrun : addExpense now db id body =
        (⟨400, Body.failure (ErrorText.messageOf (Thrown.validationError paths))⟩, db) := by
      simp only [addExpense, hfind, pushExpenseAndSave, hval]
    rw [hrun]
    exact ⟨rfl, ⟨paths, rfl⟩, rfl⟩
  · intro s amount hcat hmem hamount
    have hsome : ∃ c, (requiredString false (some s)).bind ExpenseCategory.ofString? = some c := by
      cases h : (requiredString false (some s)).bind ExpenseCategory.ofString? with
      | none => exact absurd hmem ((category_cast_eq_none s).1 h)
      | some c => exact ⟨c, rfl⟩
    obtain ⟨c, hc⟩ := hsome
    have hval : validateExpense now record.expenses.length body =
        Except.ok { category := c, amount := amount, date := body.date.getD now,
                    description := body.description } := by
      simp only [validateExpense, hcat, hc, hamount]
    obtain ⟨db', hsave, _⟩ := horticulture_save_found now hfind
      { record with expenses := record.expenses ++
          [{ category := c, amount := amount, date := body.date.getD now,
             description := body.description }] } rfl
    simp only [addExpense, hfind, pushExpenseAndSave, hval, hsave]

/-- The counterexample to C6: on the sample loan a principal repayment of `-5`
is answered 200 and appended, and so is a repayment of 100 that names no
type. -/
theorem addRepayment_accepts_nonpositive_amount :
    PawnLoan.findById sampleDb (IdParam.valid 1) = Except.ok (some sampleLoan) ∧
    (-5 : ℚ) ≤ 0 ∧
    (addRepayment 5 sampleDb (IdParam.valid 1) ⟨some (-5), none, some "principal"⟩).1.status
      = 200 ∧
    (addRepayment 5 sampleDb (IdParam.valid 1) ⟨some (-5), none, some "principal"⟩).2.pawnLoans.map
        (fun d => d.repayments) =
      [sampleLoan.repayments ++ [⟨some (-5), none, some RepaymentType.principal⟩]] ∧
    (addRepayment 5 sampleDb (IdParam.valid 1) ⟨some 100, none, none⟩).1.status = 200 ∧
    (addRepayment 5 sampleDb (IdParam.valid 1) ⟨some 100, none, none⟩).2.pawnLoans.map
        (fun d => d.repayments) =
      [sampleLoan.repayments ++ [⟨some 100, none, none⟩]] :=
  ⟨rfl, by norm_num, rfl, rfl, rfl, rfl⟩

/-- The witness of the amended C6: the type `'bonus'` is rejected on the sample
loan, the type `'interest'` is accepted. -/
theorem addRepayment_rejects_unknown_type_witness :
    PawnLoan.findById sampleDb (IdParam.valid 1) = Except.ok (some sampleLoan) ∧
    addRepayment 5 sampleDb (IdParam.valid 1) ⟨some 250, none, some "bonus"⟩ =
      (⟨400, Body.failure (ErrorText.messageOf (Thrown.validationError
        ["repayments." ++ toString sampleLoan.repayments.length ++ ".type"]))⟩, sampleDb) ∧
    (addRepayment 5 sampleDb (IdParam.valid 1) ⟨some 250, none, some "interest"⟩).1.status
      = 200 :=
  ⟨rfl,
    (addRepayment_rejects_unknown_type 5 sampleDb (IdParam.valid 1)
      ⟨some 250, none, some "bonus"⟩ sampleLoan rfl).1 "bonus" rfl (by decide) (by decide),
    (addRepayment_rejects_unknown_type 5 sampleDb (IdParam.valid 1)
      ⟨some 250, none, some "interest"⟩ sampleLoan rfl).2 (Or.inr (Or.inl rfl))⟩

/-- The counterexample to C7: on the sample crop a seeds expense of `-5` is
answered 200 and appended. -/
theorem addExpense_accepts_nonpositive_amount :
    Horticulture.findById sampleDb (IdParam.valid 7) = Except.ok (some sampleCrop) ∧
    (-5 : ℚ) ≤ 0 ∧
    (addExpense 5 sampleDb (IdParam.valid 7) ⟨some "seeds", some (-5), none, none⟩).1.status
      = 200 ∧
    (addExpense 5 sampleDb (IdParam.valid 7) ⟨some "seeds", some (-5), none, none⟩).2.horticultures.map
        (fun d => d.expenses) =
      [sampleCrop.expenses ++ [⟨ExpenseCategory.seeds, -5, 5, none⟩]] :=
  ⟨rfl, by norm_num, rfl, rfl⟩

/-- The witness of the amended C7: the category `'fuel'` is rejected on the
sample crop, the category `'labor'` is accepted. -/
theorem addExpense_rejects_unknown_category_witness :
    Horticulture.findById sampleDb (IdParam.valid 7) = Except.ok (some sampleCrop) ∧
    ((addExpense 5 sampleDb (IdParam.valid 7) ⟨some "fuel", some 120, none, none⟩).1.status
        = 400 ∧
      (∃ paths,
        (addExpense 5 sampleDb (IdParam.valid 7) ⟨some "fuel", some 120, none, none⟩).1.body =
          Body.failure (ErrorText.messageOf (Thrown.validationError paths))) ∧
      (addExpense 5 sampleDb (IdParam.valid 7) ⟨some "fuel", some 120, none, none⟩).2 =
        sampleDb) ∧
    (addExpense 5 sampleDb (IdParam.valid 7) ⟨some "labor", some 120, none, none⟩).1.status
      = 200 :=
  ⟨rfl,
    (addExpense_rejects_unknown_category 5 sampleDb (IdParam.valid 7)
      ⟨some "fuel", some 120, none, none⟩ sampleCrop rfl).1
      (Or.inr (Or.inl ⟨"fuel", rfl, by decide⟩)),
    (addExpense_rejects_unknown_category 5 sampleDb (IdParam.valid 7)
      ⟨some "labor", some 120, none, none⟩ sampleCrop rfl).2 "labor" 120 rfl (by decide) rfl⟩

/-! ## Creating a loan -/

/-- The counterexample to C8: `createPawnLoan` answers 201 and stores a gold
loan that has no collateral details at all, and it answers 201 for a payload
without `startDate`, which it fills with the clock. -/
theorem createPawnLoan_accepts_gold_without_details :
    goldLoanWithoutDetails.collateralType = some "gold" ∧
    goldLoanWithoutDetails.collateralDetails = none ∧
    (createPawnLoan 5 2 emptyDb goldLoanWithoutDetails).1.status = 201 ∧
    (createPawnLoan 5 2 emptyDb goldLoanWithoutDetails).2.pawnLoans.map
        (fun d => (d.collateralType, d.collateralDetails)) =
      [(CollateralType.gold, ⟨none, none, none, none, none, none, none⟩)] ∧
    goldLoanWithoutStartDate.startDate = none ∧
    (createPawnLoan 5 2 emptyDb goldLoanWithoutStartDate).1.status = 201 ∧
    (createPawnLoan 5 2 emptyDb goldLoanWithoutStartDate).2.pawnLoans.map
        (fun d => d.startDate) = [5] :=
  ⟨rfl, rfl, rfl, rfl, rfl, rfl, rfl⟩

/-- C8, as the code has it: `createPawnLoan` answers 400 with a validation
error and leaves the store unchanged whenever `customerName`, `phoneNumber`,
`address`, `collateralType`, `loanAmount`, `interestRate` or `dueDate` is
missing; the match between the collateral details and `collateralType` is
checked by the loan form's `validationSchema`, which reports an error whenever
gold is selected and the weight or the purity is missing, and whenever land is
selected and the document number, land area, location or market value is
missing. -/
theorem createPawnLoan_rejects_missing_field (now : Int) (fresh : ObjectId) (db : Db)
    (body : LoanPayload) (values : LoanFormValues) :
    ((body.customerName = none ∨ body.phoneNumber = none ∨ body.address = none ∨
        body.collateralType = none ∨ body.loanAmount = none ∨ body.interestRate = none ∨
        body.dueDate = none) →
      createPawnLoan now fresh db body =
        (⟨400, Body.failure (ErrorText.messageOf
          (Thrown.validationError (PawnLoan.failingPaths body)))⟩, db) ∧
      PawnLoan.failingPaths body ≠ []) ∧
    (values.collateralType = some "gold" →
      (values.weight = none ∨ values.purity = none) → validationSchema values ≠ []) ∧
    (values.collateralType = some "land" →
      (values.documentNumber = none ∨ values.landArea = none ∨ values.location = none ∨
        values.marketValue = none) → validationSchema values ≠ []) := by
  refine ⟨?_, ?_, ?_⟩
  · intro hmissing
    have hcast : PawnLoan.cast now fresh body = none := by
      unfold PawnLoan.cast
      rcases hmissing with h | h | h | h | h | h | h <;>
        simp [h, requiredString, Option.bind_eq_none]
    refine ⟨by simp only [createPawnLoan, PawnLoan.create, hcast], ?_⟩
    unfold PawnLoan.failingPaths
    rcases hmissing with h | h | h | h | h | h | h <;>
      simp [h, requiredString]
  · intro hgold hmissing
    rcases hmissing with h | h <;> simp [validationSchema, hgold, h]
  · intro hland hmissing
    rcases hmissing with h | h | h | h <;>
      simp [validationSchema, hland, h, yupRequiredString]

/-- The witness of the amended C8: a payload without `dueDate` is rejected by
the server, and the form schema reports the missing gold weight. -/
theorem createPawnLoan_rejects_missing_field_witness :
    (createPawnLoan 5 2 emptyDb { goldLoanWithoutDetails with dueDate := none } =
      (⟨400, Body.failure (ErrorText.messageOf (Thrown.validationError
        (PawnLoan.failingPaths { goldLoanWithoutDetails with dueDate := none })))⟩, emptyDb) ∧
      PawnLoan.failingPaths { goldLoanWithoutDetails with dueDate := none } ≠ []) ∧
    validationSchema goldFormWithoutWeight ≠ [] :=
  ⟨(createPawnLoan_rejects_missing_field 5 2 emptyDb
      { goldLoanWithoutDetails with dueDate := none } goldFormWithoutWeight).1
      (Or.inr (Or.inr (Or.inr (Or.inr (Or.inr (Or.inr rfl)))))),
    (createPawnLoan_rejects_missing_field 5 2 emptyDb
      { goldLoanWithoutDetails with dueDate := none } goldFormWithoutWeight).2.1 rfl
      (Or.inl rfl)⟩

/-! ## Accounts -/

/-- C9: for a login request with a non-empty username and password, the
response when no account has the username and the response when the account
exists but the password does not match are the same: status 401 with the
error `'Invalid credentials'`. -/
theorem login_unknown_user_same_as_wrong_password (model : UserModel) (now₁ now₂ : Int)
    (db₁ db₂ : Db) (name password : String) (user : User)
    (hname : name ≠ "") (hpassword : password ≠ "")
    (hup₁ : db₁.fault = none) (habsent : ∀ u ∈ db₁.users, u.username ≠ name)
    (hup₂ : db₂.fault = none)
    (hpresent : db₂.users.find? (fun u => u.username == name) = some user)
    (hmismatch : model.matchPassword user password = false) :
    login model now₁ db₁ ⟨some name, some password⟩ =
      login model now₂ db₂ ⟨some name, some password⟩ ∧
    login model now₁ db₁ ⟨some name, some password⟩ =
      ⟨401, Body.failure (ErrorText.text "Invalid credentials")⟩ := by
  have hnone : db₁.users.find? (fun u => u.username == name) = none := by
    rw [List.find?_eq_none]
    intro u hu
    simpa using habsent u hu
  have h₁ : login model now₁ db₁ ⟨some name, some password⟩ =
      ⟨401, Body.failure (ErrorText.text "Invalid credentials")⟩ := by
    simp [login, isFalsy, hname, hpassword, User.findOne, hup₁, hnone]
  have h₂ : login model now₂ db₂ ⟨some name, some password⟩ =
      ⟨401, Body.failure (ErrorText.text "Invalid credentials")⟩ := by
    simp [login, isFalsy, hname, hpassword, User.findOne, hup₂, hpresent, hmismatch]
  exact ⟨h₁.trans h₂.symm, h₁⟩

/-- The witness of C9: `asha` is unknown to the empty store, and the sample
store holds her account with another password. -/
theorem login_unknown_user_same_as_wrong_password_witness :
    login sampleUserModel 5 emptyDb ⟨some "asha", some "guess"⟩ =
      login sampleUserModel 9 sampleDb ⟨some "asha", some "guess"⟩ ∧
    login sampleUserModel 5 emptyDb ⟨some "asha", some "guess"⟩ =
      ⟨401, Body.failure (ErrorText.text "Invalid credentials")⟩ :=
  login_unknown_user_same_as_wrong_password sampleUserModel 5 9 emptyDb sampleDb
    "asha" "guess" sampleUser (by decide) (by decide) rfl (by simp [emptyDb]) rfl rfl rfl

/-- C10: when the username of a register request already names an account,
`register` answers 400 with `'Username already exists'` and leaves the store
unchanged, whatever role, password and `User` model are supplied. -/
theorem register_duplicate_rejected (model : UserModel) (now : Int) (db : Db)
    (body : RegisterPayload) (name : String) (existing : User)
    (hup : db.fault = none) (hname : body.username = some name)
    (hmem : existing ∈ db.users) (hexisting : existing.username = name) :
    register model now db body =
      (⟨400, Body.failure (ErrorText.text "Username already exists")⟩, db) := by
  have hsome : ∃ u, db.users.find? (fun u => u.username == name) = some u := by
    cases h : db.users.find? (fun u => u.username == name) with
    | some u => exact ⟨u, rfl⟩
    | none =>
      rw [List.find?_eq_none] at h
      exact absurd (by simpa using hexisting) (h existing hmem)
  obtain ⟨u, hu⟩ := hsome
  simp only [register, User.findOne, hup, hname, hu]

/-- The witness of C10: registering `asha` again, as an admin, against the
sample store. -/
theorem register_duplicate_rejected_witness :
    sampleUser ∈ sampleDb.users ∧
    register sampleUserModel 5 sampleDb ⟨some "asha", some "other", some "admin"⟩ =
      (⟨400, Body.failure (ErrorText.text "Username already exists")⟩, sampleDb) :=
  ⟨by simp [sampleDb],
    register_duplicate_rejected sampleUserModel 5 sampleDb
      ⟨some "asha", some "other", some "admin"⟩ "asha" sampleUser rfl rfl
      (by simp [sampleDb]) rfl⟩

/-! ## The access gate -/

/-- On the register route the request goes through `protect` and then
`authorize('admin')`, and reaches `register` when both let it pass. -/
theorem dispatch_register (now : Int) (credential : Option BearerToken) :
    dispatch now credential Verb.post ["api", "auth", "register"] =
      match runChain now credential none [Middleware.protect, Middleware.authorize "admin"] with
      | Except.error rejection => Dispatch.rejected rejection
      | Except.ok context => Dispatch.reached Endpoint.register [] context := by
  have hapi : sameSegment "api" "api" = true := by decide
  have hauth : sameSegment "auth" "auth" = true := by decide
  have hlogin : sameSegment "login" "register" = false := by decide
  have hregister : sameSegment "register" "register" = true := by decide
  simp only [dispatch, app, runApp, stripBase, authRoutes, runRouter, matchPattern, hapi, hauth,
    hlogin, hregister, if_true, Bool.false_eq_true, if_false]
  cases runChain now credential none [Middleware.protect, Middleware.authorize "admin"] <;> rfl

/-- The two middlewares of the register route let exactly the requests pass
whose credential authenticates with the role `'admin'`. -/
theorem runChain_protect_admin (now : Int) (credential : Option BearerToken) :
    runChain now credential none [Middleware.protect, Middleware.authorize "admin"] =
      match authenticate now credential with
      | Except.error error => Except.error ⟨401, error⟩
      | Except.ok session =>
        if session.role = "admin" then Except.ok (some session)
        else Except.error ⟨403, AuthError.forbidden⟩ := by
  simp only [runChain, Middleware.run]
  cases authenticate now credential with
  | error error => rfl
  | ok session =>
    by_cases hrole : session.role = "admin"
    · simp [hrole]
    · simp [hrole]

/-- C11: a request to `POST /api/auth/register` whose credential authenticates
with a role other than `'admin'` is answered 403 by `authorize('admin')`, the
store is left unchanged, and whenever the `register` handler does answer,
`protect` has authenticated the credential and its role is `'admin'`. -/
theorem serveRegister_non_admin_forbidden (model : UserModel) (now : Int) (db : Db)
    (credential : Option BearerToken) (body : RegisterPayload) (session : SessionContext)
    (hauth : authenticate now credential = Except.ok session)
    (hrole : session.role ≠ "admin") :
    serveRegister model now db credential body =
      (Served.rejected ⟨403, AuthError.forbidden⟩, db) ∧
    (∀ (credential' : Option BearerToken) (response : Response AuthData) (db' : Db),
      serveRegister model now db credential' body = (Served.handled response, db') →
      ∃ session', authenticate now credential' = Except.ok session' ∧
        session'.role = "admin" ∧ (response, db') = register model now db body) := by
  constructor
  · simp [serveRegister, dispatch_register, runChain_protect_admin, hauth, hrole]
  · intro credential' response db' hserved
    simp only [serveRegister, dispatch_register, runChain_protect_admin] at hserved
    cases hauth' : authenticate now credential' with
    | error error => simp [hauth'] at hserved
    | ok session' =>
      by_cases hadmin : session'.role = "admin"
      · simp only [hauth', hadmin, if_true] at hserved
        refine ⟨session', rfl, hadmin, ?_⟩
        cases hserved
        rfl
      · simp [hauth', hadmin] at hserved

/-- A handler that a router reaches is the handler of one of its routes. -/
theorem runRouter_reached_mem (now : Int) (credential : Option BearerToken) (verb : Verb)
    (path : List String) (layers : List Layer) :
    ∀ (context : Option SessionContext) (endpoint : Endpoint) (params : List String)
      (context' : Option SessionContext),
      runRouter now credential verb path context layers =
        Dispatch.reached endpoint params context' →
      ∃ v pattern chain, Layer.route v pattern chain endpoint ∈ layers := by
  induction layers with
  | nil => intro context endpoint params context' h; simp [runRouter] at h
  | cons layer rest ih =>
    intro context endpoint params context' h
    cases layer with
    | use middleware =>
      simp only [runRouter] at h
      split at h
      · cases h
      · obtain ⟨v, pattern, chain, hmem⟩ := ih _ _ _ _ h
        exact ⟨v, pattern, chain, List.mem_cons_of_mem _ hmem⟩
    | route v pattern chain e =>
      simp only [runRouter] at h
      split at h
      · split at h
        · split at h
          · cases h
          · cases h
            exact ⟨v, pattern, chain, List.mem_cons_self _ _⟩
        · obtain ⟨v', pattern', chain', hmem⟩ := ih _ _ _ _ h
          exact ⟨v', pattern', chain', List.mem_cons_of_mem _ hmem⟩
      · obtain ⟨v', pattern', chain', hmem⟩ := ih _ _ _ _ h
        exact ⟨v', pattern', chain', List.mem_cons_of_mem _ hmem⟩

/-- A router whose first layer is `router.use(protect)` reaches a handler only
for a credential that `authenticate` accepts. -/
theorem runRouter_use_protect (now : Int) (credential : Option BearerToken) (verb : Verb)
    (path : List String) (context : Option SessionContext) (rest : List Layer)
    (endpoint : Endpoint) (params : List String) (context' : Option SessionContext)
    (h : runRouter now credential verb path context (Layer.use Middleware.protect :: rest) =
      Dispatch.reached endpoint params context') :
    ∃ session, authenticate now credential = Except.ok session := by
  simp only [runRouter, Middleware.run] at h
  cases hauth : authenticate now credential with
  | ok session => exact ⟨session, rfl⟩
  | error error => simp [hauth] at h

/-- A route whose chain starts with `protect` is reached only for a credential
that `authenticate` accepts. -/
theorem runChain_protect_ok (now : Int) (credential : Option BearerToken)
    (context context' : Option SessionContext) (rest : List Middleware)
    (h : runChain now credential context (Middleware.protect :: rest) = Except.ok context') :
    ∃ session, authenticate now credential = Except.ok session := by
  simp only [runChain, Middleware.run] at h
  cases hauth : authenticate now credential with
  | ok session => exact ⟨session, rfl⟩
  | error error => simp [hauth] at h

/-- The auth router reaches `login` without a gate and `register` only behind
`protect`. -/
theorem authRoutes_reached (now : Int) (credential : Option BearerToken) (verb : Verb)
    (path : List String) (endpoint : Endpoint) (params : List String)
    (context : Option SessionContext)
    (h : runRouter now credential verb path none authRoutes =
      Dispatch.reached endpoint params context) :
    endpoint = Endpoint.login ∨ ∃ session, authenticate now credential = Except.ok session := by
  simp only [authRoutes, runRouter] at h
  repeat' split at h
  all_goals first
    | (cases h; done)
    | (cases h; exact Or.inl rfl)
    | (cases h; exact Or.inr (runChain_protect_ok _ _ _ _ _ (by assumption)))

/-- Every handler that a request reaches, other than `login` and the welcome
route, is reached only for a credential that `protect` has authenticated. -/
theorem dispatch_reached_gated (now : Int) (credential : Option BearerToken) (verb : Verb)
    (path : List String) (endpoint : Endpoint) (params : List String)
    (context : Option SessionContext)
    (h : dispatch now credential verb path = Dispatch.reached endpoint params context)
    (hlogin : endpoint ≠ Endpoint.login) (hwelcome : endpoint ≠ Endpoint.welcome) :
    ∃ session, authenticate now credential = Except.ok session := by
  simp only [dispatch, app, runApp] at h
  repeat' split at h
  all_goals first
    | (cases h; done)
    | (cases h; exact absurd rfl hwelcome)
    | exact (authRoutes_reached _ _ _ _ _ _ _ h).resolve_left hlogin
    | exact runRouter_use_protect _ _ _ _ _ _ _ _ _ h

/-- The witness of C11: the credential of `asha`, whose role is `'user'`, is
answered 403 on the register route and the sample store is unchanged. -/
theorem serveRegister_non_admin_forbidden_witness :
    authenticate 5 (some sampleToken) = Except.ok ⟨3, "user"⟩ ∧
    serveRegister sampleUserModel 5 sampleDb (some sampleToken)
        ⟨some "ravi", some "secret", some "admin"⟩ =
      (Served.rejected ⟨403, AuthError.forbidden⟩, sampleDb) :=
  ⟨rfl,
    (serveRegister_non_admin_forbidden sampleUserModel 5 sampleDb (some sampleToken)
      ⟨some "ravi", some "secret", some "admin"⟩ ⟨3, "user"⟩ rfl (by decide)).1⟩

/-- The counterexample to C12: the welcome route `GET /` is reached by a
request that presents no credential, which `protect` would reject, and it is
not the login route. -/
theorem welcome_route_has_no_gate :
    authenticate 5 none = Except.error AuthError.missingToken ∧
    dispatch 5 none Verb.get [] = Dispatch.reached Endpoint.welcome [] none ∧
    Endpoint.welcome ≠ Endpoint.login :=
  ⟨rfl, rfl, by decide⟩

/-- C12, as the code has it: every handler other than `login` and the welcome
route `GET /` is reached only for a request that `protect` has let pass, so no
ledger handler runs for a request that `protect` rejects; `login` and the
welcome route are reached whatever the credential is; and a request that
`protect` lets pass reaches each of the fourteen ledger routes. -/
theorem ledger_routes_behind_protect (now : Int) (credential : Option BearerToken) :
    (∀ verb path endpoint params context,
      dispatch now credential verb path = Dispatch.reached endpoint params context →
      endpoint ≠ Endpoint.login → endpoint ≠ Endpoint.welcome →
      ∃ session, authenticate now credential = Except.ok session) ∧
    dispatch now credential Verb.post ["api", "auth", "login"] =
      Dispatch.reached Endpoint.login [] none ∧
    dispatch now credential Verb.get [] = Dispatch.reached Endpoint.welcome [] none ∧
    (∀ session id, authenticate now credential = Except.ok session →
      dispatch now credential Verb.post ["api", "pawn"] =
        Dispatch.reached Endpoint.createPawnLoan [] (some session) ∧
      dispatch now credential Verb.get ["api", "pawn"] =
        Dispatch.reached Endpoint.getPawnLoans [] (some session) ∧
      dispatch now credential Verb.get ["api", "pawn", id] =
        Dispatch.reached Endpoint.getPawnLoan [id] (some session) ∧
      dispatch now credential Verb.put ["api", "pawn", id] =
        Dispatch.reached Endpoint.updatePawnLoan [id] (some session) ∧
      dispatch now credential Verb.delete ["api", "pawn", id] =
        Dispatch.reached Endpoint.deletePawnLoan [id] (some session) ∧
      dispatch now credential Verb.post ["api", "pawn", id, "repayment"] =
        Dispatch.reached Endpoint.addRepayment [id] (some session) ∧
      dispatch now credential Verb.post ["api", "horticulture"] =
        Dispatch.reached Endpoint.createHorticulture [] (some session) ∧
      dispatch now credential Verb.get ["api", "horticulture"] =
        Dispatch.reached Endpoint.getHorticultureRecords [] (some session) ∧
      dispatch now credential Verb.get ["api", "horticulture", id] =
        Dispatch.reached Endpoint.getHorticultureRecord [id] (some session) ∧
      dispatch now credential Verb.put ["api", "horticulture", id] =
        Dispatch.reached Endpoint.updateHorticultureRecord [id] (some session) ∧
      dispatch now credential Verb.delete ["api", "horticulture", id] =
        Dispatch.reached Endpoint.deleteHorticultureRecord [id] (some session) ∧
      dispatch now credential Verb.post ["api", "horticulture", id, "expense"] =
        Dispatch.reached Endpoint.addExpense [id] (some session) ∧
      dispatch now credential Verb.put ["api", "horticulture", id, "harvest"] =
        Dispatch.reached Endpoint.updateHarvest [id] (some session)) := by
  refine ⟨?_, ?_, ?_, ?_⟩
  · intro verb path endpoint params context h hlogin hwelcome
    exact dispatch_reached_gated now credential verb path endpoint params context h
      hlogin hwelcome
  · simp [dispatch, app, runApp, stripBase, authRoutes, runRouter, matchPattern, sameSegment, runChain]
  · simp [dispatch, app, runApp, stripBase, matchPattern, sameSegment]
  · intro session id hauth
    simp [dispatch, app, runApp, stripBase, authRoutes, pawnRoutes, horticultureRoutes,
      runRouter, matchPattern, sameSegment, runChain, Middleware.run, hauth]

/-- The witness of C12: with the credential of `asha` the repayment route of
loan `1` is reached behind `protect`; without a credential the same request is
answered 401. -/
theorem ledger_routes_behind_protect_witness :
    dispatch 5 (some sampleToken) Verb.post ["api", "pawn", "1", "repayment"] =
      Dispatch.reached Endpoint.addRepayment ["1"] (some ⟨3, "user"⟩) ∧
    (∃ session, authenticate 5 (some sampleToken) = Except.ok session) ∧
    dispatch 5 none Verb.post ["api", "pawn", "1", "repayment"] =
      Dispatch.rejected ⟨401, AuthError.missingToken⟩ :=
  ⟨rfl,
    (ledger_routes_behind_protect 5 (some sampleToken)).1 Verb.post
      ["api", "pawn", "1", "repayment"] Endpoint.addRepayment ["1"] (some ⟨3, "user"⟩) rfl
      (by decide) (by decide),
    rfl⟩

/-! ## Session tokens -/

/-- A successful `login` answers 200 with the token `generateToken` makes for
the account found under the username, and with that account's id, username
and role beside it. -/
theorem login_success (model : UserModel) (now : Int) (db : Db) (body : LoginPayload)
    (status : Nat) (data : AuthData)
    (h : login model now db body = ⟨status, Body.success data⟩) :
    ∃ user, User.findOne db body.username = Except.ok (some user) ∧
      data.token = generateToken now user._id ∧
      data.user = { id := user._id, username := user.username, role := user.role } := by
  unfold login at h
  split at h
  · cases h
  · split at h
    · cases h
    · cases h
    · next user hfound =>
      split at h
      · cases h
      · cases h
        exact ⟨user, hfound, rfl, rfl⟩

/-- A successful `register` answers 201 with the token `generateToken` makes
for the account that `User.create` returned. -/
theorem register_success (model : UserModel) (now : Int) (db : Db) (body : RegisterPayload)
    (status : Nat) (data : AuthData) (db' : Db)
    (h : register model now db body = (⟨status, Body.success data⟩, db')) :
    ∃ user : User, data.token = generateToken now user._id := by
  unfold register at h
  split at h
  · cases h
  · cases h
  · split at h
    · cases h
    · next user _ _ =>
      cases h
      exact ⟨user, rfl⟩

/-- C13: every token `generateToken` produces expires exactly 2,592,000
seconds (thirty days) after it was issued, and so does every token in a
successful `login` or `register` response. -/
theorem generateToken_expires_after_thirty_days (now : Int) :
    (∀ id, (generateToken now id).exp = (generateToken now id).iat + 2592000) ∧
    (∀ model db body status data,
      login model now db body = ⟨status, Body.success data⟩ →
      data.token.exp = data.token.iat + 2592000) ∧
    (∀ model db body status data db',
      register model now db body = (⟨status, Body.success data⟩, db') →
      data.token.exp = data.token.iat + 2592000) := by
  have hgen : ∀ id, (generateToken now id).exp = (generateToken now id).iat + 2592000 := by
    intro id
    simp only [generateToken]
    norm_num
  refine ⟨hgen, ?_, ?_⟩
  · intro model db body status data h
    obtain ⟨user, _, htoken, _⟩ := login_success model now db body status data h
    rw [htoken]
    exact hgen _
  · intro model db body status data db' h
    obtain ⟨user, htoken⟩ := register_success model now db body status data db' h
    rw [htoken]
    exact hgen _

/-- The witness of C13: the token issued to `asha` at time 5000 is issued at
second 5 and expires at second 2592005. -/
theorem generateToken_expires_after_thirty_days_witness :
    login sampleUserModel 5000 sampleDb ⟨some "asha", some "secret"⟩ =
      ⟨200, Body.success ⟨⟨3, 5, 2592005⟩, ⟨3, "asha", some "user"⟩⟩⟩ ∧
    (2592005 : Int) = 5 + 2592000 :=
  ⟨rfl,
    (generateToken_expires_after_thirty_days 5000).2.1 sampleUserModel sampleDb
      ⟨some "asha", some "secret"⟩ 200 ⟨⟨3, 5, 2592005⟩, ⟨3, "asha", some "user"⟩⟩ rfl⟩

/-- The counterexample to C14: `asha` logs in at the same time against a store
where her role is `'user'` and against one where it is `'admin'`; the two
tokens are equal, so the token does not carry the role. -/
theorem login_token_omits_role :
    login sampleUserModel 5000 sampleDb ⟨some "asha", some "secret"⟩ =
      ⟨200, Body.success ⟨⟨3, 5, 2592005⟩, ⟨3, "asha", some "user"⟩⟩⟩ ∧
    login sampleUserModel 5000 adminDb ⟨some "asha", some "secret"⟩ =
      ⟨200, Body.success ⟨⟨3, 5, 2592005⟩, ⟨3, "asha", some "admin"⟩⟩⟩ ∧
    ¬ ∃ roleOf : Token → Option String,
      ∀ db data, login sampleUserModel 5000 db ⟨some "asha", some "secret"⟩ =
        ⟨200, Body.success data⟩ → roleOf data.token = data.user.role := by
  refine ⟨rfl, rfl, ?_⟩
  rintro ⟨roleOf, hrole⟩
  have h₁ := hrole sampleDb ⟨⟨3, 5, 2592005⟩, ⟨3, "asha", some "user"⟩⟩ rfl
  have h₂ := hrole adminDb ⟨⟨3, 5, 2592005⟩, ⟨3, "asha", some "admin"⟩⟩ rfl
  simp only at h₁ h₂
  rw [h₁] at h₂
  exact absurd h₂ (by decide)

/-- C14, as the code has it: the token issued on a successful login embeds the
id of the account that logged in, the time of issue and the expiry, and
nothing else; the role of that account is returned beside the token, in the
`user` member of the response. -/
theorem login_token_embeds_id (model : UserModel) (now : Int) (db : Db) (body : LoginPayload)
    (status : Nat) (data : AuthData)
    (h : login model now db body = ⟨status, Body.success data⟩) :
    ∃ user, User.findOne db body.username = Except.ok (some user) ∧
      data.token = { id := user._id, iat := now / 1000, exp := now / 1000 + 2592000 } ∧
      data.user.id = user._id ∧ data.user.role = user.role := by
  obtain ⟨user, hfound, htoken, huser⟩ := login_success model now db body status data h
  refine ⟨user, hfound, ?_, by rw [huser], by rw [huser]⟩
  rw [htoken]
  simp only [generateToken]
  norm_num

/-- The witness of C14: the token issued to `asha` embeds her id `3`, and her
role `'user'` is in the `user` member. -/
theorem login_token_embeds_id_witness :
    ∃ user, User.findOne sampleDb (some "asha") = Except.ok (some user) ∧
      (⟨3, 5, 2592005⟩ : Token) = { id := user._id, iat := 5000 / 1000,
                                    exp := 5000 / 1000 + 2592000 } ∧
      (3 : ObjectId) = user._id ∧ some "user" = user.role :=
  login_token_embeds_id sampleUserModel 5000 sampleDb ⟨some "asha", some "secret"⟩ 200
    ⟨⟨3, 5, 2592005⟩, ⟨3, "asha", some "user"⟩⟩ rfl

/-! ## Repayments and the outstanding principal -/

/-- The principal amounts after one more repayment has been appended: the
amount of a principal repayment joins them at the end, no other does. -/
theorem principalAmounts_append (loan : PawnLoan) (entry : Repayment) (stamp : Int)
    (version : Nat) :
    principalAmounts
        { loan with
          repayments := loan.repayments ++ [entry], updatedAt := stamp, __v := version } =
      principalAmounts loan ++
        (if entry.type = some RepaymentType.principal then [entry.amount] else []) := by
  unfold principalAmounts
  by_cases htype : entry.type = some RepaymentType.principal
  · simp [List.filter_append, htype]
  · simp [List.filter_append, htype]

/-- The outstanding principal after one more repayment has been appended: the
amount of a principal repayment is added to the sum of the principal amounts
before the sum is subtracted from `loanAmount`; any other repayment leaves the
outstanding principal as it was. -/
theorem remainingAmount_append (loan : PawnLoan) (entry : Repayment) (stamp : Int)
    (version : Nat) :
    remainingAmount
        { loan with
          repayments := loan.repayments ++ [entry], updatedAt := stamp, __v := version } =
      if entry.type = some RepaymentType.principal
      then JSNumber.num loan.loanAmount -
        (JSNumber.sumLeft ((principalAmounts loan).map JSNumber.ofField) +
          JSNumber.ofField entry.amount)
      else remainingAmount loan := by
  rw [remainingAmount_eq, principalAmounts_append, remainingAmount_eq]
  by_cases htype : entry.type = some RepaymentType.principal
  · simp only [htype, if_true, List.foldl_append, List.foldl_cons, List.foldl_nil,
      JSNumber.sumLeft, List.foldl_map]
  · simp only [htype, if_false, List.append_nil]

/-- `SafeWhole` for a list with one more amount gives it for the list and for
the new amount. -/
theorem JSNumber.SafeWhole.of_append {start a : ℚ} {paid : List ℚ}
    (hsafe : JSNumber.SafeWhole start (paid ++ [a])) :
    JSNumber.SafeWhole start paid ∧ JSNumber.isInteger a ∧
      |start| + (paid.map (fun a => |a|)).sum + |a| < 2 ^ 53 := by
  obtain ⟨hstart, hwhole, hbound⟩ := hsafe
  simp only [List.map_append, List.sum_append, List.map_cons, List.map_nil, List.sum_cons,
    List.sum_nil, add_zero] at hbound
  have ha := abs_nonneg a
  exact ⟨⟨hstart, fun x hx => hwhole x (List.mem_append_left _ hx), by linarith⟩,
    hwhole a (List.mem_append_right _ (List.mem_singleton_self a)), by linarith⟩

/-- What `addRepayment` does for an existing loan with a payload that passes
the validators: it answers 200 with the loan, the entry appended, `updatedAt`
stamped and `__v` incremented, and the store then holds that document. -/
theorem addRepayment_accepted (now : Int) (db : Db) (id : IdParam) (body : RepaymentPayload)
    (loan : PawnLoan) (entry : Repayment)
    (hfind : PawnLoan.findById db id = Except.ok (some loan))
    (hval : validateRepayment loan.repayments.length body = Except.ok entry) :
    (addRepayment now db id body).1 =
      ⟨200, Body.success
        { loan with
          repayments := loan.repayments ++ [entry], updatedAt := now, __v := loan.__v + 1 }⟩ ∧
    PawnLoan.findById (addRepayment now db id body).2 id =
      Except.ok (some { loan with
          repayments := loan.repayments ++ [entry], updatedAt := now, __v := loan.__v + 1 })
    := by
  obtain ⟨db', hsave, hafter⟩ := pawnLoan_save_found now hfind
    { loan with repayments := loan.repayments ++ [entry] } rfl
  have hrun : addRepayment now db id body =
      (⟨200, Body.success
        { loan with
          repayments := loan.repayments ++ [entry], updatedAt := now, __v := loan.__v + 1 }⟩, db') := by
    simp only [addRepayment, hfind, pushRepaymentAndSave, hval, hsave]
  rw [hrun]
  exact ⟨rfl, hafter⟩

/-- The status `addRepayment` answers for an existing loan is decided by the
payload's `type` alone. -/
theorem addRepayment_status (now : Int) (db : Db) (id : IdParam) (body : RepaymentPayload)
    (loan : PawnLoan) (hfind : PawnLoan.findById db id = Except.ok (some loan)) :
    (addRepayment now db id body).1.status =
      match body.type with
      | none => 200
      | some s => if (RepaymentType.ofString? s).isSome then 200 else 400 := by
  cases htype : body.type with
  | none =>
    have hval : validateRepayment loan.repayments.length body =
        Except.ok { amount := body.amount, date := body.date, type := none } := by
      simp only [validateRepayment, htype]
    rw [(addRepayment_accepted now db id body loan _ hfind hval).1]
  | some s =>
    cases hs : RepaymentType.ofString? s with
    | none =>
      simp only [addRepayment, hfind, pushRepaymentAndSave, validateRepayment, htype, hs,
        Option.isSome_none, Bool.false_eq_true, if_false]
    | some t =>
      have hval : validateRepayment loan.repayments.length body =
          Except.ok { amount := body.amount, date := body.date, type := some t } := by
        simp only [validateRepayment, htype, hs]
      rw [(addRepayment_accepted now db id body loan _ hfind hval).1]
      simp [hs]

/-- A document made from a payload takes `'active'` for an absent status, and
its repayments are those of the payload. -/
theorem pawnLoan_cast_defaults (now : Int) (fresh : ObjectId) (body : LoanPayload)
    (doc : PawnLoan) (hcast : PawnLoan.cast now fresh body = some doc) :
    (body.status = none → doc.status = LoanStatus.active) ∧
    castRepayments 0 body.repayments = some doc.repayments ∧
    doc._id = fresh ∧ body.loanAmount = some doc.loanAmount ∧
    body.dueDate = some doc.dueDate ∧ doc.startDate = body.startDate.getD now := by
  simp only [PawnLoan.cast, Option.bind_eq_bind, Option.bind_eq_some, Option.pure_def,
    Option.some.injEq] at hcast
  obtain ⟨customerName, _, phoneNumber, _, address, _, collateralType, _, loanAmount,
    hloanAmount, interestRate, _, dueDate, hdueDate, hrest⟩ := hcast
  cases hstatus : body.status with
  | none =>
    simp only [hstatus, Option.some_bind, Option.bind_eq_some, Option.some.injEq] at hrest
    obtain ⟨repayments, hrepayments, hdoc⟩ := hrest
    subst hdoc
    exact ⟨fun _ => rfl, hrepayments, rfl, hloanAmount, hdueDate, rfl⟩
  | some s =>
    simp only [hstatus, Option.bind_eq_some, Option.some.injEq] at hrest
    obtain ⟨status, _, repayments, hrepayments, hdoc⟩ := hrest
    subst hdoc
    exact ⟨fun h => (by cases h), hrepayments, rfl, hloanAmount, hdueDate, rfl⟩

/-- What a successful `createPawnLoan` has done: the payload passed the schema
and the document was appended to the store. -/
theorem createPawnLoan_created (now : Int) (fresh : ObjectId) (db : Db) (body : LoanPayload)
    (status : Nat) (loan : PawnLoan) (db' : Db)
    (hcreated : createPawnLoan now fresh db body = (⟨status, Body.success loan⟩, db')) :
    PawnLoan.cast now fresh body = some loan ∧
    db' = { db with pawnLoans := db.pawnLoans ++ [loan] } := by
  unfold createPawnLoan PawnLoan.create at hcreated
  cases hcast : PawnLoan.cast now fresh body with
  | none => simp [hcast] at hcreated
  | some doc =>
    cases hfault : db.fault with
    | some message => simp [hcast, hfault] at hcreated
    | none =>
      simp only [hcast, hfault, Prod.mk.injEq, Response.mk.injEq, Body.success.injEq]
        at hcreated
      obtain ⟨⟨_, hloan⟩, hdb⟩ := hcreated
      subst hloan
      exact ⟨rfl, hdb.symm⟩

/-- The counterexample to C15: a loan of 10000 with one principal repayment of
1500.1 has 8499.9 outstanding; `addRepayment` accepts a principal repayment of
2500.2, and the outstanding principal is then 5999.700000000001, while
8499.9 minus 2500.2 is 5999.7 as JavaScript subtracts, and the exact difference
of the two doubles is not 5999.700000000001 either. -/
theorem addRepayment_rounds_outstanding_principal :
    remainingAmount loanRepaidInCents = JSNumber.num (JSNumber.nearest (84999 / 10)) ∧
    (∃ saved,
      (addRepayment 9 { emptyDb with pawnLoans := [loanRepaidInCents] } (IdParam.valid 2)
        ⟨some (JSNumber.nearest (25002 / 10)), none, some "principal"⟩).1 =
        ⟨200, Body.success saved⟩ ∧
      remainingAmount saved =
        JSNumber.num (JSNumber.nearest (5999700000000001 / 1000000000000))) ∧
    JSNumber.num (JSNumber.nearest (84999 / 10)) -
        JSNumber.num (JSNumber.nearest (25002 / 10)) =
      JSNumber.num (JSNumber.nearest (59997 / 10)) ∧
    JSNumber.nearest (5999700000000001 / 1000000000000) ≠ JSNumber.nearest (59997 / 10) ∧
    JSNumber.nearest (5999700000000001 / 1000000000000) ≠
      JSNumber.nearest (84999 / 10) - JSNumber.nearest (25002 / 10) :=
  ⟨by decide!, ⟨_, rfl, by decide!⟩, by decide!, by decide!, by decide!⟩

/-- C15, as the code has it: for an existing loan and a repayment of amount
`a`, `addRepayment` accepts a principal repayment, and the outstanding
principal is then `loanAmount` minus the sum of the prior principal amounts
and `a`, the sum accumulated in list order and every operation rounded to the
nearest double; when `loanAmount`, the prior principal amounts and `a` are
whole numbers whose absolute values add up to less than `2 ^ 53`, that is
exactly the prior outstanding principal minus `a`.  It accepts an interest
repayment and leaves the outstanding principal unchanged.  A loan created from
a payload that supplies no repayments has its `loanAmount` outstanding, and a
loan of 10000 without repayments has outstanding principal 9500 after one
principal repayment of 500. -/
theorem addRepayment_outstanding_principal (now : Int) (db : Db) (id : IdParam)
    (body : RepaymentPayload) (loan : PawnLoan) (a : ℚ)
    (hfind : PawnLoan.findById db id = Except.ok (some loan))
    (hamount : body.amount = some a) :
    (body.type = some "principal" →
      ∃ saved, (addRepayment now db id body).1 = ⟨200, Body.success saved⟩ ∧
        PawnLoan.findById (addRepayment now db id body).2 id = Except.ok (some saved) ∧
        remainingAmount saved =
          JSNumber.num loan.loanAmount -
            (JSNumber.sumLeft ((principalAmounts loan).map JSNumber.ofField) +
              JSNumber.num a) ∧
        (∀ paid : List ℚ, principalAmounts loan = paid.map some →
          JSNumber.SafeWhole loan.loanAmount (paid ++ [a]) →
          remainingAmount saved = remainingAmount loan - JSNumber.num a ∧
          remainingAmount saved = JSNumber.num (loan.loanAmount - paid.sum - a))) ∧
    (body.type = some "interest" →
      ∃ saved, (addRepayment now db id body).1 = ⟨200, Body.success saved⟩ ∧
        PawnLoan.findById (addRepayment now db id body).2 id = Except.ok (some saved) ∧
        remainingAmount saved = remainingAmount loan) ∧
    (∀ (now₀ : Int) (fresh : ObjectId) (db₀ : Db) (payload : LoanPayload) (created : PawnLoan)
      (db₀' : Db) (amount : ℚ),
      createPawnLoan now₀ fresh db₀ payload = (⟨201, Body.success created⟩, db₀') →
      payload.repayments = [] → payload.loanAmount = some amount →
      JSNumber.isDouble amount →
      created.repayments = [] ∧ created.loanAmount = amount ∧
        remainingAmount created = JSNumber.num amount) ∧
    (body.type = some "principal" → loan.loanAmount = 10000 → loan.repayments = [] →
      a = 500 →
      ∃ saved, (addRepayment now db id body).1 = ⟨200, Body.success saved⟩ ∧
        PawnLoan.findById (addRepayment now db id body).2 id = Except.ok (some saved) ∧
        remainingAmount saved = JSNumber.num 9500) := by
  have hprincipal : body.type = some "principal" →
      ∃ saved, (addRepayment now db id body).1 = ⟨200, Body.success saved⟩ ∧
        PawnLoan.findById (addRepayment now db id body).2 id = Except.ok (some saved) ∧
        remainingAmount saved =
          JSNumber.num loan.loanAmount -
            (JSNumber.sumLeft ((principalAmounts loan).map JSNumber.ofField) +
              JSNumber.num a) ∧
        principalAmounts saved = principalAmounts loan ++ [some a] ∧
        saved.loanAmount = loan.loanAmount := by
    intro htype
    have hval : validateRepayment loan.repayments.length body =
        Except.ok { amount := body.amount, date := body.date,
                    type := some RepaymentType.principal } := by
      simp only [validateRepayment, htype, RepaymentType.ofString?]
    obtain ⟨hres, hafter⟩ := addRepayment_accepted now db id body loan _ hfind hval
    refine ⟨_, hres, hafter, ?_, ?_, rfl⟩
    · rw [remainingAmount_append]
      simp only [if_true, hamount, JSNumber.ofField]
    · rw [principalAmounts_append]
      simp only [if_true, hamount]
  refine ⟨?_, ?_, ?_, ?_⟩
  · intro htype
    obtain ⟨saved, hres, hafter, hremaining, hamounts, hsame⟩ := hprincipal htype
    refine ⟨saved, hres, hafter, hremaining, ?_⟩
    intro paid hpaid hsafe
    obtain ⟨hprior, ha, hbound⟩ := hsafe.of_append
    have hsaved : principalAmounts saved = (paid ++ [a]).map some := by
      rw [hamounts, hpaid, List.map_append, List.map_cons, List.map_nil]
    have hexact := remainingAmount_exact saved (paid ++ [a]) hsaved (by rw [hsame]; exact hsafe)
    have hsum : saved.loanAmount - (paid ++ [a]).sum = loan.loanAmount - paid.sum - a := by
      rw [hsame, List.sum_append, List.sum_cons, List.sum_nil]
      ring
    rw [hsum] at hexact
    refine ⟨?_, hexact⟩
    rw [hexact, remainingAmount_exact loan paid hpaid hprior, JSNumber.num_sub_num]
    symm
    obtain ⟨_, hinteger, habs⟩ := JSNumber.sum_amounts_exact _ paid hprior
    refine JSNumber.round_of_isInteger _
      (JSNumber.isInteger_sub (JSNumber.isInteger_sub hprior.1 hinteger) ha) ?_
    have h₁ := abs_sub (loan.loanAmount - paid.sum) a
    have h₂ := abs_sub loan.loanAmount paid.sum
    linarith
  · intro htype
    have hval : validateRepayment loan.repayments.length body =
        Except.ok { amount := body.amount, date := body.date,
                    type := some RepaymentType.interest } := by
      simp only [validateRepayment, htype, RepaymentType.ofString?]
    obtain ⟨hres, hafter⟩ := addRepayment_accepted now db id body loan _ hfind hval
    refine ⟨_, hres, hafter, ?_⟩
    rw [remainingAmount_append]
    simp
  · intro now₀ fresh db₀ payload created db₀' amount hcreated hnone hloanAmount hdouble
    obtain ⟨hcast, _⟩ := createPawnLoan_created now₀ fresh db₀ payload 201 created db₀' hcreated
    obtain ⟨_, hrepayments, _, hcreatedAmount, _⟩ :=
      pawnLoan_cast_defaults now₀ fresh payload created hcast
    rw [hnone] at hrepayments
    have hempty : created.repayments = [] := by
      simpa [castRepayments] using hrepayments.symm
    rw [hloanAmount] at hcreatedAmount
    have hsame : created.loanAmount = amount := (Option.some.inj hcreatedAmount).symm
    refine ⟨hempty, hsame, ?_⟩
    simp only [remainingAmount, hempty, hsame, List.filter_nil, List.foldl_nil,
      JSNumber.zero_def, JSNumber.num_sub_num, sub_zero]
    exact hdouble
  · intro htype hloan hnone ha
    obtain ⟨saved, hres, hafter, hremaining, _⟩ := hprincipal htype
    refine ⟨saved, hres, hafter, ?_⟩
    rw [hremaining]
    simp only [principalAmounts, hloan, hnone, ha, List.filter_nil, List.map_nil,
      JSNumber.sumLeft, List.foldl_nil]
    decide!

/-- The witness of C15: the scenario's loan is created from a payload without
repayments, then repaid 500 of principal; its outstanding principal is
9500. -/
theorem addRepayment_outstanding_principal_witness :
    createPawnLoan 5 2 emptyDb scenarioLoanPayload =
      (⟨201, Body.success scenarioLoan⟩, { emptyDb with pawnLoans := [scenarioLoan] }) ∧
    (scenarioLoan.repayments = [] ∧ scenarioLoan.loanAmount = 10000 ∧
      remainingAmount scenarioLoan = JSNumber.num 10000) ∧
    ∃ saved,
      (addRepayment 9 { emptyDb with pawnLoans := [scenarioLoan] } (IdParam.valid 2)
        ⟨some 500, none, some "principal"⟩).1 = ⟨200, Body.success saved⟩ ∧
      PawnLoan.findById
        (addRepayment 9 { emptyDb with pawnLoans := [scenarioLoan] } (IdParam.valid 2)
          ⟨some 500, none, some "principal"⟩).2 (IdParam.valid 2) = Except.ok (some saved) ∧
      remainingAmount saved = JSNumber.num 9500 :=
  ⟨rfl,
    (addRepayment_outstanding_principal 9 { emptyDb with pawnLoans := [scenarioLoan] }
      (IdParam.valid 2) ⟨some 500, none, some "principal"⟩ scenarioLoan 500 rfl rfl).2.2.1
      5 2 emptyDb scenarioLoanPayload scenarioLoan { emptyDb with pawnLoans := [scenarioLoan] }
      10000 rfl rfl rfl (by decide!),
    (addRepayment_outstanding_principal 9 { emptyDb with pawnLoans := [scenarioLoan] }
      (IdParam.valid 2) ⟨some 500, none, some "principal"⟩ scenarioLoan 500 rfl rfl).2.2.2
      rfl rfl rfl rfl⟩

/-- An overpayment can be rounded away: a loan of `2 ^ 53` that has repaid
`2 ^ 53 - 1` owes 1; after a further principal repayment of 1.5 the sum of the
principal amounts rounds to `2 ^ 53`, and the outstanding principal is 0, not
negative. -/
theorem overpayment_rounded_to_zero :
    remainingAmount loanAtTheSafeLimit = JSNumber.num 1 ∧ (1 : ℚ) < 3 / 2 ∧
    remainingAmount
        { loanAtTheSafeLimit with
          repayments := loanAtTheSafeLimit.repayments ++
            [⟨some (3 / 2), none, some RepaymentType.principal⟩] } = JSNumber.num 0 :=
  ⟨by decide!, by norm_num, by decide!⟩

/-- C20: for existing loans, the status `addRepayment` answers depends on the
payload only, not on the loan, its `loanAmount` or its repayments; a principal
repayment of any amount is answered 200 and appended, whatever is outstanding;
and when the amounts are whole numbers whose absolute values add up to less
than `2 ^ 53`, a repayment larger than the outstanding principal leaves a
negative outstanding principal. -/
theorem addRepayment_ignores_balance (now₁ now₂ : Int) (db₁ db₂ : Db) (id₁ id₂ : IdParam)
    (loan₁ loan₂ : PawnLoan) (body : RepaymentPayload)
    (hfind₁ : PawnLoan.findById db₁ id₁ = Except.ok (some loan₁))
    (hfind₂ : PawnLoan.findById db₂ id₂ = Except.ok (some loan₂)) :
    (addRepayment now₁ db₁ id₁ body).1.status = (addRepayment now₂ db₂ id₂ body).1.status ∧
    (∀ (a : ℚ) (date : Option Int),
      ∃ saved,
        (addRepayment now₁ db₁ id₁ ⟨some a, date, some "principal"⟩).1 =
          ⟨200, Body.success saved⟩ ∧
        PawnLoan.findById (addRepayment now₁ db₁ id₁ ⟨some a, date, some "principal"⟩).2 id₁ =
          Except.ok (some saved) ∧
        saved.repayments = loan₁.repayments ++ [⟨some a, date, some RepaymentType.principal⟩] ∧
        (∀ (paid : List ℚ) (owed : ℚ), principalAmounts loan₁ = paid.map some →
          JSNumber.SafeWhole loan₁.loanAmount (paid ++ [a]) →
          remainingAmount loan₁ = JSNumber.num owed → 0 < a → owed < a →
          ∃ negative, remainingAmount saved = JSNumber.num negative ∧ negative < 0)) := by
  constructor
  · rw [addRepayment_status now₁ db₁ id₁ body loan₁ hfind₁,
      addRepayment_status now₂ db₂ id₂ body loan₂ hfind₂]
  · intro a date
    have hval : validateRepayment loan₁.repayments.length ⟨some a, date, some "principal"⟩ =
        Except.ok { amount := some a, date := date, type := some RepaymentType.principal } := by
      simp only [validateRepayment, RepaymentType.ofString?]
    obtain ⟨hres, hafter⟩ := addRepayment_accepted now₁ db₁ id₁ _ loan₁ _ hfind₁ hval
    refine ⟨_, hres, hafter, rfl, ?_⟩
    intro paid owed hpaid hsafe howed _ hover
    obtain ⟨hprior, _, _⟩ := hsafe.of_append
    have hbefore := remainingAmount_exact loan₁ paid hpaid hprior
    rw [howed] at hbefore
    have hvalue : owed = loan₁.loanAmount - paid.sum := JSNumber.num.inj hbefore
    have hamounts : principalAmounts
        { loan₁ with
          repayments := loan₁.repayments ++ [⟨some a, date, some RepaymentType.principal⟩]
          updatedAt := now₁, __v := loan₁.__v + 1 } = (paid ++ [a]).map some := by
      rw [principalAmounts_append, hpaid]
      simp
    refine ⟨loan₁.loanAmount - (paid ++ [a]).sum, remainingAmount_exact _ _ hamounts hsafe, ?_⟩
    rw [List.sum_append, List.sum_cons, List.sum_nil]
    linarith

/-- The outstanding principal of the sample loan is 9500. -/
theorem remainingAmount_sampleLoan : remainingAmount sampleLoan = JSNumber.num 9500 := by
  decide!

/-- The witness of C20: a principal repayment of 20000 on the sample loan,
which owes 9500, is accepted like it is on the scenario's loan, and leaves a
negative amount outstanding. -/
theorem addRepayment_ignores_balance_witness :
    (addRepayment 5 sampleDb (IdParam.valid 1) ⟨some 20000, none, some "principal"⟩).1.status =
      (addRepayment 9 { emptyDb with pawnLoans := [scenarioLoan] } (IdParam.valid 2)
        ⟨some 20000, none, some "principal"⟩).1.status ∧
    ∃ saved,
      (addRepayment 5 sampleDb (IdParam.valid 1) ⟨some 20000, none, some "principal"⟩).1 =
        ⟨200, Body.success saved⟩ ∧
      PawnLoan.findById
        (addRepayment 5 sampleDb (IdParam.valid 1) ⟨some 20000, none, some "principal"⟩).2
        (IdParam.valid 1) = Except.ok (some saved) ∧
      saved.repayments =
        sampleLoan.repayments ++ [⟨some 20000, none, some RepaymentType.principal⟩] ∧
      ∃ negative, remainingAmount saved = JSNumber.num negative ∧ negative < 0 := by
  obtain ⟨hstatus, haccept⟩ :=
    addRepayment_ignores_balance 5 9 sampleDb { emptyDb with pawnLoans := [scenarioLoan] }
      (IdParam.valid 1) (IdParam.valid 2) sampleLoan scenarioLoan
      ⟨some 20000, none, some "principal"⟩ rfl rfl
  obtain ⟨saved, hres, hafter, happended, hnegative⟩ := haccept 20000 none
  refine ⟨hstatus, saved, hres, hafter, happended, ?_⟩
  refine hnegative [500] 9500 rfl ⟨rfl, ?_, ?_⟩ remainingAmount_sampleLoan (by norm_num)
    (by norm_num)
  · intro x hx
    simp only [List.cons_append, List.nil_append, List.mem_cons, List.mem_singleton,
      List.not_mem_nil, or_false] at hx
    rcases hx with h | h <;> subst h <;> rfl
  · norm_num [sampleLoan]

/-! ## The total repaid -/

/-- The exact sum over a repayment list is the sum over its principal
repayments plus the sum over its interest repayments plus the sum over the
repayments that carry no type. -/
theorem sum_amounts_by_type (g : Repayment → ℚ) (repayments : List Repayment) :
    (repayments.map g).sum =
      ((repayments.filter (fun r => r.type = some RepaymentType.principal)).map g).sum +
      ((repayments.filter (fun r => r.type = some RepaymentType.interest)).map g).sum +
      ((repayments.filter (fun r => r.type = none)).map g).sum := by
  induction repayments with
  | nil => simp
  | cons r rest ih =>
    rcases r with ⟨amount, date, type⟩
    rcases type with _ | type
    · simp only [List.map_cons, List.sum_cons, ih, List.filter_cons, decide_True,
        decide_False, if_true, Bool.false_eq_true, if_false, reduceCtorEq]
      ring
    · cases type
      · simp only [List.map_cons, List.sum_cons, ih, List.filter_cons, decide_True,
          decide_False, if_true, Bool.false_eq_true, if_false, reduceCtorEq,
          Option.some.injEq]
        ring
      · simp only [List.map_cons, List.sum_cons, ih, List.filter_cons, decide_True,
          decide_False, if_true, Bool.false_eq_true, if_false, reduceCtorEq,
          Option.some.injEq]
        ring

/-- The sum of the amounts of a list of repayments, accumulated in list order,
is the exact sum when every amount is a present whole number and the absolute
values add up to less than `2 ^ 53`. -/
theorem sumLeft_amounts_exact (repayments : List Repayment)
    (hwhole : ∀ r ∈ repayments, ∃ q, r.amount = some q ∧ JSNumber.isInteger q)
    (hbound : (repayments.map (fun r => |r.amount.getD 0|)).sum < 2 ^ 53) :
    JSNumber.sumLeft (repayments.map (fun r => JSNumber.ofField r.amount)) =
      JSNumber.num (repayments.map (fun r => r.amount.getD 0)).sum := by
  unfold JSNumber.sumLeft
  rw [List.foldl_map]
  have hext : repayments.foldl (fun sum r => sum + JSNumber.ofField r.amount) 0 =
      repayments.foldl (fun sum r => sum + JSNumber.num (r.amount.getD 0)) 0 := by
    apply List.foldl_ext
    intro sum r hr
    obtain ⟨q, hq, _⟩ := hwhole r hr
    rw [hq]
    rfl
  rw [hext]
  have hexact := JSNumber.foldl_add_exact (fun r : Repayment => r.amount.getD 0) repayments 0
    JSNumber.isInteger_zero
    (by
      intro r hr
      obtain ⟨q, hq, hinteger⟩ := hwhole r hr
      show JSNumber.isInteger (r.amount.getD 0)
      rw [hq]
      exact hinteger)
    (by simpa only [abs_zero, zero_add] using hbound)
  simpa only [zero_add] using hexact

/-- The counterexample to C17: `addRepayment` appends to the sample loan a
repayment of 100 that names no type; the total repaid is then 800, while the
principal repayments sum to 500 and the interest repayments to 200.  And on a
loan with an interest repayment of 0.1 and principal repayments of 0.2 and 0.3
the total repaid is 0.6000000000000001, while the principal sum 0.5 plus the
interest sum 0.1 is 0.6. -/
theorem totalRepaidAmount_counts_untyped :
    PawnLoan.findById (addRepayment 5 sampleDb (IdParam.valid 1) ⟨some 100, none, none⟩).2
      (IdParam.valid 1) = Except.ok (some loanWithUntypedRepayment) ∧
    totalRepaidAmount loanWithUntypedRepayment = JSNumber.num 800 ∧
    repaidOfType RepaymentType.principal loanWithUntypedRepayment +
      repaidOfType RepaymentType.interest loanWithUntypedRepayment = JSNumber.num 700 ∧
    JSNumber.num 800 ≠ JSNumber.num 700 ∧
    totalRepaidAmount loanRepaidInMixedTenths =
      JSNumber.num (JSNumber.nearest (6000000000000001 / 10000000000000000)) ∧
    repaidOfType RepaymentType.principal loanRepaidInMixedTenths +
      repaidOfType RepaymentType.interest loanRepaidInMixedTenths =
      JSNumber.num (JSNumber.nearest (6 / 10)) ∧
    JSNumber.nearest (6000000000000001 / 10000000000000000) ≠ JSNumber.nearest (6 / 10) :=
  ⟨rfl, by decide!, by decide!, by decide!, by decide!, by decide!, by decide!⟩

/-- C17, as the code has it: the total repaid is the sum of the amounts of all
repayments whatever their type, accumulated from 0 in list order with every
addition rounded to the nearest double, and it is 0 for the empty list.  When
every amount is a whole number and the absolute values add up to less than
`2 ^ 53`, nothing is rounded: the total is the exact sum, it equals the sum of
the principal repayments plus the sum of the interest repayments plus the sum
of the repayments that carry no type, and hence the sum of the first two when
every repayment carries a type. -/
theorem totalRepaidAmount_eq_sum (loan : PawnLoan) :
    totalRepaidAmount loan =
      JSNumber.sumLeft (loan.repayments.map (fun r => JSNumber.ofField r.amount)) ∧
    totalRepaidAmount { loan with repayments := [] } = 0 ∧
    (∀ paid : List ℚ, loan.repayments.map (fun r => r.amount) = paid.map some →
      JSNumber.SafeWhole 0 paid →
      totalRepaidAmount loan = JSNumber.num paid.sum ∧
      totalRepaidAmount loan =
        repaidOfType RepaymentType.principal loan + repaidOfType RepaymentType.interest loan +
          repaidUntyped loan ∧
      ((∀ r ∈ loan.repayments, r.type ≠ none) →
        totalRepaidAmount loan =
          repaidOfType RepaymentType.principal loan +
            repaidOfType RepaymentType.interest loan)) := by
  have hsum : totalRepaidAmount loan =
      JSNumber.sumLeft (loan.repayments.map (fun r => JSNumber.ofField r.amount)) := by
    unfold totalRepaidAmount JSNumber.sumLeft
    rw [List.foldl_map]
  refine ⟨hsum, rfl, ?_⟩
  intro paid hpaid hsafe
  obtain ⟨_, hinteger, hbound⟩ := hsafe
  simp only [abs_zero, zero_add] at hbound
  -- every amount is present and whole, and `paid` lists the amounts
  have hwhole : ∀ r ∈ loan.repayments, ∃ q, r.amount = some q ∧ JSNumber.isInteger q := by
    intro r hr
    have hmem : r.amount ∈ paid.map some := by
      rw [← hpaid]
      exact List.mem_map_of_mem (fun r : Repayment => r.amount) hr
    obtain ⟨q, hq, hrq⟩ := List.mem_map.mp hmem
    exact ⟨q, hrq.symm, hinteger q hq⟩
  have hlist : loan.repayments.map (fun r => r.amount.getD 0) = paid := by
    have h := congrArg (List.map (fun a : Option ℚ => a.getD 0)) hpaid
    simp only [List.map_map] at h
    rw [show ((fun a : Option ℚ => a.getD 0) ∘ fun r : Repayment => r.amount) =
      (fun r : Repayment => r.amount.getD 0) from rfl] at h
    rw [h]
    calc paid.map ((fun a : Option ℚ => a.getD 0) ∘ some) = paid.map id :=
          List.map_congr_left (fun a _ => rfl)
      _ = paid := List.map_id _
  have habs : (loan.repayments.map (fun r => |r.amount.getD 0|)).sum =
      (paid.map (fun a => |a|)).sum := by
    rw [← hlist, List.map_map]
    rfl
  have hparts := sum_amounts_by_type (fun r => |r.amount.getD 0|) loan.repayments
  have hexactParts := sum_amounts_by_type (fun r => r.amount.getD 0) loan.repayments
  rw [habs] at hparts
  rw [hlist] at hexactParts
  -- the three parts
  have hpart : ∀ keep : Repayment → Bool,
      (((loan.repayments.filter keep).map (fun r => |r.amount.getD 0|)).sum ≤
        (paid.map (fun a => |a|)).sum →
      JSNumber.sumLeft ((loan.repayments.filter keep).map (fun r => JSNumber.ofField r.amount))
        = JSNumber.num ((loan.repayments.filter keep).map (fun r => r.amount.getD 0)).sum ∧
      JSNumber.isInteger ((loan.repayments.filter keep).map (fun r => r.amount.getD 0)).sum ∧
      |((loan.repayments.filter keep).map (fun r => r.amount.getD 0)).sum| ≤
        ((loan.repayments.filter keep).map (fun r => |r.amount.getD 0|)).sum) := by
    intro keep hle
    have hwhole' : ∀ r ∈ loan.repayments.filter keep,
        ∃ q, r.amount = some q ∧ JSNumber.isInteger q :=
      fun r hr => hwhole r (List.mem_filter.mp hr).1
    refine ⟨sumLeft_amounts_exact _ hwhole' (lt_of_le_of_lt hle hbound), ?_, ?_⟩
    · apply JSNumber.isInteger_sum
      intro a ha
      obtain ⟨r, hr, rfl⟩ := List.mem_map.mp ha
      obtain ⟨q, hq, hqi⟩ := hwhole' r hr
      rw [hq]
      exact hqi
    · have := abs_sum_le_sum_abs_list
        ((loan.repayments.filter keep).map (fun r => r.amount.getD 0))
      rwa [List.map_map] at this
  have hp0 := sum_abs_nonneg (fun r : Repayment => r.amount.getD 0)
    (loan.repayments.filter (fun r => r.type = some RepaymentType.principal))
  have hi0 := sum_abs_nonneg (fun r : Repayment => r.amount.getD 0)
    (loan.repayments.filter (fun r => r.type = some RepaymentType.interest))
  have hu0 := sum_abs_nonneg (fun r : Repayment => r.amount.getD 0)
    (loan.repayments.filter (fun r => r.type = none))
  obtain ⟨hP, hPi, hPa⟩ := hpart (fun r => r.type = some RepaymentType.principal)
    (by linarith)
  obtain ⟨hI, hIi, hIa⟩ := hpart (fun r => r.type = some RepaymentType.interest)
    (by linarith)
  obtain ⟨hU, hUi, hUa⟩ := hpart (fun r => r.type = none) (by linarith)
  have htotal : totalRepaidAmount loan = JSNumber.num paid.sum := by
    rw [hsum, sumLeft_amounts_exact loan.repayments hwhole (by rw [habs]; exact hbound), hlist]
  have hPI : repaidOfType RepaymentType.principal loan +
      repaidOfType RepaymentType.interest loan =
      JSNumber.num
        (((loan.repayments.filter (fun r => r.type = some RepaymentType.principal)).map
            (fun r => r.amount.getD 0)).sum +
          ((loan.repayments.filter (fun r => r.type = some RepaymentType.interest)).map
            (fun r => r.amount.getD 0)).sum) := by
    unfold repaidOfType
    rw [hP, hI, JSNumber.num_add_num]
    refine JSNumber.round_of_isInteger _ (JSNumber.isInteger_add hPi hIi) ?_
    have := abs_add
      ((loan.repayments.filter (fun r => r.type = some RepaymentType.principal)).map
        (fun r => r.amount.getD 0)).sum
      ((loan.repayments.filter (fun r => r.type = some RepaymentType.interest)).map
        (fun r => r.amount.getD 0)).sum
    linarith
  have hsplit : totalRepaidAmount loan =
      repaidOfType RepaymentType.principal loan + repaidOfType RepaymentType.interest loan +
        repaidUntyped loan := by
    rw [hPI, htotal]
    unfold repaidUntyped
    rw [hU, JSNumber.num_add_num, ← hexactParts]
    symm
    refine JSNumber.round_of_isInteger _ (JSNumber.isInteger_sum paid hinteger) ?_
    exact lt_of_le_of_lt (abs_sum_le_sum_abs_list paid) hbound
  refine ⟨htotal, hsplit, ?_⟩
  intro htyped
  have hnone : loan.repayments.filter (fun r => r.type = none) = [] := by
    rw [List.filter_eq_nil_iff]
    intro r hr
    simpa using htyped r hr
  rw [htotal, hPI, hexactParts, hnone]
  simp

/-- The witness of C17: the amounts of the sample loan are whole and every
repayment carries a type, so its total repaid is 700, the principal sum plus
the interest sum. -/
theorem totalRepaidAmount_eq_sum_witness :
    totalRepaidAmount sampleLoan = JSNumber.num ([(500 : ℚ), 200].sum) ∧
    totalRepaidAmount sampleLoan =
      repaidOfType RepaymentType.principal sampleLoan +
        repaidOfType RepaymentType.interest sampleLoan := by
  have hsafe : JSNumber.SafeWhole 0 [500, 200] := by
    refine ⟨rfl, ?_, by norm_num⟩
    intro a ha
    simp only [List.mem_cons, List.mem_singleton, List.not_mem_nil, or_false] at ha
    rcases ha with h | h <;> subst h <;> rfl
  exact ⟨((totalRepaidAmount_eq_sum sampleLoan).2.2 [500, 200] rfl hsafe).1,
    ((totalRepaidAmount_eq_sum sampleLoan).2.2 [500, 200] rfl hsafe).2.2 (by decide)⟩

/-! ## Defaults of a new loan -/

/-- C18: a loan that `createPawnLoan` creates from a payload supplying neither
status nor repayments is appended to the store with status `'active'` and an
empty repayment list. -/
theorem createPawnLoan_defaults (now : Int) (fresh : ObjectId) (db : Db) (body : LoanPayload)
    (loan : PawnLoan) (db' : Db)
    (hcreated : createPawnLoan now fresh db body = (⟨201, Body.success loan⟩, db'))
    (hstatus : body.status = none) (hrepayments : body.repayments = []) :
    loan.status = LoanStatus.active ∧ loan.repayments = [] ∧
    db'.pawnLoans = db.pawnLoans ++ [loan] := by
  unfold createPawnLoan PawnLoan.create at hcreated
  cases hcast : PawnLoan.cast now fresh body with
  | none => simp [hcast] at hcreated
  | some doc =>
    cases hfault : db.fault with
    | some message => simp [hcast, hfault] at hcreated
    | none =>
      simp only [hcast, hfault, Prod.mk.injEq, Response.mk.injEq, Body.success.injEq,
        true_and] at hcreated
      obtain ⟨hloan, hdb⟩ := hcreated
      subst hloan
      subst hdb
      obtain ⟨hactive, hcastRepayments, _⟩ := pawnLoan_cast_defaults now fresh body doc hcast
      refine ⟨hactive hstatus, ?_, rfl⟩
      rw [hrepayments] at hcastRepayments
      simpa [castRepayments] using hcastRepayments.symm

/-- The witness of C18: the scenario's payload supplies neither status nor
repayments, and is stored as an active loan without repayments. -/
theorem createPawnLoan_defaults_witness :
    createPawnLoan 5 2 emptyDb scenarioLoanPayload =
      (⟨201, Body.success scenarioLoan⟩, { emptyDb with pawnLoans := [scenarioLoan] }) ∧
    scenarioLoan.status = LoanStatus.active ∧ scenarioLoan.repayments = [] ∧
    ({ emptyDb with pawnLoans := [scenarioLoan] } : Db).pawnLoans =
      emptyDb.pawnLoans ++ [scenarioLoan] :=
  ⟨rfl,
    createPawnLoan_defaults 5 2 emptyDb scenarioLoanPayload scenarioLoan
      { emptyDb with pawnLoans := [scenarioLoan] } rfl rfl rfl⟩

/-! ## Due date and start date -/

/-- Two chains of optional steps that start alike succeed alike when their
continuations do. -/
theorem isSome_bind_congr {α β γ : Type} (x : Option α) (f : α → Option β) (g : α → Option γ)
    (h : ∀ a, (f a).isSome = (g a).isSome) : (x.bind f).isSome = (x.bind g).isSome := by
  cases x with
  | none => rfl
  | some a => exact h a

/-- Whether a loan payload passes the schema does not depend on the value of
its due date, once it has one. -/
theorem pawnLoan_cast_isSome_dueDate (now : Int) (fresh : ObjectId) (body : LoanPayload)
    (due due' : Int) :
    (PawnLoan.cast now fresh { body with dueDate := some due }).isSome =
      (PawnLoan.cast now fresh { body with dueDate := some due' }).isSome := by
  simp only [PawnLoan.cast, Option.bind_eq_bind, Option.pure_def, Option.some_bind]
  repeat' (apply isSome_bind_congr; intro _)
  split <;> (repeat' (apply isSome_bind_congr; intro _)) <;> rfl

/-- Whether an update passes the update validators does not depend on the
value of its due date. -/
theorem pawnLoan_castUpdate_isSome_dueDate (body : LoanUpdatePayload) (due due' : Int) :
    (PawnLoan.castUpdate { body with dueDate := some due }).isSome =
      (PawnLoan.castUpdate { body with dueDate := some due' }).isSome := by
  simp only [PawnLoan.castUpdate, Option.bind_eq_bind, Option.pure_def]
  repeat' (apply isSome_bind_congr; intro _)
  rfl

/-- The status `createPawnLoan` answers: 201 when the payload passes the schema
and the store is up, 400 otherwise. -/
theorem createPawnLoan_status (now : Int) (fresh : ObjectId) (db : Db) (body : LoanPayload) :
    (createPawnLoan now fresh db body).1.status =
      if (PawnLoan.cast now fresh body).isSome ∧ db.fault = none then 201 else 400 := by
  unfold createPawnLoan PawnLoan.create
  cases PawnLoan.cast now fresh body with
  | none => simp
  | some doc =>
    cases db.fault with
    | none => simp
    | some message => simp

/-- The status `updatePawnLoan` answers: 400 for a malformed id, for an update
that fails a validator and for a store fault, 404 when the store holds no loan
of that id, 200 otherwise. -/
theorem updatePawnLoan_status (now : Int) (db : Db) (id : IdParam) (body : LoanUpdatePayload) :
    (updatePawnLoan now db id body).1.status =
      match id with
      | IdParam.malformed _ => 400
      | IdParam.valid oid =>
        if (PawnLoan.castUpdate body).isSome ∧ db.fault = none then
          if (db.pawnLoans.find? (fun d => d._id == oid)).isSome then 200 else 404
        else 400 := by
  unfold updatePawnLoan PawnLoan.findByIdAndUpdate
  cases id with
  | malformed raw => rfl
  | valid oid =>
    cases hupdate : PawnLoan.castUpdate body with
    | none => simp
    | some update =>
      cases hfault : db.fault with
      | some message => simp
      | none =>
        cases hfound : db.pawnLoans.find? (fun d => d._id == oid) with
        | none => simp only [hfound, Option.isSome_some, Option.isSome_none, true_and,
            Bool.false_eq_true, if_false, if_true]
        | some doc => simp only [hfound, Option.isSome_some, true_and, if_true]

/-- The counterexample to C19: `createPawnLoan` answers 201 and stores a loan
whose due date (50) is earlier than its start date (100), and `updatePawnLoan`
answers 200 and moves the due date of the sample loan (start date 0) to `-1`. -/
theorem server_accepts_due_before_start :
    (createPawnLoan 5 2 emptyDb loanDueBeforeStart).1.status = 201 ∧
    (createPawnLoan 5 2 emptyDb loanDueBeforeStart).2.pawnLoans.map
        (fun d => (d.startDate, d.dueDate)) = [(100, 50)] ∧
    (updatePawnLoan 5 sampleDb (IdParam.valid 1) dueDateOnlyUpdate).1.status = 200 ∧
    (updatePawnLoan 5 sampleDb (IdParam.valid 1) dueDateOnlyUpdate).2.pawnLoans.map
        (fun d => (d.startDate, d.dueDate)) = [(0, -1)] ∧
    (50 : Int) < 100 ∧ (-1 : Int) < 0 :=
  ⟨rfl, rfl, rfl, rfl, by decide, by decide⟩

/-- C19, as the code has it: the loan form's `validationSchema` reports
`dueDate` whenever the due date is earlier than the start date, so a form that
passes it has a due date on or after its start date; `createPawnLoan` and
`updatePawnLoan` never compare the two dates: the status each answers is the
same for every value of the due date. -/
theorem dueDate_order_checked_by_form_only :
    (∀ (values : LoanFormValues) (start due : Int),
      values.startDate = some start → values.dueDate = some due → due < start →
      "dueDate" ∈ validationSchema values) ∧
    (∀ values : LoanFormValues, validationSchema values = [] →
      ∃ start due, values.startDate = some start ∧ values.dueDate = some due ∧ start ≤ due) ∧
    (∀ (now : Int) (fresh : ObjectId) (db : Db) (body : LoanPayload) (due due' : Int),
      (createPawnLoan now fresh db { body with dueDate := some due }).1.status =
        (createPawnLoan now fresh db { body with dueDate := some due' }).1.status) ∧
    (∀ (now : Int) (db : Db) (id : IdParam) (body : LoanUpdatePayload) (due due' : Int),
      (updatePawnLoan now db id { body with dueDate := some due }).1.status =
        (updatePawnLoan now db id { body with dueDate := some due' }).1.status) := by
  refine ⟨?_, ?_, ?_, ?_⟩
  · intro values start due hstart hdue hlt
    simp [validationSchema, hstart, hdue, not_le.mpr hlt]
  · intro values hvalid
    simp only [validationSchema, List.append_eq_nil, List.append_assoc] at hvalid
    obtain ⟨_, _, _, _, _, _, hstart, hdue, _⟩ := hvalid
    cases hs : values.startDate with
    | none => simp [hs] at hstart
    | some start =>
      cases hd : values.dueDate with
      | none => simp [hd] at hdue
      | some due =>
        refine ⟨start, due, rfl, rfl, ?_⟩
        by_contra hlt
        simp [hs, hd, hlt] at hdue
  · intro now fresh db body due due'
    rw [createPawnLoan_status, createPawnLoan_status, pawnLoan_cast_isSome_dueDate]
  · intro now db id body due due'
    rw [updatePawnLoan_status, updatePawnLoan_status,
      pawnLoan_castUpdate_isSome_dueDate body due due']

/-- The witness of C19: the form with due date 50 and start date 100 reports
`dueDate`. -/
theorem dueDate_order_checked_by_form_only_witness :
    formDueBeforeStart.startDate = some 100 ∧ formDueBeforeStart.dueDate = some 50 ∧
    "dueDate" ∈ validationSchema formDueBeforeStart :=
  ⟨rfl, rfl, dueDate_order_checked_by_form_only.1 formDueBeforeStart 100 50 rfl rfl
    (by decide)⟩

/-! ## Expenses and the total -/

/-- The total after one more expense has been appended is the prior total plus
its amount, the sum rounded to the nearest double. -/
theorem totalExpenses_append (record : Horticulture) (entry : Expense) (stamp : Int)
    (version : Nat) :
    totalExpenses
        { record with
          expenses := record.expenses ++ [entry], updatedAt := stamp, __v := version } =
      totalExpenses record + JSNumber.num entry.amount := by
  simp only [totalExpenses, List.foldl_append, List.foldl_cons, List.foldl_nil]

/-- What `addExpense` does for an existing crop record with a payload that
passes the validators: it answers 200 with the record, the entry appended,
`updatedAt` stamped and `__v` incremented, and the store then holds that
document. -/
theorem addExpense_accepted (now : Int) (db : Db) (id : IdParam) (body : ExpensePayload)
    (record : Horticulture) (entry : Expense)
    (hfind : Horticulture.findById db id = Except.ok (some record))
    (hval : validateExpense now record.expenses.length body = Except.ok entry) :
    (addExpense now db id body).1 =
      ⟨200, Body.success
        { record with
          expenses := record.expenses ++ [entry], updatedAt := now, __v := record.__v + 1 }⟩ ∧
    Horticulture.findById (addExpense now db id body).2 id =
      Except.ok (some { record with
          expenses := record.expenses ++ [entry], updatedAt := now, __v := record.__v + 1 })
    := by
  obtain ⟨db', hsave, hafter⟩ := horticulture_save_found now hfind
    { record with expenses := record.expenses ++ [entry] } rfl
  have hrun : addExpense now db id body =
      (⟨200, Body.success
        { record with
          expenses := record.expenses ++ [entry], updatedAt := now, __v := record.__v + 1 }⟩, db') := by
    simp only [addExpense, hfind, pushExpenseAndSave, hval, hsave]
  rw [hrun]
  exact ⟨rfl, hafter⟩

/-- The expenses of a document made from a payload are those of the payload. -/
theorem horticulture_cast_expenses (now : Int) (fresh : ObjectId) (body : HorticulturePayload)
    (doc : Horticulture) (hcast : Horticulture.cast now fresh body = some doc) :
    castExpenses now 0 body.expenses = some doc.expenses := by
  simp only [Horticulture.cast, Option.bind_eq_bind, Option.bind_eq_some, Option.pure_def,
    Option.some.injEq] at hcast
  obtain ⟨cropType, _, location, _, areaValue, _, hrest⟩ := hcast
  split at hrest
  all_goals
    simp only [Option.some_bind, Option.bind_eq_some, Option.some.injEq] at hrest
  all_goals
    first
      | (obtain ⟨plantingDate, _, expectedHarvestDate, _, expenses, hexpenses, hrest⟩ := hrest
         split at hrest <;>
           simp only [Option.some_bind, Option.bind_eq_some, Option.some.injEq] at hrest
         · subst hrest; exact hexpenses
         · obtain ⟨status, _, hdoc⟩ := hrest
           subst hdoc; exact hexpenses)
      | (obtain ⟨areaUnit, _, plantingDate, _, expectedHarvestDate, _, expenses, hexpenses,
           hrest⟩ := hrest
         split at hrest <;>
           simp only [Option.some_bind, Option.bind_eq_some, Option.some.injEq] at hrest
         · subst hrest; exact hexpenses
         · obtain ⟨status, _, hdoc⟩ := hrest
           subst hdoc; exact hexpenses)

/-- The counterexample to C16: `createHorticulture` answers 201 for a payload
that carries a seeds expense of 200, and the newly created record has total
expenses 200, not 0. -/
theorem createHorticulture_keeps_payload_expenses :
    createHorticulture 5 8 emptyDb cropPayloadWithExpense =
      (⟨201, Body.success cropCreatedWithExpense⟩,
        { emptyDb with horticultures := [cropCreatedWithExpense] }) ∧
    totalExpenses cropCreatedWithExpense = JSNumber.num 200 ∧
    totalExpenses cropCreatedWithExpense ≠ 0 :=
  ⟨rfl, by decide!, by decide!⟩

/-- C16, as the code has it: for an existing crop record and an accepted
expense of amount `a`, the total after `addExpense` is the total before plus
`a`, added as JavaScript adds numbers; a crop record created from a payload
that supplies no expenses has total 0; and a record without expenses has total
500 after a seeds expense of 200 and a labor expense of 300. -/
theorem addExpense_total (now : Int) (db : Db) (id : IdParam) (body : ExpensePayload)
    (record : Horticulture) (a : ℚ)
    (hfind : Horticulture.findById db id = Except.ok (some record))
    (hamount : body.amount = some a)
    (haccept : (addExpense now db id body).1.status = 200) :
    (∃ saved, (addExpense now db id body).1 = ⟨200, Body.success saved⟩ ∧
      Horticulture.findById (addExpense now db id body).2 id = Except.ok (some saved) ∧
      totalExpenses saved = totalExpenses record + JSNumber.num a) ∧
    (∀ (now' : Int) (fresh : ObjectId) (db₀ : Db) (payload : HorticulturePayload)
      (created : Horticulture) (db₀' : Db),
      createHorticulture now' fresh db₀ payload = (⟨201, Body.success created⟩, db₀') →
      payload.expenses = [] → totalExpenses created = 0) ∧
    (∀ later : Int, record.expenses = [] →
      ∃ saved,
        (addExpense later (addExpense now db id ⟨some "seeds", some 200, none, none⟩).2 id
          ⟨some "labor", some 300, none, none⟩).1 = ⟨200, Body.success saved⟩ ∧
        totalExpenses saved = JSNumber.num 500) := by
  refine ⟨?_, ?_, ?_⟩
  · cases hval : validateExpense now record.expenses.length body with
    | error paths => simp [addExpense, hfind, pushExpenseAndSave, hval] at haccept
    | ok entry =>
      obtain ⟨hres, hafter⟩ := addExpense_accepted now db id body record entry hfind hval
      refine ⟨_, hres, hafter, ?_⟩
      rw [totalExpenses_append]
      have hentry := (validateExpense_ok hval).1
      rw [hamount] at hentry
      rw [Option.some.inj hentry]
  · intro now' fresh db₀ payload created db₀' hcreated hnone
    unfold createHorticulture Horticulture.create at hcreated
    cases hcast : Horticulture.cast now' fresh payload with
    | none => simp [hcast] at hcreated
    | some doc =>
      cases hfault : db₀.fault with
      | some message => simp [hcast, hfault] at hcreated
      | none =>
        simp only [hcast, hfault, Prod.mk.injEq, Response.mk.injEq, Body.success.injEq,
          true_and] at hcreated
        obtain ⟨hdoc, _⟩ := hcreated
        subst hdoc
        have hexpenses := horticulture_cast_expenses now' fresh payload doc hcast
        rw [hnone] at hexpenses
        have hempty : doc.expenses = [] := by simpa [castExpenses] using hexpenses.symm
        simp only [totalExpenses, hempty, List.foldl_nil]
  · intro later hnone
    have hval₁ : validateExpense now record.expenses.length
        ⟨some "seeds", some 200, none, none⟩ =
        Except.ok ⟨ExpenseCategory.seeds, 200, now, none⟩ := by
      simp [validateExpense, requiredString, ExpenseCategory.ofString?]
    obtain ⟨_, hafter₁⟩ := addExpense_accepted now db id _ record _ hfind hval₁
    have hval₂ : validateExpense later
        (record.expenses ++ [(⟨ExpenseCategory.seeds, 200, now, none⟩ : Expense)]).length
        ⟨some "labor", some 300, none, none⟩ =
        Except.ok ⟨ExpenseCategory.labor, 300, later, none⟩ := by
      simp [validateExpense, requiredString, ExpenseCategory.ofString?]
    obtain ⟨hres₂, _⟩ := addExpense_accepted later _ id _ _ _ hafter₁ hval₂
    refine ⟨_, hres₂, ?_⟩
    rw [totalExpenses_append, totalExpenses_append]
    simp only [totalExpenses, hnone, List.foldl_nil]
    decide!

/-- The witness of C16: the scenario's crop is created without expenses, then
charged 200 for seeds and 300 for labor; its total is 500. -/
theorem addExpense_total_witness :
    createHorticulture 5 8 emptyDb { cropPayloadWithExpense with expenses := [] } =
      (⟨201, Body.success scenarioCrop⟩, { emptyDb with horticultures := [scenarioCrop] }) ∧
    totalExpenses scenarioCrop = 0 ∧
    ∃ saved,
      (addExpense 7
        (addExpense 6 { emptyDb with horticultures := [scenarioCrop] } (IdParam.valid 8)
          ⟨some "seeds", some 200, none, none⟩).2 (IdParam.valid 8)
        ⟨some "labor", some 300, none, none⟩).1 = ⟨200, Body.success saved⟩ ∧
      totalExpenses saved = JSNumber.num 500 :=
  ⟨rfl,
    (addExpense_total 6 { emptyDb with horticultures := [scenarioCrop] } (IdParam.valid 8)
      ⟨some "seeds", some 200, none, none⟩ scenarioCrop 200 rfl rfl rfl).2.1 5 8 emptyDb
      { cropPayloadWithExpense with expenses := [] } scenarioCrop
      { emptyDb with horticultures := [scenarioCrop] } rfl rfl,
    (addExpense_total 6 { emptyDb with horticultures := [scenarioCrop] } (IdParam.valid 8)
      ⟨some "seeds", some 200, none, none⟩ scenarioCrop 200 rfl rfl rfl).2.2 7 rfl⟩

/-! ## Ids that name no record -/

/-- A store that is up and holds no loan of an id finds none under it. -/
theorem pawnLoan_findById_absent (db : Db) (oid : ObjectId) (hup : db.fault = none)
    (habsent : ∀ d ∈ db.pawnLoans, d._id ≠ oid) :
    db.pawnLoans.find? (fun d => d._id == oid) = none ∧
    PawnLoan.findById db (IdParam.valid oid) = Except.ok none := by
  have hnone : db.pawnLoans.find? (fun d => d._id == oid) = none := by
    rw [List.find?_eq_none]
    intro d hd
    simpa using habsent d hd
  exact ⟨hnone, by simp only [PawnLoan.findById, hup, hnone]⟩

/-- A store that is up and holds no crop record of an id finds none under
it. -/
theorem horticulture_findById_absent (db : Db) (oid : ObjectId) (hup : db.fault = none)
    (habsent : ∀ d ∈ db.horticultures, d._id ≠ oid) :
    db.horticultures.find? (fun d => d._id == oid) = none ∧
    Horticulture.findById db (IdParam.valid oid) = Except.ok none := by
  have hnone : db.horticultures.find? (fun d => d._id == oid) = none := by
    rw [List.find?_eq_none]
    intro d hd
    simpa using habsent d hd
  exact ⟨hnone, by simp only [Horticulture.findById, hup, hnone]⟩

/-- The counterexample to C21: the malformed id `'nope'` names no record of the
sample store, yet reading a loan under it is answered 500 and adding a
repayment under it 400; and under the well-formed id `99`, which names no loan
either, an update with an empty customer name is answered 400. -/
theorem unmatched_id_not_always_404 :
    (∀ d ∈ sampleDb.pawnLoans, IdParam.valid d._id ≠ IdParam.malformed "nope") ∧
    getPawnLoan sampleDb (IdParam.malformed "nope") =
      ⟨500, Body.failure (ErrorText.messageOf (Thrown.castError "_id"))⟩ ∧
    addRepayment 5 sampleDb (IdParam.malformed "nope") ⟨some 250, none, some "principal"⟩ =
      (⟨400, Body.failure (ErrorText.messageOf (Thrown.castError "_id"))⟩, sampleDb) ∧
    (∀ d ∈ sampleDb.pawnLoans, d._id ≠ 99) ∧
    updatePawnLoan 5 sampleDb (IdParam.valid 99) { emptyLoanUpdate with customerName := some "" } =
      (⟨400, Body.failure (ErrorText.messageOf (Thrown.validationError ["customerName"]))⟩,
        sampleDb) := by
  refine ⟨?_, rfl, rfl, ?_, rfl⟩
  · intro d _ h
    cases h
  · intro d hd
    simp only [sampleDb, List.mem_singleton] at hd
    subst hd
    decide

/-- C21, as the code has it: for a well-formed id that names no loan, while
the store is up, get, delete and addRepayment respond 404 with
`success: false` and leave the store unchanged, and so does update for every
payload that passes the update validators; likewise get, delete, addExpense,
updateHarvest and update on crops for a well-formed id that names no crop
record.  An id that is not a well-formed `ObjectId` names no record either, and
is answered 500 by get and delete and 400 by update, addRepayment, addExpense
and updateHarvest, with the cast error and the store unchanged.  An update
whose payload fails the update validators is answered 400 under every
well-formed id, whether or not it names a record. -/
theorem absent_id_not_found (now : Int) (db : Db) (oid : ObjectId) (raw : String)
    (loanUpdate : LoanUpdatePayload) (cropUpdate : HorticultureUpdatePayload)
    (repayment : RepaymentPayload) (expense : ExpensePayload) (harvest : HarvestPayload) :
    (db.fault = none → (∀ d ∈ db.pawnLoans, d._id ≠ oid) →
      getPawnLoan db (IdParam.valid oid) =
        ⟨404, Body.failure (ErrorText.text "Pawn loan not found")⟩ ∧
      ((PawnLoan.castUpdate loanUpdate).isSome →
        updatePawnLoan now db (IdParam.valid oid) loanUpdate =
          (⟨404, Body.failure (ErrorText.text "Pawn loan not found")⟩, db)) ∧
      deletePawnLoan db (IdParam.valid oid) =
        (⟨404, Body.failure (ErrorText.text "Pawn loan not found")⟩, db) ∧
      addRepayment now db (IdParam.valid oid) repayment =
        (⟨404, Body.failure (ErrorText.text "Pawn loan not found")⟩, db)) ∧
    (db.fault = none → (∀ d ∈ db.horticultures, d._id ≠ oid) →
      getHorticultureRecord db (IdParam.valid oid) =
        ⟨404, Body.failure (ErrorText.text "Horticulture record not found")⟩ ∧
      ((Horticulture.castUpdate now cropUpdate).isSome →
        updateHorticultureRecord now db (IdParam.valid oid) cropUpdate =
          (⟨404, Body.failure (ErrorText.text "Horticulture record not found")⟩, db)) ∧
      deleteHorticultureRecord db (IdParam.valid oid) =
        (⟨404, Body.failure (ErrorText.text "Horticulture record not found")⟩, db) ∧
      addExpense now db (IdParam.valid oid) expense =
        (⟨404, Body.failure (ErrorText.text "Horticulture record not found")⟩, db) ∧
      updateHarvest now db (IdParam.valid oid) harvest =
        (⟨404, Body.failure (ErrorText.text "Horticulture record not found")⟩, db)) ∧
    ((∀ d ∈ db.pawnLoans, IdParam.valid d._id ≠ IdParam.malformed raw) ∧
      (∀ d ∈ db.horticultures, IdParam.valid d._id ≠ IdParam.malformed raw) ∧
      getPawnLoan db (IdParam.malformed raw) =
        ⟨500, Body.failure (ErrorText.messageOf (Thrown.castError "_id"))⟩ ∧
      deletePawnLoan db (IdParam.malformed raw) =
        (⟨500, Body.failure (ErrorText.messageOf (Thrown.castError "_id"))⟩, db) ∧
      updatePawnLoan now db (IdParam.malformed raw) loanUpdate =
        (⟨400, Body.failure (ErrorText.messageOf (Thrown.castError "_id"))⟩, db) ∧
      addRepayment now db (IdParam.malformed raw) repayment =
        (⟨400, Body.failure (ErrorText.messageOf (Thrown.castError "_id"))⟩, db) ∧
      getHorticultureRecord db (IdParam.malformed raw) =
        ⟨500, Body.failure (ErrorText.messageOf (Thrown.castError "_id"))⟩ ∧
      deleteHorticultureRecord db (IdParam.malformed raw) =
        (⟨500, Body.failure (ErrorText.messageOf (Thrown.castError "_id"))⟩, db) ∧
      updateHorticultureRecord now db (IdParam.malformed raw) cropUpdate =
        (⟨400, Body.failure (ErrorText.messageOf (Thrown.castError "_id"))⟩, db) ∧
      addExpense now db (IdParam.malformed raw) expense =
        (⟨400, Body.failure (ErrorText.messageOf (Thrown.castError "_id"))⟩, db) ∧
      updateHarvest now db (IdParam.malformed raw) harvest =
        (⟨400, Body.failure (ErrorText.messageOf (Thrown.castError "_id"))⟩, db)) ∧
    ((PawnLoan.castUpdate loanUpdate).isNone →
      updatePawnLoan now db (IdParam.valid oid) loanUpdate =
        (⟨400, Body.failure (ErrorText.messageOf
          (Thrown.validationError (PawnLoan.updateFailingPaths loanUpdate)))⟩, db)) ∧
    ((Horticulture.castUpdate now cropUpdate).isNone →
      updateHorticultureRecord now db (IdParam.valid oid) cropUpdate =
        (⟨400, Body.failure (ErrorText.messageOf
          (Thrown.validationError (Horticulture.updateFailingPaths now cropUpdate)))⟩, db)) := by
  refine ⟨?_, ?_,
    ⟨fun _ _ h => IdParam.noConfusion h, fun _ _ h => IdParam.noConfusion h,
      rfl, rfl, rfl, rfl, rfl, rfl, rfl, rfl, rfl⟩, ?_, ?_⟩
  · intro hup hloan
    obtain ⟨hl, hlfind⟩ := pawnLoan_findById_absent db oid hup hloan
    refine ⟨?_, ?_, ?_, ?_⟩
    · simp only [getPawnLoan, hlfind]
    · intro hvalid
      obtain ⟨update, hupdate⟩ := Option.isSome_iff_exists.mp hvalid
      simp only [updatePawnLoan, PawnLoan.findByIdAndUpdate, hupdate, hup, hl]
    · simp only [deletePawnLoan, PawnLoan.findByIdAndDelete, hup, hl]
    · simp only [addRepayment, hlfind]
  · intro hup hcrop
    obtain ⟨hc, hcfind⟩ := horticulture_findById_absent db oid hup hcrop
    refine ⟨?_, ?_, ?_, ?_, ?_⟩
    · simp only [getHorticultureRecord, hcfind]
    · intro hvalid
      obtain ⟨update, hupdate⟩ := Option.isSome_iff_exists.mp hvalid
      simp only [updateHorticultureRecord, Horticulture.findByIdAndUpdate, hupdate, hup, hc]
    · simp only [deleteHorticultureRecord, Horticulture.findByIdAndDelete, hup, hc]
    · simp only [addExpense, hcfind]
    · simp only [updateHarvest, hcfind]
  · intro hinvalid
    have hnone : PawnLoan.castUpdate loanUpdate = none := Option.isNone_iff_eq_none.mp hinvalid
    simp only [updatePawnLoan, PawnLoan.findByIdAndUpdate, hnone]
  · intro hinvalid
    have hnone : Horticulture.castUpdate now cropUpdate = none :=
      Option.isNone_iff_eq_none.mp hinvalid
    simp only [updateHorticultureRecord, Horticulture.findByIdAndUpdate, hnone]

/-- The witness of C21: the id `99` names no record of the sample store, and
`'nope'` is no `ObjectId`. -/
theorem absent_id_not_found_witness :
    getPawnLoan sampleDb (IdParam.valid 99) =
      ⟨404, Body.failure (ErrorText.text "Pawn loan not found")⟩ ∧
    updateHarvest 5 sampleDb (IdParam.valid 99) ⟨some ⟨some 35, some "kg"⟩⟩ =
      (⟨404, Body.failure (ErrorText.text "Horticulture record not found")⟩, sampleDb) ∧
    deleteHorticultureRecord sampleDb (IdParam.malformed "nope") =
      (⟨500, Body.failure (ErrorText.messageOf (Thrown.castError "_id"))⟩, sampleDb) :=
  ⟨((absent_id_not_found 5 sampleDb 99 "nope" emptyLoanUpdate emptyCropUpdate
      ⟨some 250, none, some "principal"⟩ ⟨some "seeds", some 20, none, none⟩
      ⟨some ⟨some 35, some "kg"⟩⟩).1 rfl (by decide)).1,
    ((absent_id_not_found 5 sampleDb 99 "nope" emptyLoanUpdate emptyCropUpdate
      ⟨some 250, none, some "principal"⟩ ⟨some "seeds", some 20, none, none⟩
      ⟨some ⟨some 35, some "kg"⟩⟩).2.1 rfl (by decide)).2.2.2.2,
    (absent_id_not_found 5 sampleDb 99 "nope" emptyLoanUpdate emptyCropUpdate
      ⟨some 250, none, some "principal"⟩ ⟨some "seeds", some 20, none, none⟩
      ⟨some ⟨some 35, some "kg"⟩⟩).2.2.1.2.2.2.2.2.2.2.1⟩

/-! ## Deleting a record -/

/-- After the documents of an id have been filtered out, a lookup of that id
finds none. -/
theorem find?_filter_ne {α : Type} (key : α → ObjectId) (oid : ObjectId) (docs : List α) :
    (docs.filter (fun d => key d != oid)).find? (fun d => key d == oid) = none := by
  rw [List.find?_eq_none]
  intro d hd
  have hne := (List.mem_filter.mp hd).2
  simpa using hne

/-- C24: deleting an existing loan or crop record answers 200 with empty data,
removes the record of that id from its collection and leaves every other
record and collection as it was; the id then names no record, and a second
delete of it is answered 404. -/
theorem delete_removes_exactly_that_record (db : Db) (loanId cropId : IdParam)
    (loan : PawnLoan) (record : Horticulture) :
    (PawnLoan.findById db loanId = Except.ok (some loan) →
      deletePawnLoan db loanId =
        (⟨200, Body.success ()⟩,
          { db with pawnLoans := db.pawnLoans.filter (fun d => d._id != loan._id) }) ∧
      (∀ d, d ∈ (deletePawnLoan db loanId).2.pawnLoans ↔ d ∈ db.pawnLoans ∧ d._id ≠ loan._id) ∧
      PawnLoan.findById (deletePawnLoan db loanId).2 loanId = Except.ok none ∧
      deletePawnLoan (deletePawnLoan db loanId).2 loanId =
        (⟨404, Body.failure (ErrorText.text "Pawn loan not found")⟩,
          (deletePawnLoan db loanId).2)) ∧
    (Horticulture.findById db cropId = Except.ok (some record) →
      deleteHorticultureRecord db cropId =
        (⟨200, Body.success ()⟩,
          { db with
            horticultures := db.horticultures.filter (fun d => d._id != record._id) }) ∧
      (∀ d, d ∈ (deleteHorticultureRecord db cropId).2.horticultures ↔
        d ∈ db.horticultures ∧ d._id ≠ record._id) ∧
      Horticulture.findById (deleteHorticultureRecord db cropId).2 cropId = Except.ok none ∧
      deleteHorticultureRecord (deleteHorticultureRecord db cropId).2 cropId =
        (⟨404, Body.failure (ErrorText.text "Horticulture record not found")⟩,
          (deleteHorticultureRecord db cropId).2)) := by
  constructor
  · intro hloan
    obtain ⟨oid, rfl, hup, hkey, hlookup⟩ := pawnLoan_findById_some hloan
    subst hkey
    have hrun : deletePawnLoan db (IdParam.valid loan._id) =
        (⟨200, Body.success ()⟩,
          { db with pawnLoans := db.pawnLoans.filter (fun d => d._id != loan._id) }) := by
      simp only [deletePawnLoan, PawnLoan.findByIdAndDelete, hup, hlookup]
    have hgone := find?_filter_ne (fun d : PawnLoan => d._id) loan._id db.pawnLoans
    rw [hrun]
    refine ⟨rfl, ?_, ?_, ?_⟩
    · intro d
      simp [List.mem_filter]
    · simp only [PawnLoan.findById, hup, hgone]
    · simp only [deletePawnLoan, PawnLoan.findByIdAndDelete, hup, hgone]
  · intro hcrop
    obtain ⟨oid, rfl, hup, hkey, hlookup⟩ := horticulture_findById_some hcrop
    subst hkey
    have hrun : deleteHorticultureRecord db (IdParam.valid record._id) =
        (⟨200, Body.success ()⟩,
          { db with
            horticultures := db.horticultures.filter (fun d => d._id != record._id) }) := by
      simp only [deleteHorticultureRecord, Horticulture.findByIdAndDelete, hup, hlookup]
    have hgone := find?_filter_ne (fun d : Horticulture => d._id) record._id db.horticultures
    rw [hrun]
    refine ⟨rfl, ?_, ?_, ?_⟩
    · intro d
      simp [List.mem_filter]
    · simp only [Horticulture.findById, hup, hgone]
    · simp only [deleteHorticultureRecord, Horticulture.findByIdAndDelete, hup, hgone]

/-- The witness of C24: the sample loan is deleted from a store that holds the
scenario's loan as well, which stays, and no crop record; the sample crop is
deleted from the sample store. -/
theorem delete_removes_exactly_that_record_witness :
    deletePawnLoan { emptyDb with pawnLoans := [sampleLoan, scenarioLoan] } (IdParam.valid 1) =
      (⟨200, Body.success ()⟩, { emptyDb with pawnLoans := [scenarioLoan] }) ∧
    deletePawnLoan { emptyDb with pawnLoans := [scenarioLoan] } (IdParam.valid 1) =
      (⟨404, Body.failure (ErrorText.text "Pawn loan not found")⟩,
        { emptyDb with pawnLoans := [scenarioLoan] }) ∧
    PawnLoan.findById
        (deletePawnLoan { emptyDb with pawnLoans := [sampleLoan, scenarioLoan] }
          (IdParam.valid 1)).2 (IdParam.valid 1) = Except.ok none ∧
    Horticulture.findById (deleteHorticultureRecord sampleDb (IdParam.valid 7)).2
      (IdParam.valid 7) = Except.ok none :=
  ⟨rfl, rfl,
    ((delete_removes_exactly_that_record
      { emptyDb with pawnLoans := [sampleLoan, scenarioLoan] }
      (IdParam.valid 1) (IdParam.valid 7) sampleLoan sampleCrop).1 rfl).2.2.1,
    ((delete_removes_exactly_that_record sampleDb
      (IdParam.valid 1) (IdParam.valid 7) sampleLoan sampleCrop).2 rfl).2.2.1⟩

/-! ## Store failures -/

/-- The counterexample to C25: while the backing store is failing, adding a
valid repayment, creating a loan from a valid payload and recording a harvest
are each answered 400 with the store's error, not 500. -/
theorem store_failure_answered_400 :
    faultyDb.fault = some "connection lost" ∧
    addRepayment 5 faultyDb (IdParam.valid 1) ⟨some 250, none, some "principal"⟩ =
      (⟨400, Body.failure (ErrorText.messageOf (Thrown.storeError "connection lost"))⟩,
        faultyDb) ∧
    (PawnLoan.cast 5 2 scenarioLoanPayload).isSome = true ∧
    createPawnLoan 5 2 faultyDb scenarioLoanPayload =
      (⟨400, Body.failure (ErrorText.messageOf (Thrown.storeError "connection lost"))⟩,
        faultyDb) ∧
    updateHarvest 5 faultyDb (IdParam.valid 7) ⟨some ⟨some 35, some "kg"⟩⟩ =
      (⟨400, Body.failure (ErrorText.messageOf (Thrown.storeError "connection lost"))⟩,
        faultyDb) :=
  ⟨rfl, rfl, rfl, rfl, rfl⟩

/-- C25, as the code has it: a failure of the backing store is reported with
status 500 by the operations that only read or delete (list, read, delete),
and with status 400 by the operations that write a payload (create, update,
addRepayment, addExpense, updateHarvest), for which 400 therefore covers
validation failures and store failures alike. -/
theorem store_failure_status (now : Int) (fresh oid : ObjectId) (db : Db) (message : String)
    (loanPayload : LoanPayload) (cropPayload : HorticulturePayload)
    (loanUpdate : LoanUpdatePayload) (cropUpdate : HorticultureUpdatePayload)
    (repayment : RepaymentPayload) (expense : ExpensePayload) (harvest : HarvestPayload)
    (hdown : db.fault = some message) :
    (getPawnLoans db = ⟨500, Body.failure (ErrorText.messageOf (Thrown.storeError message))⟩ ∧
      getPawnLoan db (IdParam.valid oid) =
        ⟨500, Body.failure (ErrorText.messageOf (Thrown.storeError message))⟩ ∧
      deletePawnLoan db (IdParam.valid oid) =
        (⟨500, Body.failure (ErrorText.messageOf (Thrown.storeError message))⟩, db) ∧
      getHorticultureRecords db =
        ⟨500, Body.failure (ErrorText.messageOf (Thrown.storeError message))⟩ ∧
      getHorticultureRecord db (IdParam.valid oid) =
        ⟨500, Body.failure (ErrorText.messageOf (Thrown.storeError message))⟩ ∧
      deleteHorticultureRecord db (IdParam.valid oid) =
        (⟨500, Body.failure (ErrorText.messageOf (Thrown.storeError message))⟩, db)) ∧
    (((PawnLoan.cast now fresh loanPayload).isSome →
        createPawnLoan now fresh db loanPayload =
          (⟨400, Body.failure (ErrorText.messageOf (Thrown.storeError message))⟩, db)) ∧
      ((PawnLoan.castUpdate loanUpdate).isSome →
        updatePawnLoan now db (IdParam.valid oid) loanUpdate =
          (⟨400, Body.failure (ErrorText.messageOf (Thrown.storeError message))⟩, db)) ∧
      addRepayment now db (IdParam.valid oid) repayment =
        (⟨400, Body.failure (ErrorText.messageOf (Thrown.storeError message))⟩, db) ∧
      ((Horticulture.cast now fresh cropPayload).isSome →
        createHorticulture now fresh db cropPayload =
          (⟨400, Body.failure (ErrorText.messageOf (Thrown.storeError message))⟩, db)) ∧
      ((Horticulture.castUpdate now cropUpdate).isSome →
        updateHorticultureRecord now db (IdParam.valid oid) cropUpdate =
          (⟨400, Body.failure (ErrorText.messageOf (Thrown.storeError message))⟩, db)) ∧
      addExpense now db (IdParam.valid oid) expense =
        (⟨400, Body.failure (ErrorText.messageOf (Thrown.storeError message))⟩, db) ∧
      updateHarvest now db (IdParam.valid oid) harvest =
        (⟨400, Body.failure (ErrorText.messageOf (Thrown.storeError message))⟩, db)) := by
  refine ⟨⟨?_, ?_, ?_, ?_, ?_, ?_⟩, ⟨?_, ?_, ?_, ?_, ?_, ?_, ?_⟩⟩
  · simp only [getPawnLoans, PawnLoan.find, hdown]
  · simp only [getPawnLoan, PawnLoan.findById, hdown]
  · simp only [deletePawnLoan, PawnLoan.findByIdAndDelete, hdown]
  · simp only [getHorticultureRecords, Horticulture.find, hdown]
  · simp only [getHorticultureRecord, Horticulture.findById, hdown]
  · simp only [deleteHorticultureRecord, Horticulture.findByIdAndDelete, hdown]
  · intro hvalid
    obtain ⟨doc, hdoc⟩ := Option.isSome_iff_exists.mp hvalid
    simp only [createPawnLoan, PawnLoan.create, hdoc, hdown]
  · intro hvalid
    obtain ⟨update, hupdate⟩ := Option.isSome_iff_exists.mp hvalid
    simp only [updatePawnLoan, PawnLoan.findByIdAndUpdate, hupdate, hdown]
  · simp only [addRepayment, PawnLoan.findById, hdown]
  · intro hvalid
    obtain ⟨doc, hdoc⟩ := Option.isSome_iff_exists.mp hvalid
    simp only [createHorticulture, Horticulture.create, hdoc, hdown]
  · intro hvalid
    obtain ⟨update, hupdate⟩ := Option.isSome_iff_exists.mp hvalid
    simp only [updateHorticultureRecord, Horticulture.findByIdAndUpdate, hupdate, hdown]
  · simp only [addExpense, Horticulture.findById, hdown]
  · simp only [updateHarvest, Horticulture.findById, hdown]

/-- The witness of C25: against the failing sample store, listing the loans is
answered 500 and adding a repayment 400. -/
theorem store_failure_status_witness :
    getPawnLoans faultyDb =
      ⟨500, Body.failure (ErrorText.messageOf (Thrown.storeError "connection lost"))⟩ ∧
    addRepayment 5 faultyDb (IdParam.valid 1) ⟨some 250, none, some "principal"⟩ =
      (⟨400, Body.failure (ErrorText.messageOf (Thrown.storeError "connection lost"))⟩,
        faultyDb) :=
  ⟨(store_failure_status 5 2 1 faultyDb "connection lost" scenarioLoanPayload
      cropPayloadWithExpense emptyLoanUpdate emptyCropUpdate
      ⟨some 250, none, some "principal"⟩ ⟨some "seeds", some 20, none, none⟩
      ⟨some ⟨some 35, some "kg"⟩⟩ rfl).1.1,
    (store_failure_status 5 2 1 faultyDb "connection lost" scenarioLoanPayload
      cropPayloadWithExpense emptyLoanUpdate emptyCropUpdate
      ⟨some 250, none, some "principal"⟩ ⟨some "seeds", some 20, none, none⟩
      ⟨some ⟨some 35, some "kg"⟩⟩ rfl).2.2.2.1⟩

/-! ## The status of a crop record -/

/-- Every member of the crop status enum is named by its string. -/
theorem cropStatus_ofString?_toString (status : CropStatus) :
    CropStatus.ofString? status.toString = some status := by
  cases status <;> rfl

/-- A string names no crop status exactly when it is none of the four members
of the enum. -/
theorem cropStatus_ofString?_eq_none (s : String) :
    CropStatus.ofString? s = none ↔ s ∉ ["planning", "planted", "growing", "harvested"] := by
  unfold CropStatus.ofString?
  split <;> simp_all

/-- A named path passes when its value passes the check. -/
theorem castNamed_some {α β : Type} (check : α → Option β) (value : α) :
    castNamed check (some value) = (check value).map some := rfl

/-- A path that is not named passes. -/
theorem castNamed_none {α β : Type} (check : α → Option β) :
    castNamed check none = some none := rfl

/-- Naming a status in a crop update changes nothing else about what the
update validators make of the update. -/
theorem horticulture_castUpdate_status (now : Int) (body : HorticultureUpdatePayload)
    (s : String) :
    Horticulture.castUpdate now { body with status := some s } =
      match Horticulture.castUpdate now { body with status := none },
        CropStatus.ofString? s with
      | some update, some status => some { update with status := some status }
      | _, _ => none := by
  simp only [Horticulture.castUpdate, Option.bind_eq_bind, Option.pure_def, castNamed_some,
    castNamed_none]
  cases castNamed (fun s => requiredString true (some s)) body.cropType <;>
  cases castNamed (fun s => requiredString false (some s)) body.location <;>
  cases castNamed
    (fun a => (AreaUnit.ofString? a.unit).map (fun u => (⟨a.value, u⟩ : AreaSize)))
    body.areaSize <;>
  cases castNamed (castExpenses now 0) body.expenses <;>
  cases CropStatus.ofString? s <;> rfl

/-- C26: for an existing crop record in any status and an update whose other
named paths pass their validators (in particular one that names the status
only), naming any member of the status enum is answered 200 and leaves the
stored record with that status, whatever the current status is; naming a
string outside the enum is answered 400 and leaves the store unchanged. -/
theorem updateHorticultureRecord_any_status (now : Int) (db : Db) (id : IdParam)
    (record : Horticulture) (body : HorticultureUpdatePayload)
    (hfind : Horticulture.findById db id = Except.ok (some record))
    (hothers : (Horticulture.castUpdate now { body with status := none }).isSome) :
    (∀ target : CropStatus,
      ∃ saved,
        (updateHorticultureRecord now db id { body with status := some target.toString }).1 =
          ⟨200, Body.success saved⟩ ∧
        Horticulture.findById
          (updateHorticultureRecord now db id { body with status := some target.toString }).2
          id = Except.ok (some saved) ∧
        saved.status = target) ∧
    (∀ s, s ∉ ["planning", "planted", "growing", "harvested"] →
      (updateHorticultureRecord now db id { body with status := some s }).1.status = 400 ∧
      (∃ paths,
        (updateHorticultureRecord now db id { body with status := some s }).1.body =
          Body.failure (ErrorText.messageOf (Thrown.validationError paths))) ∧
      (updateHorticultureRecord now db id { body with status := some s }).2 = db) := by
  obtain ⟨oid, rfl, hup, hkey, hlookup⟩ := horticulture_findById_some hfind
  obtain ⟨update, hupdate⟩ := Option.isSome_iff_exists.mp hothers
  constructor
  · intro target
    have hcast : Horticulture.castUpdate now { body with status := some target.toString } =
        some { update with status := some target } := by
      rw [horticulture_castUpdate_status, hupdate, cropStatus_ofString?_toString]
    have hrun : updateHorticultureRecord now db (IdParam.valid oid)
        { body with status := some target.toString } =
        (⟨200, Body.success
          (Horticulture.merge now record { update with status := some target })⟩,
          { db with
            horticultures := db.horticultures.map
              (fun d => if d._id == oid
                then Horticulture.merge now record { update with status := some target }
                else d) }) := by
      simp only [updateHorticultureRecord, Horticulture.findByIdAndUpdate, hcast, hup, hlookup]
    rw [hrun]
    refine ⟨_, rfl, ?_, rfl⟩
    simp only [Horticulture.findById, hup]
    rw [find?_map_replace (fun d : Horticulture => d._id) oid _ record (by exact hkey)
      db.horticultures hlookup]
  · intro s hs
    have hcast : Horticulture.castUpdate now { body with status := some s } = none := by
      rw [horticulture_castUpdate_status, hupdate, (cropStatus_ofString?_eq_none s).2 hs]
    have hrun : updateHorticultureRecord now db (IdParam.valid oid)
        { body with status := some s } =
        (⟨400, Body.failure (ErrorText.messageOf (Thrown.validationError
          (Horticulture.updateFailingPaths now { body with status := some s })))⟩, db) := by
      simp only [updateHorticultureRecord, Horticulture.findByIdAndUpdate, hcast]
    rw [hrun]
    exact ⟨rfl, ⟨_, rfl⟩, rfl⟩

/-- The witness of C26: the sample crop is harvested and then set back to
`planning` by an update that names the status only. -/
theorem updateHorticultureRecord_any_status_witness :
    ∃ saved,
      (updateHorticultureRecord 9
        (updateHarvest 5 sampleDb (IdParam.valid 7) ⟨some ⟨some 35, some "kg"⟩⟩).2
        (IdParam.valid 7) { emptyCropUpdate with status := some "planning" }).1 =
        ⟨200, Body.success saved⟩ ∧
      Horticulture.findById
        (updateHorticultureRecord 9
          (updateHarvest 5 sampleDb (IdParam.valid 7) ⟨some ⟨some 35, some "kg"⟩⟩).2
          (IdParam.valid 7) { emptyCropUpdate with status := some "planning" }).2
        (IdParam.valid 7) = Except.ok (some saved) ∧
      saved.status = CropStatus.planning :=
  (updateHorticultureRecord_any_status 9
    (updateHarvest 5 sampleDb (IdParam.valid 7) ⟨some ⟨some 35, some "kg"⟩⟩).2
    (IdParam.valid 7)
    { sampleCrop with
      actualYield := ⟨some 35, some "kg"⟩, status := CropStatus.harvested, updatedAt := 5 }
    emptyCropUpdate rfl rfl).1 CropStatus.planning

/-! ## Validation of an update -/

/-- A payload passes `pawnLoanSchema` exactly when each of its rules passes. -/
theorem pawnLoan_cast_isSome_iff (now : Int) (fresh : ObjectId) (body : LoanPayload) :
    (PawnLoan.cast now fresh body).isSome = true ↔
      (requiredString true body.customerName).isSome = true ∧
      (requiredString true body.phoneNumber).isSome = true ∧
      (requiredString false body.address).isSome = true ∧
      ((requiredString false body.collateralType).bind CollateralType.ofString?).isSome = true ∧
      body.loanAmount.isSome = true ∧ body.interestRate.isSome = true ∧
      body.dueDate.isSome = true ∧
      (castNamed LoanStatus.ofString? body.status).isSome = true ∧
      (castRepayments 0 body.repayments).isSome = true := by
  simp only [PawnLoan.cast, Option.bind_eq_bind, Option.pure_def]
  cases requiredString true body.customerName <;>
  cases requiredString true body.phoneNumber <;>
  cases requiredString false body.address <;>
  cases (requiredString false body.collateralType).bind CollateralType.ofString? <;>
  cases body.loanAmount <;> cases body.interestRate <;> cases body.dueDate <;>
  cases castRepayments 0 body.repayments <;>
  first
    | (simp only [Option.none_bind, Option.some_bind, Option.isSome_none, Bool.false_eq_true,
        false_and, and_false]; done)
    | (cases body.status with
       | none => simp [castNamed]
       | some s => cases hs : LoanStatus.ofString? s <;> simp [castNamed, hs])

/-- An update passes the update validators exactly when each named path
passes. -/
theorem pawnLoan_castUpdate_isSome_iff (body : LoanUpdatePayload) :
    (PawnLoan.castUpdate body).isSome = true ↔
      (castNamed (fun s => requiredString true (some s)) body.customerName).isSome = true ∧
      (castNamed (fun s => requiredString true (some s)) body.phoneNumber).isSome = true ∧
      (castNamed (fun s => requiredString false (some s)) body.address).isSome = true ∧
      (castNamed (fun s => (requiredString false (some s)).bind CollateralType.ofString?)
        body.collateralType).isSome = true ∧
      (castNamed LoanStatus.ofString? body.status).isSome = true ∧
      (castNamed (castRepayments 0) body.repayments).isSome = true := by
  simp only [PawnLoan.castUpdate, Option.bind_eq_bind, Option.pure_def]
  cases castNamed (fun s => requiredString true (some s)) body.customerName <;>
  cases castNamed (fun s => requiredString true (some s)) body.phoneNumber <;>
  cases castNamed (fun s => requiredString false (some s)) body.address <;>
  cases castNamed (fun s => (requiredString false (some s)).bind CollateralType.ofString?)
    body.collateralType <;>
  cases castNamed LoanStatus.ofString? body.status <;>
  cases castNamed (castRepayments 0) body.repayments <;>
  simp

/-- A stored repayment passes the validators again, at any index. -/
theorem validateRepayment_toPayload (index : Nat) (repayment : Repayment) :
    validateRepayment index repayment.toPayload = Except.ok repayment := by
  rcases repayment with ⟨amount, date, type⟩
  cases type with
  | none => rfl
  | some t => cases t <;> rfl

/-- A stored repayment list passes the validators again. -/
theorem castRepayments_toPayload (repayments : List Repayment) :
    ∀ index, castRepayments index (repayments.map Repayment.toPayload) = some repayments := by
  induction repayments with
  | nil => intro index; rfl
  | cons r rest ih =>
    intro index
    simp only [List.map_cons, castRepayments, validateRepayment_toPayload, ih]

/-- Whether a named or stored value passes, as one test on the overlaid
value. -/
theorem isSome_check_getD {α : Type} (check : String → Option α) (named : Option String)
    (stored : String) (hstored : (check stored).isSome = true) :
    (check (named.getD stored)).isSome = (castNamed check named).isSome := by
  cases named with
  | none => simp [castNamed, hstored]
  | some s => simp [castNamed]

/-- For a stored loan that satisfies the schema, the merged record of an update
satisfies the schema exactly when the update passes the update validators. -/
theorem satisfiesSchema_mergedRecord (loan : PawnLoan) (body : LoanUpdatePayload)
    (hstored : satisfiesSchema loan.toPayload = true) :
    satisfiesSchema (mergedRecord loan body) = true ↔
      (PawnLoan.castUpdate body).isSome = true := by
  unfold satisfiesSchema at hstored ⊢
  rw [pawnLoan_cast_isSome_iff] at hstored ⊢
  rw [pawnLoan_castUpdate_isSome_iff]
  obtain ⟨hname, hphone, haddress, _⟩ := hstored
  simp only [PawnLoan.toPayload] at hname hphone haddress
  have htype : ((requiredString false (some loan.collateralType.toString)).bind
      CollateralType.ofString?).isSome = true := by
    cases loan.collateralType <;> rfl
  have hstatus : (LoanStatus.ofString? loan.status.toString).isSome = true := by
    cases loan.status <;> rfl
  have hrepayments : (castNamed (castRepayments 0) body.repayments).isSome =
      (castRepayments 0
        (body.repayments.getD (loan.repayments.map Repayment.toPayload))).isSome := by
    cases body.repayments with
    | none => simp [castNamed, castRepayments_toPayload]
    | some rs => simp [castNamed]
  simp only [mergedRecord, Option.isSome_some, true_and, castNamed_some, Option.isSome_map']
  rw [isSome_check_getD (fun s => requiredString true (some s)) body.customerName _ hname,
    isSome_check_getD (fun s => requiredString true (some s)) body.phoneNumber _ hphone,
    isSome_check_getD (fun s => requiredString false (some s)) body.address _ haddress,
    isSome_check_getD (fun s => (requiredString false (some s)).bind CollateralType.ofString?)
      body.collateralType _ htype,
    isSome_check_getD LoanStatus.ofString? body.status _ hstatus, hrepayments]

/-- C22: for an existing loan that satisfies the schema, `updatePawnLoan` fails
with a validation error and leaves the store unchanged whenever the merged
record (existing fields overlaid with the payload) breaks a schema rule, and it
answers 200 exactly when the merged record satisfies every schema rule. -/
theorem updatePawnLoan_validates_merged (now : Int) (db : Db) (id : IdParam)
    (body : LoanUpdatePayload) (loan : PawnLoan)
    (hfind : PawnLoan.findById db id = Except.ok (some loan))
    (hstored : satisfiesSchema loan.toPayload = true) :
    (satisfiesSchema (mergedRecord loan body) = false →
      updatePawnLoan now db id body =
        (⟨400, Body.failure (ErrorText.messageOf
          (Thrown.validationError (PawnLoan.updateFailingPaths body)))⟩, db)) ∧
    ((updatePawnLoan now db id body).1.status = 200 ↔
      satisfiesSchema (mergedRecord loan body) = true) := by
  obtain ⟨oid, rfl, hup, hkey, hlookup⟩ := pawnLoan_findById_some hfind
  have hiff := satisfiesSchema_mergedRecord loan body hstored
  cases hupdate : PawnLoan.castUpdate body with
  | none =>
    have hinvalid : satisfiesSchema (mergedRecord loan body) = false := by
      cases hmerged : satisfiesSchema (mergedRecord loan body) with
      | false => rfl
      | true => exact absurd (hiff.mp hmerged) (by simp [hupdate])
    have hrun : updatePawnLoan now db (IdParam.valid oid) body =
        (⟨400, Body.failure (ErrorText.messageOf
          (Thrown.validationError (PawnLoan.updateFailingPaths body)))⟩, db) := by
      simp only [updatePawnLoan, PawnLoan.findByIdAndUpdate, hupdate]
    refine ⟨fun _ => hrun, ?_⟩
    rw [hrun, hinvalid]
    simp
  | some update =>
    have hvalid : satisfiesSchema (mergedRecord loan body) = true :=
      hiff.mpr (by simp [hupdate])
    have hstatus : (updatePawnLoan now db (IdParam.valid oid) body).1.status = 200 := by
      simp only [updatePawnLoan, PawnLoan.findByIdAndUpdate, hupdate, hup, hlookup]
    refine ⟨fun hfalse => ?_, ?_⟩
    · rw [hvalid] at hfalse
      cases hfalse
    · exact ⟨fun _ => hvalid, fun _ => hstatus⟩

/-- The witness of C22: blanking the customer name of the sample loan leaves a
merged record that breaks the schema, and is answered 400. -/
theorem updatePawnLoan_validates_merged_witness :
    satisfiesSchema sampleLoan.toPayload = true ∧
    satisfiesSchema
      (mergedRecord sampleLoan { emptyLoanUpdate with customerName := some "  " }) = false ∧
    updatePawnLoan 5 sampleDb (IdParam.valid 1)
        { emptyLoanUpdate with customerName := some "  " } =
      (⟨400, Body.failure (ErrorText.messageOf (Thrown.validationError
        (PawnLoan.updateFailingPaths { emptyLoanUpdate with customerName := some "  " })))⟩,
        sampleDb) :=
  ⟨rfl, rfl,
    (updatePawnLoan_validates_merged 5 sampleDb (IdParam.valid 1)
      { emptyLoanUpdate with customerName := some "  " } sampleLoan rfl rfl).1 rfl⟩

/-! ## What an update and a repayment leave unchanged -/

/-- The paths of a validated update, read off the payload. -/
theorem pawnLoan_castUpdate_fields (body : LoanUpdatePayload) (update : LoanUpdate)
    (h : PawnLoan.castUpdate body = some update) :
    castNamed (fun s => requiredString true (some s)) body.customerName =
      some update.customerName ∧
    castNamed (fun s => requiredString true (some s)) body.phoneNumber =
      some update.phoneNumber ∧
    castNamed (fun s => requiredString false (some s)) body.address = some update.address ∧
    castNamed (fun s => (requiredString false (some s)).bind CollateralType.ofString?)
      body.collateralType = some update.collateralType ∧
    castNamed LoanStatus.ofString? body.status = some update.status ∧
    castNamed (castRepayments 0) body.repayments = some update.repayments ∧
    update.collateralDetails = body.collateralDetails ∧
    update.loanAmount = body.loanAmount ∧ update.interestRate = body.interestRate ∧
    update.startDate = body.startDate ∧ update.dueDate = body.dueDate := by
  simp only [PawnLoan.castUpdate, Option.bind_eq_bind, Option.bind_eq_some, Option.pure_def,
    Option.some.injEq] at h
  obtain ⟨customerName, h₁, phoneNumber, h₂, address, h₃, collateralType, h₄, status, h₅,
    repayments, h₆, hupdate⟩ := h
  subst hupdate
  exact ⟨h₁, h₂, h₃, h₄, h₅, h₆, rfl, rfl, rfl, rfl, rfl⟩

/-- A required string that passes is the payload's string, trimmed when the
schema says so. -/
theorem requiredString_eq_some (trim : Bool) (s stored : String)
    (h : requiredString trim (some s) = some stored) :
    stored = if trim then jsTrim s else s := by
  cases trim with
  | false =>
    by_cases hempty : s = ""
    · simp [requiredString, hempty] at h
    · simpa [requiredString, hempty] using h.symm
  | true =>
    by_cases hempty : jsTrim s = ""
    · simp [requiredString, hempty] at h
    · simpa [requiredString, hempty] using h.symm

/-- The member a string names is named by that string. -/
theorem loanStatus_toString_of_ofString? (s : String) (status : LoanStatus)
    (h : LoanStatus.ofString? s = some status) : status.toString = s := by
  unfold LoanStatus.ofString? at h
  split at h <;> cases h <;> rfl

/-- The collateral type a string names is named by that string. -/
theorem collateralType_toString_of_ofString? (s : String) (type : CollateralType)
    (h : (requiredString false (some s)).bind CollateralType.ofString? = some type) :
    type.toString = s := by
  simp only [Option.bind_eq_some] at h
  obtain ⟨stored, hstored, htype⟩ := h
  have hs := requiredString_eq_some false s stored hstored
  simp only [Bool.false_eq_true, if_false] at hs
  subst hs
  unfold CollateralType.ofString? at htype
  split at htype <;> cases htype <;> rfl

/-- What `updatePawnLoan` does for an existing loan with an update that passes
the update validators: it answers 200 with the merged document, and the store
then holds that document. -/
theorem updatePawnLoan_accepted (now : Int) (db : Db) (id : IdParam) (body : LoanUpdatePayload)
    (loan : PawnLoan) (update : LoanUpdate)
    (hfind : PawnLoan.findById db id = Except.ok (some loan))
    (hupdate : PawnLoan.castUpdate body = some update) :
    (updatePawnLoan now db id body).1 = ⟨200, Body.success (PawnLoan.merge now loan update)⟩ ∧
    PawnLoan.findById (updatePawnLoan now db id body).2 id =
      Except.ok (some (PawnLoan.merge now loan update)) := by
  obtain ⟨oid, rfl, hup, hkey, hlookup⟩ := pawnLoan_findById_some hfind
  have hrun : updatePawnLoan now db (IdParam.valid oid) body =
      (⟨200, Body.success (PawnLoan.merge now loan update)⟩,
        { db with
          pawnLoans := db.pawnLoans.map
            (fun d => if d._id == oid then PawnLoan.merge now loan update else d) }) := by
    simp only [updatePawnLoan, PawnLoan.findByIdAndUpdate, hupdate, hup, hlookup]
  rw [hrun]
  refine ⟨rfl, ?_⟩
  simp only [PawnLoan.findById, hup]
  rw [find?_map_replace (fun d : PawnLoan => d._id) oid _ loan (by exact hkey)
    db.pawnLoans hlookup]

/-- An update that `updatePawnLoan` answers with 200 has passed the update
validators. -/
theorem updatePawnLoan_accept_castUpdate (now : Int) (db : Db) (id : IdParam)
    (body : LoanUpdatePayload)
    (haccept : (updatePawnLoan now db id body).1.status = 200) :
    ∃ update, PawnLoan.castUpdate body = some update := by
  cases hupdate : PawnLoan.castUpdate body with
  | some update => exact ⟨update, rfl⟩
  | none =>
    cases id with
    | malformed raw => simp [updatePawnLoan, PawnLoan.findByIdAndUpdate] at haccept
    | valid oid => simp [updatePawnLoan, PawnLoan.findByIdAndUpdate, hupdate] at haccept

/-- The counterexample to C23: an update of the sample loan that names only
`customerName`, as `' Asha Devi '`, is answered 200; the stored name is the
trimmed `'Asha Devi'`, not the payload's value, and `updatedAt`, which the
payload does not name, moves from 172800000 to the time of the update. -/
theorem updatePawnLoan_trims_and_stamps :
    updatePawnLoan 259200000 sampleDb (IdParam.valid 1) renameUpdate =
      (⟨200, Body.success
        { sampleLoan with customerName := "Asha Devi", updatedAt := 259200000 }⟩,
        { sampleDb with
          pawnLoans :=
            [{ sampleLoan with customerName := "Asha Devi", updatedAt := 259200000 }] }) ∧
    renameUpdate.customerName = some " Asha Devi " ∧ "Asha Devi" ≠ " Asha Devi " ∧
    sampleLoan.updatedAt = 172800000 ∧ (259200000 : Int) ≠ 172800000 :=
  ⟨rfl, rfl, by decide, rfl, by decide⟩

/-- C23, as the code has it: for an existing loan and an accepted update, each
path the payload names takes the payload's value (`customerName` and
`phoneNumber` trimmed, `collateralType` and `status` as the enum member the
string names, `repayments` as the elements the payload's list casts to), every
path it does not name, including the repayment list, keeps its prior value,
`_id`, `createdAt` and the version key `__v` are kept, and `updatedAt` is set
to the time of the update. -/
theorem updatePawnLoan_partial_merge (now : Int) (db : Db) (id : IdParam)
    (body : LoanUpdatePayload) (loan : PawnLoan)
    (hfind : PawnLoan.findById db id = Except.ok (some loan))
    (haccept : (updatePawnLoan now db id body).1.status = 200) :
    ∃ saved,
      (updatePawnLoan now db id body).1 = ⟨200, Body.success saved⟩ ∧
      PawnLoan.findById (updatePawnLoan now db id body).2 id = Except.ok (some saved) ∧
      ((∀ s, body.customerName = some s → saved.customerName = jsTrim s) ∧
        (∀ s, body.phoneNumber = some s → saved.phoneNumber = jsTrim s) ∧
        (∀ s, body.address = some s → saved.address = s) ∧
        (∀ s, body.collateralType = some s → saved.collateralType.toString = s) ∧
        (∀ v, body.collateralDetails = some v → saved.collateralDetails = v) ∧
        (∀ v, body.loanAmount = some v → saved.loanAmount = v) ∧
        (∀ v, body.interestRate = some v → saved.interestRate = v) ∧
        (∀ v, body.startDate = some v → saved.startDate = v) ∧
        (∀ v, body.dueDate = some v → saved.dueDate = v) ∧
        (∀ s, body.status = some s → saved.status.toString = s) ∧
        (∀ rs, body.repayments = some rs → castRepayments 0 rs = some saved.repayments)) ∧
      ((body.customerName = none → saved.customerName = loan.customerName) ∧
        (body.phoneNumber = none → saved.phoneNumber = loan.phoneNumber) ∧
        (body.address = none → saved.address = loan.address) ∧
        (body.collateralType = none → saved.collateralType = loan.collateralType) ∧
        (body.collateralDetails = none → saved.collateralDetails = loan.collateralDetails) ∧
        (body.loanAmount = none → saved.loanAmount = loan.loanAmount) ∧
        (body.interestRate = none → saved.interestRate = loan.interestRate) ∧
        (body.startDate = none → saved.startDate = loan.startDate) ∧
        (body.dueDate = none → saved.dueDate = loan.dueDate) ∧
        (body.status = none → saved.status = loan.status) ∧
        (body.repayments = none → saved.repayments = loan.repayments)) ∧
      saved._id = loan._id ∧ saved.createdAt = loan.createdAt ∧ saved.__v = loan.__v ∧
      saved.updatedAt = now := by
  obtain ⟨update, hupdate⟩ := updatePawnLoan_accept_castUpdate now db id body haccept
  obtain ⟨hres, hafter⟩ := updatePawnLoan_accepted now db id body loan update hfind hupdate
  obtain ⟨h₁, h₂, h₃, h₄, h₅, h₆, h₇, h₈, h₉, h₁₀, h₁₁⟩ :=
    pawnLoan_castUpdate_fields body update hupdate
  refine ⟨PawnLoan.merge now loan update, hres, hafter,
    ⟨?_, ?_, ?_, ?_, ?_, ?_, ?_, ?_, ?_, ?_, ?_⟩,
    ⟨?_, ?_, ?_, ?_, ?_, ?_, ?_, ?_, ?_, ?_, ?_⟩, rfl, rfl, rfl, rfl⟩
  · intro s hs
    rw [hs, castNamed_some] at h₁
    cases hreq : requiredString true (some s) with
    | none => simp [hreq] at h₁
    | some stored =>
      have hstored := requiredString_eq_some true s stored hreq
      simp only [hreq, Option.map_some', Option.some.injEq] at h₁
      simp only [PawnLoan.merge, ← h₁, Option.getD_some, hstored, if_true]
  · intro s hs
    rw [hs, castNamed_some] at h₂
    cases hreq : requiredString true (some s) with
    | none => simp [hreq] at h₂
    | some stored =>
      have hstored := requiredString_eq_some true s stored hreq
      simp only [hreq, Option.map_some', Option.some.injEq] at h₂
      simp only [PawnLoan.merge, ← h₂, Option.getD_some, hstored, if_true]
  · intro s hs
    rw [hs, castNamed_some] at h₃
    cases hreq : requiredString false (some s) with
    | none => simp [hreq] at h₃
    | some stored =>
      have hstored := requiredString_eq_some false s stored hreq
      simp only [hreq, Option.map_some', Option.some.injEq] at h₃
      simp only [PawnLoan.merge, ← h₃, Option.getD_some, hstored, Bool.false_eq_true, if_false]
  · intro s hs
    rw [hs, castNamed_some] at h₄
    cases htype : (requiredString false (some s)).bind CollateralType.ofString? with
    | none => simp [htype] at h₄
    | some type =>
      simp only [htype, Option.map_some', Option.some.injEq] at h₄
      simp only [PawnLoan.merge, ← h₄, Option.getD_some]
      exact collateralType_toString_of_ofString? s type htype
  · intro v hv
    simp only [PawnLoan.merge, h₇, hv, Option.getD_some]
  · intro v hv
    simp only [PawnLoan.merge, h₈, hv, Option.getD_some]
  · intro v hv
    simp only [PawnLoan.merge, h₉, hv, Option.getD_some]
  · intro v hv
    simp only [PawnLoan.merge, h₁₀, hv, Option.getD_some]
  · intro v hv
    simp only [PawnLoan.merge, h₁₁, hv, Option.getD_some]
  · intro s hs
    rw [hs, castNamed_some] at h₅
    cases hstatus : LoanStatus.ofString? s with
    | none => simp [hstatus] at h₅
    | some status =>
      simp only [hstatus, Option.map_some', Option.some.injEq] at h₅
      simp only [PawnLoan.merge, ← h₅, Option.getD_some]
      exact loanStatus_toString_of_ofString? s status hstatus
  · intro rs hrs
    rw [hrs, castNamed_some] at h₆
    cases hcast : castRepayments 0 rs with
    | none => simp [hcast] at h₆
    | some repayments =>
      simp only [hcast, Option.map_some', Option.some.injEq] at h₆
      simp only [PawnLoan.merge, ← h₆, Option.getD_some]
  all_goals
    intro hnone
    first
      | (rw [hnone, castNamed_none] at h₁
         simp only [PawnLoan.merge, ← Option.some.inj h₁, Option.getD_none])
      | (rw [hnone, castNamed_none] at h₂
         simp only [PawnLoan.merge, ← Option.some.inj h₂, Option.getD_none])
      | (rw [hnone, castNamed_none] at h₃
         simp only [PawnLoan.merge, ← Option.some.inj h₃, Option.getD_none])
      | (rw [hnone, castNamed_none] at h₄
         simp only [PawnLoan.merge, ← Option.some.inj h₄, Option.getD_none])
      | (rw [hnone, castNamed_none] at h₅
         simp only [PawnLoan.merge, ← Option.some.inj h₅, Option.getD_none])
      | (rw [hnone, castNamed_none] at h₆
         simp only [PawnLoan.merge, ← Option.some.inj h₆, Option.getD_none])
      | (simp only [PawnLoan.merge, h₇, h₈, h₉, h₁₀, h₁₁, hnone, Option.getD_none])

/-- The witness of C23: the rename of the sample loan keeps its repayments and
its status, and stamps `updatedAt`. -/
theorem updatePawnLoan_partial_merge_witness :
    (updatePawnLoan 259200000 sampleDb (IdParam.valid 1) renameUpdate).1.status = 200 ∧
    ∃ saved,
      (updatePawnLoan 259200000 sampleDb (IdParam.valid 1) renameUpdate).1 =
        ⟨200, Body.success saved⟩ ∧
      saved.customerName = jsTrim " Asha Devi " ∧
      saved.repayments = sampleLoan.repayments ∧ saved.status = sampleLoan.status ∧
      saved.updatedAt = 259200000 := by
  obtain ⟨saved, hres, _, hnamed, hkept, _, _, _, hstamp⟩ :=
    updatePawnLoan_partial_merge 259200000 sampleDb (IdParam.valid 1) renameUpdate sampleLoan
      rfl rfl
  exact ⟨rfl, saved, hres, hnamed.1 " Asha Devi " rfl, hkept.2.2.2.2.2.2.2.2.2.2 rfl,
    hkept.2.2.2.2.2.2.2.2.2.1 rfl, hstamp⟩

/-- The counterexample to C27: a repayment added to the sample loan at time
259200000 is accepted; the loan's `updatedAt` moves from 172800000 to
259200000 and its version key `__v` from 2 to 3, and neither is the repayment
list. -/
theorem addRepayment_stamps_updatedAt :
    addRepayment 259200000 sampleDb (IdParam.valid 1) ⟨some 250, none, some "principal"⟩ =
      (⟨200, Body.success
        { sampleLoan with
          repayments :=
            sampleLoan.repayments ++ [⟨some 250, none, some RepaymentType.principal⟩]
          updatedAt := 259200000
          __v := 3 }⟩,
        { sampleDb with
          pawnLoans :=
            [{ sampleLoan with
               repayments :=
                 sampleLoan.repayments ++ [⟨some 250, none, some RepaymentType.principal⟩]
               updatedAt := 259200000
               __v := 3 }] }) ∧
    sampleLoan.updatedAt = 172800000 ∧ (259200000 : Int) ≠ 172800000 ∧
    sampleLoan.__v = 2 :=
  ⟨rfl, rfl, by decide, rfl⟩

/-- C27, as the code has it: for an existing loan and an accepted repayment,
whatever the outstanding principal is before or after, `addRepayment` leaves
the loan's status and every field other than the repayment list, `updatedAt`
and the version key `__v` unchanged; the repayment list gains the entry,
`updatedAt` is set to the time of the call, and `__v` is incremented by
one. -/
theorem addRepayment_keeps_status (now : Int) (db : Db) (id : IdParam)
    (body : RepaymentPayload) (loan : PawnLoan)
    (hfind : PawnLoan.findById db id = Except.ok (some loan))
    (haccept : (addRepayment now db id body).1.status = 200) :
    ∃ saved entry,
      (addRepayment now db id body).1 = ⟨200, Body.success saved⟩ ∧
      PawnLoan.findById (addRepayment now db id body).2 id = Except.ok (some saved) ∧
      saved = { loan with
          repayments := loan.repayments ++ [entry], updatedAt := now, __v := loan.__v + 1 } ∧
      saved.status = loan.status ∧
      saved._id = loan._id ∧ saved.customerName = loan.customerName ∧
      saved.phoneNumber = loan.phoneNumber ∧ saved.address = loan.address ∧
      saved.collateralType = loan.collateralType ∧
      saved.collateralDetails = loan.collateralDetails ∧
      saved.loanAmount = loan.loanAmount ∧ saved.interestRate = loan.interestRate ∧
      saved.startDate = loan.startDate ∧ saved.dueDate = loan.dueDate ∧
      saved.createdAt = loan.createdAt ∧ saved.updatedAt = now ∧
      saved.__v = loan.__v + 1 := by
  cases hval : validateRepayment loan.repayments.length body with
  | error paths => simp [addRepayment, hfind, pushRepaymentAndSave, hval] at haccept
  | ok entry =>
    obtain ⟨hres, hafter⟩ := addRepayment_accepted now db id body loan entry hfind hval
    exact ⟨_, entry, hres, hafter, rfl, rfl, rfl, rfl, rfl, rfl, rfl, rfl, rfl, rfl, rfl, rfl,
      rfl, rfl, rfl⟩

/-- The witness of C27: a principal repayment of 20000 on the sample loan, which
owes 9500, leaves it `active`. -/
theorem addRepayment_keeps_status_witness :
    (addRepayment 259200000 sampleDb (IdParam.valid 1)
      ⟨some 20000, none, some "principal"⟩).1.status = 200 ∧
    ∃ saved,
      (addRepayment 259200000 sampleDb (IdParam.valid 1)
        ⟨some 20000, none, some "principal"⟩).1 = ⟨200, Body.success saved⟩ ∧
      saved.status = LoanStatus.active := by
  obtain ⟨saved, entry, hres, _, _, hstatus, _⟩ :=
    addRepayment_keeps_status 259200000 sampleDb (IdParam.valid 1)
      ⟨some 20000, none, some "principal"⟩ sampleLoan rfl rfl
  exact ⟨rfl, saved, hres, hstatus⟩

/-! ## Missing credentials at login -/

/-- C28: when the username or the password of a login request is missing or
empty, `login` responds 400 with `'Please provide username and password'`
whatever the store holds, also while the store is failing, so no account is
looked up; and it returns that response for no other request. -/
theorem login_requires_both (model : UserModel) (now : Int) (db : Db) (body : LoginPayload) :
    ((body.username = none ∨ body.username = some "" ∨ body.password = none ∨
        body.password = some "") →
      ∀ (model' : UserModel) (now' : Int) (db' : Db),
        login model' now' db' body =
          ⟨400, Body.failure (ErrorText.text "Please provide username and password")⟩) ∧
    (login model now db body =
        ⟨400, Body.failure (ErrorText.text "Please provide username and password")⟩ →
      body.username = none ∨ body.username = some "" ∨ body.password = none ∨
        body.password = some "") := by
  constructor
  · intro hmissing model' now' db'
    have hfalsy : (isFalsy body.username || isFalsy body.password) = true := by
      rcases hmissing with h | h | h | h <;> simp [h, isFalsy]
    simp only [login, hfalsy, if_true]
  · intro hresponse
    rcases body with ⟨username, password⟩
    cases username with
    | none => exact Or.inl rfl
    | some name =>
      cases password with
      | none => exact Or.inr (Or.inr (Or.inl rfl))
      | some secret =>
        by_cases hname : name = ""
        · exact Or.inr (Or.inl (by rw [hname]))
        · by_cases hsecret : secret = ""
          · exact Or.inr (Or.inr (Or.inr (by rw [hsecret])))
          · exfalso
            have hfalsy : (isFalsy (some name) || isFalsy (some secret)) = false := by
              simp [isFalsy, hname, hsecret]
            simp only [login, hfalsy, Bool.false_eq_true, if_false] at hresponse
            split at hresponse
            · cases hresponse
            · cases hresponse
            · split at hresponse <;> cases hresponse

/-- The witness of C28: a login without password is answered 400 against the
failing store as well. -/
theorem login_requires_both_witness :
    login sampleUserModel 5 faultyDb ⟨some "asha", none⟩ =
      ⟨400, Body.failure (ErrorText.text "Please provide username and password")⟩ ∧
    login sampleUserModel 5 sampleDb ⟨some "asha", some ""⟩ =
      ⟨400, Body.failure (ErrorText.text "Please provide username and password")⟩ :=
  ⟨(login_requires_both sampleUserModel 5 sampleDb ⟨some "asha", none⟩).1
      (Or.inr (Or.inr (Or.inl rfl))) sampleUserModel 5 faultyDb,
    (login_requires_both sampleUserModel 5 sampleDb ⟨some "asha", some ""⟩).1
      (Or.inr (Or.inr (Or.inr rfl))) sampleUserModel 5 sampleDb⟩

/-! ## The loan form's payload -/

/-- C29: the `collateralDetails` of the submitted `loanData` have exactly the
keys `weight`, `purity` and `description`, with the form's values, when
`collateralType` is `'gold'`, and exactly the keys `documentNumber`,
`landArea`, `location` and `marketValue` otherwise; the values that the other
type's form fields hold do not enter. -/
theorem loanData_collateralDetails (values : LoanFormState) :
    (values.collateralType = FormValue.text "gold" →
      (loanData values).collateralDetails =
        [("weight", values.weight), ("purity", values.purity),
         ("description", values.description)] ∧
      ∀ documentNumber landArea location marketValue,
        (loanData { values with
          documentNumber := documentNumber, landArea := landArea, location := location,
          marketValue := marketValue }).collateralDetails =
          (loanData values).collateralDetails) ∧
    (values.collateralType ≠ FormValue.text "gold" →
      (loanData values).collateralDetails =
        [("documentNumber", values.documentNumber), ("landArea", values.landArea),
         ("location", values.location), ("marketValue", values.marketValue)] ∧
      ∀ weight purity description,
        (loanData { values with
          weight := weight, purity := purity, description := description }).collateralDetails =
          (loanData values).collateralDetails) := by
  constructor
  · intro hgold
    exact ⟨by simp only [loanData, collateralDetailsOf, hgold, if_true],
      fun _ _ _ _ => by simp only [loanData, collateralDetailsOf, hgold, if_true]⟩
  · intro hother
    exact ⟨by simp only [loanData, collateralDetailsOf, hother, if_false],
      fun _ _ _ => by simp only [loanData, collateralDetailsOf, hother, if_false]⟩

/-- The witness of C29: with gold selected, the land fields of the form do not
reach the payload. -/
theorem loanData_collateralDetails_witness :
    (loanData goldFormState).collateralDetails =
      [("weight", FormValue.number 10), ("purity", FormValue.number 91),
       ("description", FormValue.text "")] :=
  ((loanData_collateralDetails goldFormState).1 rfl).1

/-! ## The client's error messages -/

/-- The operator `||` never yields the empty string when its right operand is
not empty. -/
theorem orElseText_ne_empty (value : Option String) (fallback : String)
    (h : fallback ≠ "") : orElseText value fallback ≠ "" := by
  unfold orElseText
  split
  · split <;> assumption
  · exact h

/-- C30: `handleApiError` returns `error: true` and a non-empty message: for a
response with status 403, 404 or 422 or with a status of 500 or more the
status's fixed text, whatever the body holds; for any other response status the
body's `error` member, else its `message` member, else the default text; for a
request without response the connection text; otherwise the default text. -/
theorem handleApiError_message (failure : ApiFailure) :
    (handleApiError failure).1.error = true ∧ (handleApiError failure).1.message ≠ "" ∧
    (∀ status data, failure = ApiFailure.response status data →
      (status = 403 → (handleApiError failure).1.message =
        "You do not have permission to perform this action.") ∧
      (status = 404 → (handleApiError failure).1.message =
        "The requested resource was not found.") ∧
      (status = 422 → (handleApiError failure).1.message =
        "Invalid data provided. Please check your input.") ∧
      (status ≥ 500 → (handleApiError failure).1.message =
        "Server error. Please try again later.") ∧
      (status ≠ 403 → status ≠ 404 → status ≠ 422 → status < 500 →
        (∀ text, data.error = some text → text ≠ "" →
          (handleApiError failure).1.message = text) ∧
        ((data.error = none ∨ data.error = some "") →
          ∀ text, data.message = some text → text ≠ "" →
            (handleApiError failure).1.message = text) ∧
        ((data.error = none ∨ data.error = some "") →
          (data.message = none ∨ data.message = some "") →
          (handleApiError failure).1.message = "An error occurred. Please try again."))) ∧
    (failure = ApiFailure.request → (handleApiError failure).1.message =
      "Unable to connect to the server. Please check your internet connection.") ∧
    (failure = ApiFailure.setup → (handleApiError failure).1.message =
      "An error occurred. Please try again.") := by
  cases failure with
  | request =>
    exact ⟨rfl, (by decide), (fun _ _ h => by cases h), (fun _ => rfl), (fun h => by cases h)⟩
  | setup =>
    exact ⟨rfl, (by decide), (fun _ _ h => by cases h), (fun h => by cases h), (fun _ => rfl)⟩
  | response status data =>
    have hdefault : orElseText data.error
        (orElseText data.message "An error occurred. Please try again.") ≠ "" :=
      orElseText_ne_empty _ _ (orElseText_ne_empty _ _ (by decide))
    refine ⟨?_, ?_, ?_, (fun h => by cases h), (fun h => by cases h)⟩
    · simp only [handleApiError]
      split_ifs <;> rfl
    · simp only [handleApiError]
      split_ifs
      · exact hdefault
      · decide
      · decide
      · decide
      · decide
      · exact hdefault
    · intro status' data' hsame
      cases hsame
      refine ⟨?_, ?_, ?_, ?_, ?_⟩
      · intro h
        subst h
        rfl
      · intro h
        subst h
        rfl
      · intro h
        subst h
        rfl
      · intro h
        have h401 : status ≠ 401 := by omega
        have h403 : status ≠ 403 := by omega
        have h404 : status ≠ 404 := by omega
        have h422 : status ≠ 422 := by omega
        simp only [handleApiError, h401, h403, h404, h422, h, if_false, if_true]
      · intro h403 h404 h422 hlt
        have hge : ¬ status ≥ 500 := by omega
        have hmessage : (handleApiError (ApiFailure.response status data)).1.message =
            orElseText data.error
              (orElseText data.message "An error occurred. Please try again.") := by
          simp only [handleApiError, h403, h404, h422, hge, if_false]
          split_ifs <;> rfl
        rw [hmessage]
        refine ⟨?_, ?_, ?_⟩
        · intro text herror hne
          simp only [orElseText, herror, hne, if_false]
        · intro herror text hmsg hne
          rcases herror with herror | herror <;>
            simp only [orElseText, herror, hmsg, hne, if_false, if_true]
        · intro herror hmsg
          rcases herror with herror | herror <;> rcases hmsg with hmsg | hmsg <;>
            simp only [orElseText, herror, hmsg, if_true]

/-- The witness of C30: a 404 keeps its fixed text whatever the body says, and
a 400 shows the body's error. -/
theorem handleApiError_message_witness :
    (handleApiError (ApiFailure.response 404 ⟨some "Pawn loan not found", none⟩)).1.message =
      "The requested resource was not found." ∧
    (handleApiError (ApiFailure.response 400 ⟨some "Loan amount is required", none⟩)).1.message =
      "Loan amount is required" :=
  ⟨((handleApiError_message
      (ApiFailure.response 404 ⟨some "Pawn loan not found", none⟩)).2.2.1 404
      ⟨some "Pawn loan not found", none⟩ rfl).2.1 rfl,
    (((handleApiError_message
      (ApiFailure.response 400 ⟨some "Loan amount is required", none⟩)).2.2.1 400
      ⟨some "Loan amount is required", none⟩ rfl).2.2.2.2 (by decide) (by decide) (by decide)
      (by decide)).1 "Loan amount is required" rfl (by decide)⟩

end Ledger
